import Mathlib

/-!
# Fixed-point Butterworth low-pass filters (`Platform/Filter/src/lowpass_filter.c`)

A shallow embedding of the six per-axis filter routines of `lowpass_filter.c`
and the properties of them that the specification states.

* C integers are Lean integers; every `int64_t` operation wraps modulo `2^64`
  (`add64`, `sub64`, `mul64`), the cast to `int32_t` wraps modulo `2^32`
  (`toInt32`) and the `uint8_t` counter wraps modulo `2^8` (`toUInt8`).
* `static` arrays are total functions from indices to values; the `static`
  variables of one routine are collected in one state record that the
  embedded routine receives and returns.
* A routine returns its `uint8_t` return value, the value left in `*out` and
  the next state (`FilterResult`).
-/

namespace LowpassFilter

set_option linter.unusedVariables false

/-! ## Machine integers -/

/-- Two's-complement wrap of an integer into the `int64_t` range. -/
def toInt64 (z : Int) : Int := (z + 9223372036854775808) % 18446744073709551616 - 9223372036854775808

/-- Two's-complement wrap of an integer into the `int32_t` range: the cast `(int32_t) v`. -/
def toInt32 (z : Int) : Int := (z + 2147483648) % 4294967296 - 2147483648

/-- Wrap of a natural number into the `uint8_t` range. -/
def toUInt8 (n : Nat) : Nat := n % 256

/-- Sum of two `int64_t` values. -/
def add64 (a b : Int) : Int := toInt64 (a + b)

/-- Difference of two `int64_t` values. -/
def sub64 (a b : Int) : Int := toInt64 (a - b)

/-- Product of two `int64_t` values. -/
def mul64 (a b : Int) : Int := toInt64 (a * b)

/-- Values of type `int16_t`. -/
def isInt16 (z : Int) : Prop := -32768 ≤ z ∧ z ≤ 32767

/-- Values of type `int32_t`. -/
def isInt32 (z : Int) : Prop := -2147483648 ≤ z ∧ z ≤ 2147483647

/-- Values of type `int64_t`. -/
def isInt64 (z : Int) : Prop := -9223372036854775808 ≤ z ∧ z ≤ 9223372036854775807

instance (z : Int) : Decidable (isInt16 z) := by unfold isInt16; infer_instance

instance (z : Int) : Decidable (isInt32 z) := by unfold isInt32; infer_instance

instance (z : Int) : Decidable (isInt64 z) := by unfold isInt64; infer_instance

/-! ## Constants and coefficient tables -/

/-- The macro `WAIT_TIL_VALID`. -/
def WAIT_TIL_VALID : Nat := 40

/-- The macro `ONE_HALF_Q27`, one half in Q27. -/
def ONE_HALF_Q27 : Int := 67108864

/-- The macro `CURR`. -/
def CURR : Nat := 0

/-- The macro `PASTx1`. -/
def PASTx1 : Nat := 1

/-- The macro `PASTx2`. -/
def PASTx2 : Nat := 2

/-- Entry `t[i][j][k]` of a three-dimensional constant table. -/
def tab3 (t : List (List (List Int))) (i j k : Nat) : Int :=
  ((t.getD i []).getD j []).getD k 0

/-- Entry `t[i][j]` of a two-dimensional constant table. -/
def tab2 (t : List (List Int)) (i j : Nat) : Int :=
  (t.getD i []).getD j 0

/-- The table `a_q27[4][2][7]`: feedback coefficients of the direct-form filter. -/
def a_q27 : List (List (List Int)) :=
  [ [ [ 134217728,  134217728,  134217728,  134217728,
        134217728,  134217728,  134217728 ],
      [ 134217728,  134217728,  134217728,  134217728,
        134217728,  134217728,  134217728 ] ],
    [ [-394220382, -381575702, -360529943, -318645603,
       -297851770, -236228822, -195827566 ],
      [-398436653, -392112425, -381575702, -360529943,
       -350028195, -318645603, -297851770 ] ],
    [ [ 386050414,  362120843,  324760612,  258953734,
        230199218,  158765246,  122187659 ],
      [ 394286094,  381981514,  362120843,  324760612,
        307223563,  258953734,  230199218 ] ],
    [ [-126043726, -114702664,  -98001134,  -71413947,
        -60873905,  -37320570,  -26551647 ],
      [-130066657, -124078999, -114702664,  -98001134,
        -90570376,  -71413947,  -60873905 ] ] ]

/-- The table `b_q27[4][2][7]`: feed-forward coefficients of the direct-form filter. -/
def b_q27 : List (List (List Int)) :=
  [ [ [ 504,  7526,  55908,  388989,  711409, 2429198,  4253272 ],
      [  64,   977,   7526,   55908,  105340,  388989,   711409 ] ],
    [ [1513, 22577, 167724, 1166967, 2134227, 7287593, 12759815 ],
      [ 192,  2932,  22577,  167724,  316020, 1166967,  2134227 ] ],
    [ [1513, 22577, 167724, 1166967, 2134227, 7287593, 12759815 ],
      [ 192,  2932,  22577,  167724,  316020, 1166967,  2134227 ] ],
    [ [ 504,  7526,  55908,  388989,  711409, 2429198,  4253272 ],
      [  64,   977,   7526,   55908,  105340,  388989,   711409 ] ] ]

/-- The table `ac1_q27[7][3]`. The source initialises six rows; C zero-fills the seventh. -/
def ac1_q27 : List (List Int) :=
  [ [134217728,  -264715683,   130548801],
    [134217728,  -259138893,   125232525],
    [134217728,  -249866120,   116852362],
    [134217728,  -222373757,   94976243],
    [134217728,  -178322400,   67516929],
    [134217728,  -98460363 ,   36018836],
    [0,          0,            0] ]

/-- The table `bc1_q27[7][3]`. The source initialises six rows; C zero-fills the seventh. -/
def bc1_q27 : List (List Int) :=
  [ [12712     , 25423    , 12712],
    [77840     , 155680   , 77840],
    [300992    , 601985   , 300992],
    [1705053   , 3410107  , 1705053],
    [5853064   , 11706128 , 5853064],
    [17944050  , 35888101 , 17944050],
    [0         , 0        , 0] ]

/-- The table `ac2_q27[7][2]`; row 0 is the row the source labels "unfiltered". -/
def ac2_q27 : List (List Int) :=
  [ [ 0,          0],
    [ 134217728, -111014043],
    [ 134217728, -98209188],
    [ 134217728, -84497196],
    [ 134217728, -59791060],
    [ 134217728, -35973924],
    [ 134217728, -8151803 ] ]

/-- The table `bc2_q27[7][2]`; row 0 is the row the source labels "unfiltered". -/
def bc2_q27 : List (List Int) :=
  [ [ 0 ,       0 ],
    [ 11601843, 11601843 ],
    [ 18004270, 18004270 ],
    [ 24860266, 24860266 ],
    [ 37213334, 37213334 ],
    [ 49121902, 49121902 ],
    [ 63032962, 63032962 ] ]

/-! ## Static arrays -/

/-- The assignment `a[i] = v` on a one-dimensional array. -/
def set1 (a : Nat → Nat) (i v : Nat) : Nat → Nat :=
  fun k => if k = i then v else a k

/-- The assignment `a[i][j] = v` on a two-dimensional array. -/
def set2 (a : Nat → Nat → Int) (i j : Nat) (v : Int) : Nat → Nat → Int :=
  fun k l => if k = i ∧ l = j then v else a k l

/-- What a filter routine leaves behind: its return value, `*out` and its statics. -/
@[ext]
structure FilterResult (σ : Type) where
  /-- The `uint8_t` return value: 1 when settled, 0 during warm-up. -/
  ret : Nat
  /-- The value stored through `out`. -/
  out : Int
  /-- The routine's static variables after the call. -/
  state : σ

/-! ## Direct-form third-order filter -/

/-- Static variables of a direct-form routine: `initFilt[3]`, the called-counter
(`accelCalledCount` / `rateCalledCount`), and the histories `*_x_q27[4][NUM_AXIS]`
and `*_y_q27[4][NUM_AXIS]`. -/
@[ext]
structure DirectState where
  /-- The flags `initFilt[3]`. -/
  initFilt : Nat → Nat
  /-- The counter `accelCalledCount` / `rateCalledCount`. -/
  calledCount : Nat
  /-- The input history, indexed `[slot][axis]`. -/
  x_q27 : Nat → Nat → Int
  /-- The output history, indexed `[slot][axis]`. -/
  y_q27 : Nat → Nat → Int

/-- The initial statics of a direct-form routine. -/
def DirectState.init : DirectState :=
  { initFilt := fun _ => 1, calledCount := 0, x_q27 := fun _ _ => 0, y_q27 := fun _ _ => 0 }

/-- The routine `_accelFilt_3rdOrderBWF_LowPass_Axis`. -/
def _accelFilt_3rdOrderBWF_LowPass_Axis (s : DirectState) (axis : Nat) (inp : Int)
    (freq dataRate : Nat) : FilterResult DirectState :=
  -- Initialize the vector of previous readings
  let initFilt := if s.initFilt axis ≠ 0 then set1 s.initFilt axis 0 else s.initFilt
  let accel_x_q27 :=
    if s.initFilt axis ≠ 0 then
      set2 (set2 (set2 s.x_q27 1 axis inp) 2 axis inp) 3 axis inp
    else s.x_q27
  let accel_y_q27 :=
    if s.initFilt axis ≠ 0 then
      set2 (set2 (set2 s.y_q27 1 axis inp) 2 axis inp) 3 axis inp
    else s.y_q27
  -- Filter the input signal
  let tmp_out := add64 (add64 (mul64 (tab3 a_q27 3 dataRate freq) (accel_y_q27 3 axis))
                              (mul64 (tab3 a_q27 2 dataRate freq) (accel_y_q27 2 axis)))
                       (mul64 (tab3 a_q27 1 dataRate freq) (accel_y_q27 1 axis))
  let tmp_in := mul64 (tab3 b_q27 0 dataRate freq)
                  (add64 (add64 inp (accel_x_q27 3 axis))
                         (mul64 3 (add64 (accel_x_q27 1 axis) (accel_x_q27 2 axis))))
  -- add 0.5 to the data to round
  let accel_y_q27 := set2 accel_y_q27 0 axis ((add64 (sub64 tmp_in tmp_out) ONE_HALF_Q27) >>> (27 : Nat))
  let out := toInt32 (accel_y_q27 0 axis)
  -- Save off past values
  let accel_x_q27 := set2 accel_x_q27 3 axis (accel_x_q27 2 axis)
  let accel_y_q27 := set2 accel_y_q27 3 axis (accel_y_q27 2 axis)
  let accel_x_q27 := set2 accel_x_q27 2 axis (accel_x_q27 1 axis)
  let accel_y_q27 := set2 accel_y_q27 2 axis (accel_y_q27 1 axis)
  let accel_x_q27 := set2 accel_x_q27 1 axis inp
  let accel_y_q27 := set2 accel_y_q27 1 axis out
  -- Allow WAIT_TIL_VALID data points to pass through unfiltered
  if s.calledCount > WAIT_TIL_VALID then
    { ret := 1, out := out,
      state := { initFilt := initFilt, calledCount := s.calledCount,
                 x_q27 := accel_x_q27, y_q27 := accel_y_q27 } }
  else
    { ret := 0, out := inp,
      state := { initFilt := initFilt, calledCount := toUInt8 (s.calledCount + 1),
                 x_q27 := accel_x_q27, y_q27 := accel_y_q27 } }

/-- The routine `_rateFilt_3rdOrderBWF_LowPass_Axis`. -/
def _rateFilt_3rdOrderBWF_LowPass_Axis (s : DirectState) (axis : Nat) (inp : Int)
    (freq dataRate : Nat) : FilterResult DirectState :=
  let initFilt := if s.initFilt axis ≠ 0 then set1 s.initFilt axis 0 else s.initFilt
  let rate_x_q27 :=
    if s.initFilt axis ≠ 0 then
      set2 (set2 (set2 s.x_q27 1 axis inp) 2 axis inp) 3 axis inp
    else s.x_q27
  let rate_y_q27 :=
    if s.initFilt axis ≠ 0 then
      set2 (set2 (set2 s.y_q27 1 axis inp) 2 axis inp) 3 axis inp
    else s.y_q27
  -- Filter the input signal
  let tmp_out := add64 (add64 (mul64 (tab3 a_q27 3 dataRate freq) (rate_y_q27 3 axis))
                              (mul64 (tab3 a_q27 2 dataRate freq) (rate_y_q27 2 axis)))
                       (mul64 (tab3 a_q27 1 dataRate freq) (rate_y_q27 1 axis))
  let tmp_in := mul64 (tab3 b_q27 0 dataRate freq)
                  (add64 (add64 inp (rate_x_q27 3 axis))
                         (mul64 3 (add64 (rate_x_q27 1 axis) (rate_x_q27 2 axis))))
  let rate_y_q27 := set2 rate_y_q27 0 axis ((add64 (sub64 tmp_in tmp_out) ONE_HALF_Q27) >>> (27 : Nat))
  let out := toInt32 (rate_y_q27 0 axis)
  -- Save off past values
  let rate_x_q27 := set2 rate_x_q27 3 axis (rate_x_q27 2 axis)
  let rate_y_q27 := set2 rate_y_q27 3 axis (rate_y_q27 2 axis)
  let rate_x_q27 := set2 rate_x_q27 2 axis (rate_x_q27 1 axis)
  let rate_y_q27 := set2 rate_y_q27 2 axis (rate_y_q27 1 axis)
  let rate_x_q27 := set2 rate_x_q27 1 axis inp
  let rate_y_q27 := set2 rate_y_q27 1 axis out
  -- Allow WAIT_TIL_VALID data points to pass through unfiltered
  if s.calledCount > WAIT_TIL_VALID then
    { ret := 1, out := out,
      state := { initFilt := initFilt, calledCount := s.calledCount,
                 x_q27 := rate_x_q27, y_q27 := rate_y_q27 } }
  else
    { ret := 0, out := inp,
      state := { initFilt := initFilt, calledCount := toUInt8 (s.calledCount + 1),
                 x_q27 := rate_x_q27, y_q27 := rate_y_q27 } }

/-! ## Cascade of two second-order sections -/

/-- Static variables of a cascaded second-order routine: `initFilt[3]`,
`rateCalledCount`, and `x_q27`, `v_q27`, `w_q27`, each `[3][NUM_AXIS]`. -/
@[ext]
structure Cascade2State where
  /-- The flags `initFilt[3]`. -/
  initFilt : Nat → Nat
  /-- The counter `rateCalledCount`. -/
  calledCount : Nat
  /-- The input history, indexed `[slot][axis]`. -/
  x_q27 : Nat → Nat → Int
  /-- The first stage's outputs, indexed `[slot][axis]`. -/
  v_q27 : Nat → Nat → Int
  /-- The second stage's outputs, indexed `[slot][axis]`. -/
  w_q27 : Nat → Nat → Int

/-- The initial statics of a cascaded second-order routine. -/
def Cascade2State.init : Cascade2State :=
  { initFilt := fun _ => 1, calledCount := 0, x_q27 := fun _ _ => 0,
    v_q27 := fun _ _ => 0, w_q27 := fun _ _ => 0 }

/-- The routine `_rateFilt_4thOrderBWF_LowPass_Axis_cascaded2nd`; `dataRate` is not used. -/
def _rateFilt_4thOrderBWF_LowPass_Axis_cascaded2nd (s : Cascade2State) (axis : Nat) (inp : Int)
    (freq dataRate : Nat) : FilterResult Cascade2State :=
  let initFilt := if s.initFilt axis ≠ 0 then set1 s.initFilt axis 0 else s.initFilt
  let x_q27 :=
    if s.initFilt axis ≠ 0 then
      set2 (set2 (set2 s.x_q27 CURR axis inp) PASTx1 axis inp) PASTx2 axis inp
    else s.x_q27
  let v_q27 :=
    if s.initFilt axis ≠ 0 then
      set2 (set2 (set2 s.v_q27 CURR axis inp) PASTx1 axis inp) PASTx2 axis inp
    else s.v_q27
  let w_q27 :=
    if s.initFilt axis ≠ 0 then
      set2 (set2 (set2 s.w_q27 CURR axis inp) PASTx1 axis inp) PASTx2 axis inp
    else s.w_q27
  -- Filter the input signal (first stage)
  let tmp_in := mul64 (tab2 bc1_q27 freq CURR)
                  (add64 (add64 inp (mul64 2 (x_q27 PASTx1 axis))) (x_q27 PASTx2 axis))
  let tmp_out := add64 (mul64 (tab2 ac1_q27 freq PASTx1) (v_q27 PASTx1 axis))
                       (mul64 (tab2 ac1_q27 freq PASTx2) (v_q27 PASTx2 axis))
  let v_q27 := set2 v_q27 CURR axis ((add64 (sub64 tmp_in tmp_out) ONE_HALF_Q27) >>> (27 : Nat))
  -- Filter the input signal (second stage)
  let tmp_in := mul64 (tab2 bc1_q27 freq CURR)
                  (add64 (add64 (v_q27 CURR axis) (mul64 2 (v_q27 PASTx1 axis)))
                         (v_q27 PASTx2 axis))
  let tmp_out := add64 (mul64 (tab2 ac1_q27 freq PASTx1) (w_q27 PASTx1 axis))
                       (mul64 (tab2 ac1_q27 freq PASTx2) (w_q27 PASTx2 axis))
  let w_q27 := set2 w_q27 0 axis ((add64 (sub64 tmp_in tmp_out) ONE_HALF_Q27) >>> (27 : Nat))
  let out := toInt32 (w_q27 0 axis)
  -- Save off past values
  let x_q27 := set2 x_q27 PASTx2 axis (x_q27 PASTx1 axis)
  let x_q27 := set2 x_q27 PASTx1 axis inp
  let v_q27 := set2 v_q27 PASTx2 axis (v_q27 PASTx1 axis)
  let v_q27 := set2 v_q27 PASTx1 axis (v_q27 CURR axis)
  let w_q27 := set2 w_q27 PASTx2 axis (w_q27 PASTx1 axis)
  let w_q27 := set2 w_q27 PASTx1 axis (w_q27 CURR axis)
  -- Allow WAIT_TIL_VALID data points to pass through unfiltered
  if s.calledCount > WAIT_TIL_VALID then
    { ret := 1, out := out,
      state := { initFilt := initFilt, calledCount := s.calledCount,
                 x_q27 := x_q27, v_q27 := v_q27, w_q27 := w_q27 } }
  else
    { ret := 0, out := inp,
      state := { initFilt := initFilt, calledCount := toUInt8 (s.calledCount + 1),
                 x_q27 := x_q27, v_q27 := v_q27, w_q27 := w_q27 } }

/-- The routine `_accel_4thOrderBWF_LowPass_Axis_cascaded2nd`; `dataRate` is not used. -/
def _accel_4thOrderBWF_LowPass_Axis_cascaded2nd (s : Cascade2State) (axis : Nat) (inp : Int)
    (freq dataRate : Nat) : FilterResult Cascade2State :=
  let initFilt := if s.initFilt axis ≠ 0 then set1 s.initFilt axis 0 else s.initFilt
  let x_q27 :=
    if s.initFilt axis ≠ 0 then
      set2 (set2 (set2 s.x_q27 CURR axis inp) PASTx1 axis inp) PASTx2 axis inp
    else s.x_q27
  let v_q27 :=
    if s.initFilt axis ≠ 0 then
      set2 (set2 (set2 s.v_q27 CURR axis inp) PASTx1 axis inp) PASTx2 axis inp
    else s.v_q27
  let w_q27 :=
    if s.initFilt axis ≠ 0 then
      set2 (set2 (set2 s.w_q27 CURR axis inp) PASTx1 axis inp) PASTx2 axis inp
    else s.w_q27
  -- Filter the input signal (first stage)
  let tmp_in := mul64 (tab2 bc1_q27 freq CURR)
                  (add64 (add64 inp (mul64 2 (x_q27 PASTx1 axis))) (x_q27 PASTx2 axis))
  let tmp_out := add64 (mul64 (tab2 ac1_q27 freq PASTx1) (v_q27 PASTx1 axis))
                       (mul64 (tab2 ac1_q27 freq PASTx2) (v_q27 PASTx2 axis))
  let v_q27 := set2 v_q27 CURR axis ((add64 (sub64 tmp_in tmp_out) ONE_HALF_Q27) >>> (27 : Nat))
  -- Filter the input signal (second stage)
  let tmp_in := mul64 (tab2 bc1_q27 freq CURR)
                  (add64 (add64 (v_q27 CURR axis) (mul64 2 (v_q27 PASTx1 axis)))
                         (v_q27 PASTx2 axis))
  let tmp_out := add64 (mul64 (tab2 ac1_q27 freq PASTx1) (w_q27 PASTx1 axis))
                       (mul64 (tab2 ac1_q27 freq PASTx2) (w_q27 PASTx2 axis))
  let w_q27 := set2 w_q27 0 axis ((add64 (sub64 tmp_in tmp_out) ONE_HALF_Q27) >>> (27 : Nat))
  let out := toInt32 (w_q27 0 axis)
  -- Save off past values
  let x_q27 := set2 x_q27 PASTx2 axis (x_q27 PASTx1 axis)
  let x_q27 := set2 x_q27 PASTx1 axis inp
  let v_q27 := set2 v_q27 PASTx2 axis (v_q27 PASTx1 axis)
  let v_q27 := set2 v_q27 PASTx1 axis (v_q27 CURR axis)
  let w_q27 := set2 w_q27 PASTx2 axis (w_q27 PASTx1 axis)
  let w_q27 := set2 w_q27 PASTx1 axis (w_q27 CURR axis)
  -- Allow WAIT_TIL_VALID data points to pass through unfiltered
  if s.calledCount > WAIT_TIL_VALID then
    { ret := 1, out := out,
      state := { initFilt := initFilt, calledCount := s.calledCount,
                 x_q27 := x_q27, v_q27 := v_q27, w_q27 := w_q27 } }
  else
    { ret := 0, out := inp,
      state := { initFilt := initFilt, calledCount := toUInt8 (s.calledCount + 1),
                 x_q27 := x_q27, v_q27 := v_q27, w_q27 := w_q27 } }

/-! ## Cascade of three first-order sections -/

/-- Static variables of a cascaded first-order routine: `initFilt[3]`,
`rateCalledCount`, and `x_q27`, `u_q27`, `v_q27`, `w_q27`, each `[2][NUM_AXIS]`. -/
@[ext]
structure Cascade1State where
  /-- The flags `initFilt[3]`. -/
  initFilt : Nat → Nat
  /-- The counter `rateCalledCount`. -/
  calledCount : Nat
  /-- The input history, indexed `[slot][axis]`. -/
  x_q27 : Nat → Nat → Int
  /-- The first stage's outputs, indexed `[slot][axis]`. -/
  u_q27 : Nat → Nat → Int
  /-- The second stage's outputs, indexed `[slot][axis]`. -/
  v_q27 : Nat → Nat → Int
  /-- The third stage's outputs, indexed `[slot][axis]`. -/
  w_q27 : Nat → Nat → Int

/-- The initial statics of a cascaded first-order routine. -/
def Cascade1State.init : Cascade1State :=
  { initFilt := fun _ => 1, calledCount := 0, x_q27 := fun _ _ => 0,
    u_q27 := fun _ _ => 0, v_q27 := fun _ _ => 0, w_q27 := fun _ _ => 0 }

/-- The routine `_rateFilt_3rdOrderBWF_LowPass_Axis_cascaded1st`; `dataRate` is not used. -/
def _rateFilt_3rdOrderBWF_LowPass_Axis_cascaded1st (s : Cascade1State) (axis : Nat) (inp : Int)
    (freq dataRate : Nat) : FilterResult Cascade1State :=
  let initFilt := if s.initFilt axis ≠ 0 then set1 s.initFilt axis 0 else s.initFilt
  let x_q27 :=
    if s.initFilt axis ≠ 0 then set2 (set2 s.x_q27 CURR axis inp) PASTx1 axis inp
    else s.x_q27
  let u_q27 :=
    if s.initFilt axis ≠ 0 then set2 (set2 s.u_q27 CURR axis inp) PASTx1 axis inp
    else s.u_q27
  let v_q27 :=
    if s.initFilt axis ≠ 0 then set2 (set2 s.v_q27 CURR axis inp) PASTx1 axis inp
    else s.v_q27
  let w_q27 :=
    if s.initFilt axis ≠ 0 then set2 (set2 s.w_q27 CURR axis inp) PASTx1 axis inp
    else s.w_q27
  -- Filter the input signal (first stage)
  let tmp_in := mul64 (tab2 bc2_q27 freq CURR) (add64 inp (x_q27 PASTx1 axis))
  let tmp_out := mul64 (tab2 ac2_q27 freq PASTx1) (u_q27 PASTx1 axis)
  let u_q27 := set2 u_q27 CURR axis ((add64 (sub64 tmp_in tmp_out) ONE_HALF_Q27) >>> (27 : Nat))
  -- Second stage
  let tmp_in := mul64 (tab2 bc2_q27 freq CURR) (add64 (u_q27 CURR axis) (u_q27 PASTx1 axis))
  let tmp_out := mul64 (tab2 ac2_q27 freq PASTx1) (v_q27 PASTx1 axis)
  let v_q27 := set2 v_q27 CURR axis ((add64 (sub64 tmp_in tmp_out) ONE_HALF_Q27) >>> (27 : Nat))
  -- Third stage
  let tmp_in := mul64 (tab2 bc2_q27 freq CURR) (add64 (v_q27 CURR axis) (v_q27 PASTx1 axis))
  let tmp_out := mul64 (tab2 ac2_q27 freq PASTx1) (w_q27 PASTx1 axis)
  let w_q27 := set2 w_q27 CURR axis ((add64 (sub64 tmp_in tmp_out) ONE_HALF_Q27) >>> (27 : Nat))
  let out := toInt32 (w_q27 CURR axis)
  -- Save off past values
  let x_q27 := set2 x_q27 PASTx1 axis inp
  let u_q27 := set2 u_q27 PASTx1 axis (u_q27 CURR axis)
  let v_q27 := set2 v_q27 PASTx1 axis (v_q27 CURR axis)
  let w_q27 := set2 w_q27 PASTx1 axis (w_q27 CURR axis)
  -- Allow WAIT_TIL_VALID data points to pass through unfiltered
  if s.calledCount > WAIT_TIL_VALID then
    { ret := 1, out := out,
      state := { initFilt := initFilt, calledCount := s.calledCount,
                 x_q27 := x_q27, u_q27 := u_q27, v_q27 := v_q27, w_q27 := w_q27 } }
  else
    { ret := 0, out := inp,
      state := { initFilt := initFilt, calledCount := toUInt8 (s.calledCount + 1),
                 x_q27 := x_q27, u_q27 := u_q27, v_q27 := v_q27, w_q27 := w_q27 } }

/-- The routine `_accelFilt_3rdOrderBWF_LowPass_Axis_cascaded1st`; `dataRate` is not used. -/
def _accelFilt_3rdOrderBWF_LowPass_Axis_cascaded1st (s : Cascade1State) (axis : Nat) (inp : Int)
    (freq dataRate : Nat) : FilterResult Cascade1State :=
  let initFilt := if s.initFilt axis ≠ 0 then set1 s.initFilt axis 0 else s.initFilt
  let x_q27 :=
    if s.initFilt axis ≠ 0 then set2 (set2 s.x_q27 CURR axis inp) PASTx1 axis inp
    else s.x_q27
  let u_q27 :=
    if s.initFilt axis ≠ 0 then set2 (set2 s.u_q27 CURR axis inp) PASTx1 axis inp
    else s.u_q27
  let v_q27 :=
    if s.initFilt axis ≠ 0 then set2 (set2 s.v_q27 CURR axis inp) PASTx1 axis inp
    else s.v_q27
  let w_q27 :=
    if s.initFilt axis ≠ 0 then set2 (set2 s.w_q27 CURR axis inp) PASTx1 axis inp
    else s.w_q27
  -- Filter the input signal (first stage)
  let tmp_in := mul64 (tab2 bc2_q27 freq CURR) (add64 inp (x_q27 PASTx1 axis))
  let tmp_out := mul64 (tab2 ac2_q27 freq PASTx1) (u_q27 PASTx1 axis)
  let u_q27 := set2 u_q27 CURR axis ((add64 (sub64 tmp_in tmp_out) ONE_HALF_Q27) >>> (27 : Nat))
  -- Second stage
  let tmp_in := mul64 (tab2 bc2_q27 freq CURR) (add64 (u_q27 CURR axis) (u_q27 PASTx1 axis))
  let tmp_out := mul64 (tab2 ac2_q27 freq PASTx1) (v_q27 PASTx1 axis)
  let v_q27 := set2 v_q27 CURR axis ((add64 (sub64 tmp_in tmp_out) ONE_HALF_Q27) >>> (27 : Nat))
  -- Third stage
  let tmp_in := mul64 (tab2 bc2_q27 freq CURR) (add64 (v_q27 CURR axis) (v_q27 PASTx1 axis))
  let tmp_out := mul64 (tab2 ac2_q27 freq PASTx1) (w_q27 PASTx1 axis)
  let w_q27 := set2 w_q27 CURR axis ((add64 (sub64 tmp_in tmp_out) ONE_HALF_Q27) >>> (27 : Nat))
  let out := toInt32 (w_q27 CURR axis)
  -- Save off past values
  let x_q27 := set2 x_q27 PASTx1 axis inp
  let u_q27 := set2 u_q27 PASTx1 axis (u_q27 CURR axis)
  let v_q27 := set2 v_q27 PASTx1 axis (v_q27 CURR axis)
  let w_q27 := set2 w_q27 PASTx1 axis (w_q27 CURR axis)
  -- Allow WAIT_TIL_VALID data points to pass through unfiltered
  if s.calledCount > WAIT_TIL_VALID then
    { ret := 1, out := out,
      state := { initFilt := initFilt, calledCount := s.calledCount,
                 x_q27 := x_q27, u_q27 := u_q27, v_q27 := v_q27, w_q27 := w_q27 } }
  else
    { ret := 0, out := inp,
      state := { initFilt := initFilt, calledCount := toUInt8 (s.calledCount + 1),
                 x_q27 := x_q27, u_q27 := u_q27, v_q27 := v_q27, w_q27 := w_q27 } }

/-! ## Call sequences -/

/-- The type of a filter routine: statics, `axis`, `in`, `freq`, `dataRate`. -/
abbrev Routine (σ : Type) := σ → Nat → Int → Nat → Nat → FilterResult σ

/-- The arguments of one call of a filter routine. -/
structure Call where
  /-- The argument `axis`. -/
  axis : Nat
  /-- The argument `in`. -/
  inp : Int
  /-- The argument `freq`. -/
  freq : Nat
  /-- The argument `dataRate`. -/
  dataRate : Nat

/-- The results of a sequence of calls of routine `f`, made one after the other from statics `s`. -/
def runCalls {σ : Type} (f : Routine σ) (s : σ) : List Call → List (FilterResult σ)
  | [] => []
  | c :: cs => f s c.axis c.inp c.freq c.dataRate ::
      runCalls f (f s c.axis c.inp c.freq c.dataRate).state cs

/-- The statics left by a sequence of calls of routine `f` made from statics `s`. -/
def stateAfter {σ : Type} (f : Routine σ) (s : σ) : List Call → σ
  | [] => s
  | c :: cs => stateAfter f (f s c.axis c.inp c.freq c.dataRate).state cs

/-! ## Statements about one call -/

/-- The warm-up contract of one call of routine `f` from statics `s`, where `count` reads the
routine's called-counter, `value` is the value the routine's recurrence produces in this call
from the statics at entry and the arguments, and `computed` reads the slot in which the
routine stores that value for an axis: with the counter at most 40 at entry the call passes
the raw input through, returns 0 and increments the counter; with the counter above 40 it
delivers the value of the recurrence cast to `int32_t`, returns 1 and leaves the counter
alone; in both cases the value of the recurrence is what the call stores in the slot. -/
def WarmUpContract {σ : Type} (f : Routine σ) (count : σ → Nat)
    (value : σ → Nat → Int → Nat → Nat → Int) (computed : σ → Nat → Int)
    (s : σ) (axis : Nat) (inp : Int) (freq dataRate : Nat) : Prop :=
  (count s ≤ 40 →
    (f s axis inp freq dataRate).out = inp ∧ (f s axis inp freq dataRate).ret = 0 ∧
    count (f s axis inp freq dataRate).state = count s + 1) ∧
  (40 < count s →
    (f s axis inp freq dataRate).out = toInt32 (value s axis inp freq dataRate) ∧
    (f s axis inp freq dataRate).ret = 1 ∧
    count (f s axis inp freq dataRate).state = count s) ∧
  computed (f s axis inp freq dataRate).state axis = value s axis inp freq dataRate

/-! ## The expressions the routines evaluate -/

/-- The value a history slot holds once the first-call seeding has run: the raw sample when
the axis's flag is set, the stored value otherwise. -/
def seedv (flag : Nat) (inp v : Int) : Int := if flag ≠ 0 then inp else v

/-- The rounding shift every stage applies to its accumulator `acc = tmp_in - tmp_out`:
`( acc + ONE_HALF_Q27 ) >> 27` in 64-bit arithmetic. -/
def roundShift27 (acc : Int) : Int := (add64 acc ONE_HALF_Q27) >>> (27 : Nat)

/-- The expression `tmp_out` of a direct-form routine. -/
def directTmpOut (a3 a2 a1 y1 y2 y3 : Int) : Int :=
  add64 (add64 (mul64 a3 y3) (mul64 a2 y2)) (mul64 a1 y1)

/-- The expression `tmp_in` of a direct-form routine. -/
def directTmpIn (b0 inp x1 x2 x3 : Int) : Int :=
  mul64 b0 (add64 (add64 inp x3) (mul64 3 (add64 x1 x2)))

/-- The machine expression a direct-form routine stores in slot 0 of its output history:
`( tmp_in - tmp_out + ONE_HALF_Q27 ) >> 27` with the routine's `tmp_in` and `tmp_out`. -/
def directY0 (a3 a2 a1 b0 inp x1 x2 x3 y1 y2 y3 : Int) : Int :=
  roundShift27 (sub64 (directTmpIn b0 inp x1 x2 x3) (directTmpOut a3 a2 a1 y1 y2 y3))

/-- The value a direct-form call computes from statics `s`. -/
def directValue (s : DirectState) (axis : Nat) (inp : Int) (freq dataRate : Nat) : Int :=
  directY0 (tab3 a_q27 3 dataRate freq) (tab3 a_q27 2 dataRate freq) (tab3 a_q27 1 dataRate freq)
    (tab3 b_q27 0 dataRate freq) inp
    (seedv (s.initFilt axis) inp (s.x_q27 1 axis)) (seedv (s.initFilt axis) inp (s.x_q27 2 axis))
    (seedv (s.initFilt axis) inp (s.x_q27 3 axis))
    (seedv (s.initFilt axis) inp (s.y_q27 1 axis)) (seedv (s.initFilt axis) inp (s.y_q27 2 axis))
    (seedv (s.initFilt axis) inp (s.y_q27 3 axis))

/-- The expression `tmp_in` of one stage of a cascaded second-order routine. -/
def stage2TmpIn (b0 p p1 p2 : Int) : Int :=
  mul64 b0 (add64 (add64 p (mul64 2 p1)) p2)

/-- The expression `tmp_out` of one stage of a cascaded second-order routine. -/
def stage2TmpOut (a1 a2 q1 q2 : Int) : Int :=
  add64 (mul64 a1 q1) (mul64 a2 q2)

/-- The machine expression one stage of a cascaded second-order routine stores:
`( tmp_in - tmp_out + ONE_HALF_Q27 ) >> 27` for stage input `p`, past stage inputs `p1`, `p2`
and past stage outputs `q1`, `q2`. -/
def stage2 (b0 a1 a2 p p1 p2 q1 q2 : Int) : Int :=
  roundShift27 (sub64 (stage2TmpIn b0 p p1 p2) (stage2TmpOut a1 a2 q1 q2))

/-- The first-stage value a cascaded second-order call computes from statics `s`. -/
def casc2V (s : Cascade2State) (axis : Nat) (inp : Int) (freq : Nat) : Int :=
  stage2 (tab2 bc1_q27 freq 0) (tab2 ac1_q27 freq 1) (tab2 ac1_q27 freq 2) inp
    (seedv (s.initFilt axis) inp (s.x_q27 1 axis)) (seedv (s.initFilt axis) inp (s.x_q27 2 axis))
    (seedv (s.initFilt axis) inp (s.v_q27 1 axis)) (seedv (s.initFilt axis) inp (s.v_q27 2 axis))

/-- The second-stage value a cascaded second-order call computes from statics `s`. -/
def casc2W (s : Cascade2State) (axis : Nat) (inp : Int) (freq : Nat) : Int :=
  stage2 (tab2 bc1_q27 freq 0) (tab2 ac1_q27 freq 1) (tab2 ac1_q27 freq 2)
    (casc2V s axis inp freq)
    (seedv (s.initFilt axis) inp (s.v_q27 1 axis)) (seedv (s.initFilt axis) inp (s.v_q27 2 axis))
    (seedv (s.initFilt axis) inp (s.w_q27 1 axis)) (seedv (s.initFilt axis) inp (s.w_q27 2 axis))

/-- The expression `tmp_in` of one stage of a cascaded first-order routine. -/
def stage1TmpIn (b0 p p1 : Int) : Int := mul64 b0 (add64 p p1)

/-- The expression `tmp_out` of one stage of a cascaded first-order routine. -/
def stage1TmpOut (a1 q1 : Int) : Int := mul64 a1 q1

/-- The machine expression one stage of a cascaded first-order routine stores:
`( tmp_in - tmp_out + ONE_HALF_Q27 ) >> 27` for stage input `p`, past stage input `p1`
and past stage output `q1`. -/
def stage1 (b0 a1 p p1 q1 : Int) : Int :=
  roundShift27 (sub64 (stage1TmpIn b0 p p1) (stage1TmpOut a1 q1))

/-- The first-stage value a cascaded first-order call computes from statics `s`. -/
def casc1U (s : Cascade1State) (axis : Nat) (inp : Int) (freq : Nat) : Int :=
  stage1 (tab2 bc2_q27 freq 0) (tab2 ac2_q27 freq 1) inp
    (seedv (s.initFilt axis) inp (s.x_q27 1 axis)) (seedv (s.initFilt axis) inp (s.u_q27 1 axis))

/-- The second-stage value a cascaded first-order call computes from statics `s`. -/
def casc1V (s : Cascade1State) (axis : Nat) (inp : Int) (freq : Nat) : Int :=
  stage1 (tab2 bc2_q27 freq 0) (tab2 ac2_q27 freq 1) (casc1U s axis inp freq)
    (seedv (s.initFilt axis) inp (s.u_q27 1 axis)) (seedv (s.initFilt axis) inp (s.v_q27 1 axis))

/-- The third-stage value a cascaded first-order call computes from statics `s`. -/
def casc1W (s : Cascade1State) (axis : Nat) (inp : Int) (freq : Nat) : Int :=
  stage1 (tab2 bc2_q27 freq 0) (tab2 ac2_q27 freq 1) (casc1V s axis inp freq)
    (seedv (s.initFilt axis) inp (s.v_q27 1 axis)) (seedv (s.initFilt axis) inp (s.w_q27 1 axis))

/-! ## The recurrences as the specification writes them -/

/-- The direct-form third-order recurrence over the integers:
`floor((b0*(in + 3*x1 + 3*x2 + x3) - (a1*y1 + a2*y2 + a3*y3) + 2^26) / 2^27)`. -/
def directFormula (b0 a1 a2 a3 inp x1 x2 x3 y1 y2 y3 : Int) : Int :=
  (b0 * (inp + 3 * x1 + 3 * x2 + x3) - (a1 * y1 + a2 * y2 + a3 * y3) + 2 ^ 26) / 2 ^ 27

/-- The routine `_accelFilt_3rdOrderBWF_LowPass_Axis` with the two coefficient tables it
reads, `a_q27` and `b_q27`, made arguments `a` and `b`. -/
def directFormWith (a b : List (List (List Int))) (s : DirectState) (axis : Nat) (inp : Int)
    (freq dataRate : Nat) : FilterResult DirectState :=
  let initFilt := if s.initFilt axis ≠ 0 then set1 s.initFilt axis 0 else s.initFilt
  let accel_x_q27 :=
    if s.initFilt axis ≠ 0 then
      set2 (set2 (set2 s.x_q27 1 axis inp) 2 axis inp) 3 axis inp
    else s.x_q27
  let accel_y_q27 :=
    if s.initFilt axis ≠ 0 then
      set2 (set2 (set2 s.y_q27 1 axis inp) 2 axis inp) 3 axis inp
    else s.y_q27
  let tmp_out := add64 (add64 (mul64 (tab3 a 3 dataRate freq) (accel_y_q27 3 axis))
                              (mul64 (tab3 a 2 dataRate freq) (accel_y_q27 2 axis)))
                       (mul64 (tab3 a 1 dataRate freq) (accel_y_q27 1 axis))
  let tmp_in := mul64 (tab3 b 0 dataRate freq)
                  (add64 (add64 inp (accel_x_q27 3 axis))
                         (mul64 3 (add64 (accel_x_q27 1 axis) (accel_x_q27 2 axis))))
  let accel_y_q27 :=
    set2 accel_y_q27 0 axis ((add64 (sub64 tmp_in tmp_out) ONE_HALF_Q27) >>> (27 : Nat))
  let out := toInt32 (accel_y_q27 0 axis)
  let accel_x_q27 := set2 accel_x_q27 3 axis (accel_x_q27 2 axis)
  let accel_y_q27 := set2 accel_y_q27 3 axis (accel_y_q27 2 axis)
  let accel_x_q27 := set2 accel_x_q27 2 axis (accel_x_q27 1 axis)
  let accel_y_q27 := set2 accel_y_q27 2 axis (accel_y_q27 1 axis)
  let accel_x_q27 := set2 accel_x_q27 1 axis inp
  let accel_y_q27 := set2 accel_y_q27 1 axis out
  if s.calledCount > WAIT_TIL_VALID then
    { ret := 1, out := out,
      state := { initFilt := initFilt, calledCount := s.calledCount,
                 x_q27 := accel_x_q27, y_q27 := accel_y_q27 } }
  else
    { ret := 0, out := inp,
      state := { initFilt := initFilt, calledCount := toUInt8 (s.calledCount + 1),
                 x_q27 := accel_x_q27, y_q27 := accel_y_q27 } }

/-- What the specification says of one direct-form call of routine `f` from statics `s`: the
value stored in slot 0 of the output history is `directFormula` on the table entries
`b_q27[0][dataRate][freq]`, `a_q27[1..3][dataRate][freq]`, the input and the seeded history of
the axis, and a settled call returns 1 and delivers that value cast to `int32_t`. -/
def DirectRecurrence (f : Routine DirectState) (s : DirectState) (axis : Nat) (inp : Int)
    (freq dataRate : Nat) : Prop :=
  (f s axis inp freq dataRate).state.y_q27 0 axis =
      directFormula (tab3 b_q27 0 dataRate freq) (tab3 a_q27 1 dataRate freq)
        (tab3 a_q27 2 dataRate freq) (tab3 a_q27 3 dataRate freq) inp
        (seedv (s.initFilt axis) inp (s.x_q27 1 axis))
        (seedv (s.initFilt axis) inp (s.x_q27 2 axis))
        (seedv (s.initFilt axis) inp (s.x_q27 3 axis))
        (seedv (s.initFilt axis) inp (s.y_q27 1 axis))
        (seedv (s.initFilt axis) inp (s.y_q27 2 axis))
        (seedv (s.initFilt axis) inp (s.y_q27 3 axis)) ∧
  (40 < s.calledCount →
    (f s axis inp freq dataRate).ret = 1 ∧
    (f s axis inp freq dataRate).out =
      toInt32 (directFormula (tab3 b_q27 0 dataRate freq) (tab3 a_q27 1 dataRate freq)
        (tab3 a_q27 2 dataRate freq) (tab3 a_q27 3 dataRate freq) inp
        (seedv (s.initFilt axis) inp (s.x_q27 1 axis))
        (seedv (s.initFilt axis) inp (s.x_q27 2 axis))
        (seedv (s.initFilt axis) inp (s.x_q27 3 axis))
        (seedv (s.initFilt axis) inp (s.y_q27 1 axis))
        (seedv (s.initFilt axis) inp (s.y_q27 2 axis))
        (seedv (s.initFilt axis) inp (s.y_q27 3 axis))))

/-- One first-order section over the integers:
`sec(p, p1, q1) = floor((b0*(p + p1) - a1*q1 + 2^26) / 2^27)`. -/
def sec1 (b0 a1 p p1 q1 : Int) : Int :=
  (b0 * (p + p1) - a1 * q1 + 2 ^ 26) / 2 ^ 27

/-- What the specification says of one cascaded first-order call of routine `f` from statics
`s`: with `b0 = bc2_q27[freq][0]`, `a1 = ac2_q27[freq][1]` and `x1`, `u1`, `v1`, `w1` the
seeded history of the axis, the three stage values stored in slot `CURR` are
`u0 = sec(in, x1, u1)`, `v0 = sec(u0, u1, v1)` and `w0 = sec(v0, v1, w1)`, and a settled call
returns 1 and delivers `w0` cast to `int32_t`. -/
def Cascade1Recurrence (f : Routine Cascade1State) (s : Cascade1State) (axis : Nat) (inp : Int)
    (freq dataRate : Nat) : Prop :=
  let b0 := tab2 bc2_q27 freq 0
  let a1 := tab2 ac2_q27 freq 1
  let x1 := seedv (s.initFilt axis) inp (s.x_q27 1 axis)
  let u1 := seedv (s.initFilt axis) inp (s.u_q27 1 axis)
  let v1 := seedv (s.initFilt axis) inp (s.v_q27 1 axis)
  let w1 := seedv (s.initFilt axis) inp (s.w_q27 1 axis)
  let u0 := sec1 b0 a1 inp x1 u1
  let v0 := sec1 b0 a1 u0 u1 v1
  let w0 := sec1 b0 a1 v0 v1 w1
  (f s axis inp freq dataRate).state.u_q27 CURR axis = u0 ∧
  (f s axis inp freq dataRate).state.v_q27 CURR axis = v0 ∧
  (f s axis inp freq dataRate).state.w_q27 CURR axis = w0 ∧
  (40 < s.calledCount →
    (f s axis inp freq dataRate).ret = 1 ∧ (f s axis inp freq dataRate).out = toInt32 w0)

/-- Forty-two calls on axis 0 with table row `freq`: forty samples of 0, then two of 1000. -/
def warmupProbe (freq : Nat) : List Call :=
  List.replicate 40 { axis := 0, inp := 0, freq := freq, dataRate := 0 } ++
    [{ axis := 0, inp := 1000, freq := freq, dataRate := 0 },
     { axis := 0, inp := 1000, freq := freq, dataRate := 0 }]

/-- Every direct-form call of `f` stores in slot 0 the rounding shift of its
`tmp_in - tmp_out`. -/
def DirectStageRounds (f : Routine DirectState) : Prop :=
  ∀ (s : DirectState) (axis : Nat) (inp : Int) (freq dataRate : Nat),
    (f s axis inp freq dataRate).state.y_q27 0 axis =
      roundShift27 (sub64
        (directTmpIn (tab3 b_q27 0 dataRate freq) inp
          (seedv (s.initFilt axis) inp (s.x_q27 1 axis))
          (seedv (s.initFilt axis) inp (s.x_q27 2 axis))
          (seedv (s.initFilt axis) inp (s.x_q27 3 axis)))
        (directTmpOut (tab3 a_q27 3 dataRate freq) (tab3 a_q27 2 dataRate freq)
          (tab3 a_q27 1 dataRate freq)
          (seedv (s.initFilt axis) inp (s.y_q27 1 axis))
          (seedv (s.initFilt axis) inp (s.y_q27 2 axis))
          (seedv (s.initFilt axis) inp (s.y_q27 3 axis))))

/-- Every cascaded second-order call of `f` stores in slot `CURR` of `v_q27` and of `w_q27`
the rounding shift of that stage's `tmp_in - tmp_out`. -/
def Cascade2StagesRound (f : Routine Cascade2State) : Prop :=
  ∀ (s : Cascade2State) (axis : Nat) (inp : Int) (freq dataRate : Nat),
    (f s axis inp freq dataRate).state.v_q27 CURR axis =
      roundShift27 (sub64
        (stage2TmpIn (tab2 bc1_q27 freq CURR) inp
          (seedv (s.initFilt axis) inp (s.x_q27 PASTx1 axis))
          (seedv (s.initFilt axis) inp (s.x_q27 PASTx2 axis)))
        (stage2TmpOut (tab2 ac1_q27 freq PASTx1) (tab2 ac1_q27 freq PASTx2)
          (seedv (s.initFilt axis) inp (s.v_q27 PASTx1 axis))
          (seedv (s.initFilt axis) inp (s.v_q27 PASTx2 axis)))) ∧
    (f s axis inp freq dataRate).state.w_q27 CURR axis =
      roundShift27 (sub64
        (stage2TmpIn (tab2 bc1_q27 freq CURR) ((f s axis inp freq dataRate).state.v_q27 CURR axis)
          (seedv (s.initFilt axis) inp (s.v_q27 PASTx1 axis))
          (seedv (s.initFilt axis) inp (s.v_q27 PASTx2 axis)))
        (stage2TmpOut (tab2 ac1_q27 freq PASTx1) (tab2 ac1_q27 freq PASTx2)
          (seedv (s.initFilt axis) inp (s.w_q27 PASTx1 axis))
          (seedv (s.initFilt axis) inp (s.w_q27 PASTx2 axis))))

/-- Every cascaded first-order call of `f` stores in slot `CURR` of `u_q27`, `v_q27` and
`w_q27` the rounding shift of that stage's `tmp_in - tmp_out`. -/
def Cascade1StagesRound (f : Routine Cascade1State) : Prop :=
  ∀ (s : Cascade1State) (axis : Nat) (inp : Int) (freq dataRate : Nat),
    (f s axis inp freq dataRate).state.u_q27 CURR axis =
      roundShift27 (sub64
        (stage1TmpIn (tab2 bc2_q27 freq CURR) inp
          (seedv (s.initFilt axis) inp (s.x_q27 PASTx1 axis)))
        (stage1TmpOut (tab2 ac2_q27 freq PASTx1)
          (seedv (s.initFilt axis) inp (s.u_q27 PASTx1 axis)))) ∧
    (f s axis inp freq dataRate).state.v_q27 CURR axis =
      roundShift27 (sub64
        (stage1TmpIn (tab2 bc2_q27 freq CURR) ((f s axis inp freq dataRate).state.u_q27 CURR axis)
          (seedv (s.initFilt axis) inp (s.u_q27 PASTx1 axis)))
        (stage1TmpOut (tab2 ac2_q27 freq PASTx1)
          (seedv (s.initFilt axis) inp (s.v_q27 PASTx1 axis)))) ∧
    (f s axis inp freq dataRate).state.w_q27 CURR axis =
      roundShift27 (sub64
        (stage1TmpIn (tab2 bc2_q27 freq CURR) ((f s axis inp freq dataRate).state.v_q27 CURR axis)
          (seedv (s.initFilt axis) inp (s.v_q27 PASTx1 axis)))
        (stage1TmpOut (tab2 ac2_q27 freq PASTx1)
          (seedv (s.initFilt axis) inp (s.w_q27 PASTx1 axis))))

/-! ## First-call seeding -/

/-- A flag that is clear stays clear through every sequence of calls of `f`. -/
def FlagStaysCleared {σ : Type} (f : Routine σ) (flag : σ → Nat → Nat) : Prop :=
  ∀ (s : σ) (calls : List Call) (k : Nat), flag s k = 0 → flag (stateAfter f s calls) k = 0

/-- From the initial statics `init` the flag of an axis is still set after every sequence of
calls none of which is made for that axis. -/
def FlagSetUntilFirstCall {σ : Type} (f : Routine σ) (flag : σ → Nat → Nat) (init : σ) : Prop :=
  ∀ (calls : List Call) (k : Nat), (∀ c ∈ calls, c.axis ≠ k) →
    flag (stateAfter f init calls) k = 1

/-- Seeding in a direct-form routine `f`, at a call from statics `s`. A call for an axis whose
flag is set evaluates the recurrence with every history slot equal to the sample, leaves
the aged seeded history behind and clears the flag; a call for an axis whose flag is clear
evaluates the recurrence on the stored history; a call leaves the flags and histories of
the other axes as they were. -/
def DirectSeeding (f : Routine DirectState) (s : DirectState) (axis : Nat) (inp : Int)
    (freq dataRate : Nat) : Prop :=
  (s.initFilt axis ≠ 0 →
    (f s axis inp freq dataRate).state.y_q27 0 axis =
      directY0 (tab3 a_q27 3 dataRate freq) (tab3 a_q27 2 dataRate freq)
        (tab3 a_q27 1 dataRate freq) (tab3 b_q27 0 dataRate freq) inp inp inp inp inp inp inp ∧
    (f s axis inp freq dataRate).state.x_q27 1 axis = inp ∧
    (f s axis inp freq dataRate).state.x_q27 2 axis = inp ∧
    (f s axis inp freq dataRate).state.x_q27 3 axis = inp ∧
    (f s axis inp freq dataRate).state.y_q27 2 axis = inp ∧
    (f s axis inp freq dataRate).state.y_q27 3 axis = inp ∧
    (f s axis inp freq dataRate).state.initFilt axis = 0) ∧
  (s.initFilt axis = 0 →
    (f s axis inp freq dataRate).state.y_q27 0 axis =
      directY0 (tab3 a_q27 3 dataRate freq) (tab3 a_q27 2 dataRate freq)
        (tab3 a_q27 1 dataRate freq) (tab3 b_q27 0 dataRate freq) inp
        (s.x_q27 1 axis) (s.x_q27 2 axis) (s.x_q27 3 axis)
        (s.y_q27 1 axis) (s.y_q27 2 axis) (s.y_q27 3 axis) ∧
    (f s axis inp freq dataRate).state.initFilt axis = 0) ∧
  (∀ k, k ≠ axis →
    (f s axis inp freq dataRate).state.initFilt k = s.initFilt k ∧
    ∀ j, (f s axis inp freq dataRate).state.x_q27 j k = s.x_q27 j k ∧
      (f s axis inp freq dataRate).state.y_q27 j k = s.y_q27 j k)

/-- Seeding in a cascaded second-order routine `f`, at a call from statics `s`; as
`DirectSeeding`, for the histories `x_q27`, `v_q27`, `w_q27`. -/
def Cascade2Seeding (f : Routine Cascade2State) (s : Cascade2State) (axis : Nat) (inp : Int)
    (freq dataRate : Nat) : Prop :=
  (s.initFilt axis ≠ 0 →
    (f s axis inp freq dataRate).state.v_q27 CURR axis =
      stage2 (tab2 bc1_q27 freq CURR) (tab2 ac1_q27 freq PASTx1) (tab2 ac1_q27 freq PASTx2)
        inp inp inp inp inp ∧
    (f s axis inp freq dataRate).state.w_q27 CURR axis =
      stage2 (tab2 bc1_q27 freq CURR) (tab2 ac1_q27 freq PASTx1) (tab2 ac1_q27 freq PASTx2)
        ((f s axis inp freq dataRate).state.v_q27 CURR axis) inp inp inp inp ∧
    (f s axis inp freq dataRate).state.x_q27 CURR axis = inp ∧
    (f s axis inp freq dataRate).state.x_q27 PASTx1 axis = inp ∧
    (f s axis inp freq dataRate).state.x_q27 PASTx2 axis = inp ∧
    (f s axis inp freq dataRate).state.v_q27 PASTx2 axis = inp ∧
    (f s axis inp freq dataRate).state.w_q27 PASTx2 axis = inp ∧
    (f s axis inp freq dataRate).state.initFilt axis = 0) ∧
  (s.initFilt axis = 0 →
    (f s axis inp freq dataRate).state.v_q27 CURR axis =
      stage2 (tab2 bc1_q27 freq CURR) (tab2 ac1_q27 freq PASTx1) (tab2 ac1_q27 freq PASTx2)
        inp (s.x_q27 PASTx1 axis) (s.x_q27 PASTx2 axis)
        (s.v_q27 PASTx1 axis) (s.v_q27 PASTx2 axis) ∧
    (f s axis inp freq dataRate).state.w_q27 CURR axis =
      stage2 (tab2 bc1_q27 freq CURR) (tab2 ac1_q27 freq PASTx1) (tab2 ac1_q27 freq PASTx2)
        ((f s axis inp freq dataRate).state.v_q27 CURR axis)
        (s.v_q27 PASTx1 axis) (s.v_q27 PASTx2 axis)
        (s.w_q27 PASTx1 axis) (s.w_q27 PASTx2 axis) ∧
    (f s axis inp freq dataRate).state.initFilt axis = 0) ∧
  (∀ k, k ≠ axis →
    (f s axis inp freq dataRate).state.initFilt k = s.initFilt k ∧
    ∀ j, (f s axis inp freq dataRate).state.x_q27 j k = s.x_q27 j k ∧
      (f s axis inp freq dataRate).state.v_q27 j k = s.v_q27 j k ∧
      (f s axis inp freq dataRate).state.w_q27 j k = s.w_q27 j k)

/-- Seeding in a cascaded first-order routine `f`, at a call from statics `s`; as
`DirectSeeding`, for the histories `x_q27`, `u_q27`, `v_q27`, `w_q27`. -/
def Cascade1Seeding (f : Routine Cascade1State) (s : Cascade1State) (axis : Nat) (inp : Int)
    (freq dataRate : Nat) : Prop :=
  (s.initFilt axis ≠ 0 →
    (f s axis inp freq dataRate).state.u_q27 CURR axis =
      stage1 (tab2 bc2_q27 freq CURR) (tab2 ac2_q27 freq PASTx1) inp inp inp ∧
    (f s axis inp freq dataRate).state.v_q27 CURR axis =
      stage1 (tab2 bc2_q27 freq CURR) (tab2 ac2_q27 freq PASTx1)
        ((f s axis inp freq dataRate).state.u_q27 CURR axis) inp inp ∧
    (f s axis inp freq dataRate).state.w_q27 CURR axis =
      stage1 (tab2 bc2_q27 freq CURR) (tab2 ac2_q27 freq PASTx1)
        ((f s axis inp freq dataRate).state.v_q27 CURR axis) inp inp ∧
    (f s axis inp freq dataRate).state.x_q27 CURR axis = inp ∧
    (f s axis inp freq dataRate).state.x_q27 PASTx1 axis = inp ∧
    (f s axis inp freq dataRate).state.initFilt axis = 0) ∧
  (s.initFilt axis = 0 →
    (f s axis inp freq dataRate).state.u_q27 CURR axis =
      stage1 (tab2 bc2_q27 freq CURR) (tab2 ac2_q27 freq PASTx1) inp
        (s.x_q27 PASTx1 axis) (s.u_q27 PASTx1 axis) ∧
    (f s axis inp freq dataRate).state.v_q27 CURR axis =
      stage1 (tab2 bc2_q27 freq CURR) (tab2 ac2_q27 freq PASTx1)
        ((f s axis inp freq dataRate).state.u_q27 CURR axis)
        (s.u_q27 PASTx1 axis) (s.v_q27 PASTx1 axis) ∧
    (f s axis inp freq dataRate).state.w_q27 CURR axis =
      stage1 (tab2 bc2_q27 freq CURR) (tab2 ac2_q27 freq PASTx1)
        ((f s axis inp freq dataRate).state.v_q27 CURR axis)
        (s.v_q27 PASTx1 axis) (s.w_q27 PASTx1 axis) ∧
    (f s axis inp freq dataRate).state.initFilt axis = 0) ∧
  (∀ k, k ≠ axis →
    (f s axis inp freq dataRate).state.initFilt k = s.initFilt k ∧
    ∀ j, (f s axis inp freq dataRate).state.x_q27 j k = s.x_q27 j k ∧
      (f s axis inp freq dataRate).state.u_q27 j k = s.u_q27 j k ∧
      (f s axis inp freq dataRate).state.v_q27 j k = s.v_q27 j k ∧
      (f s axis inp freq dataRate).state.w_q27 j k = s.w_q27 j k)

/-! ## History aging -/

/-- Aging in a direct-form routine `f`, at a call from statics `s` with seeded history
`x1, x2, x3`, `y1, y2, y3` and computed value `y0`: afterwards the axis holds
`x = (in, x1, x2)` and `y = (int32(y0), y1, y2)`, and neither history nor flags depend on the
called-counter at entry. -/
def DirectAging (f : Routine DirectState) (s : DirectState) (axis : Nat) (inp : Int)
    (freq dataRate : Nat) : Prop :=
  ((f s axis inp freq dataRate).state.y_q27 0 axis = directValue s axis inp freq dataRate ∧
    (f s axis inp freq dataRate).state.x_q27 1 axis = inp ∧
    (f s axis inp freq dataRate).state.x_q27 2 axis =
      seedv (s.initFilt axis) inp (s.x_q27 1 axis) ∧
    (f s axis inp freq dataRate).state.x_q27 3 axis =
      seedv (s.initFilt axis) inp (s.x_q27 2 axis) ∧
    (f s axis inp freq dataRate).state.y_q27 1 axis =
      toInt32 (directValue s axis inp freq dataRate) ∧
    (f s axis inp freq dataRate).state.y_q27 2 axis =
      seedv (s.initFilt axis) inp (s.y_q27 1 axis) ∧
    (f s axis inp freq dataRate).state.y_q27 3 axis =
      seedv (s.initFilt axis) inp (s.y_q27 2 axis)) ∧
  (∀ c : Nat,
    (f { s with calledCount := c } axis inp freq dataRate).state.x_q27 =
      (f s axis inp freq dataRate).state.x_q27 ∧
    (f { s with calledCount := c } axis inp freq dataRate).state.y_q27 =
      (f s axis inp freq dataRate).state.y_q27 ∧
    (f { s with calledCount := c } axis inp freq dataRate).state.initFilt =
      (f s axis inp freq dataRate).state.initFilt)

/-- Aging in a cascaded second-order routine `f`, at a call from statics `s` with seeded
history `x1, x2`, `v1, v2`, `w1, w2` and computed stage values `v0`, `w0`: afterwards the
axis holds `x = (in, x1)`, `v = (v0, v1)` and `w = (w0, w1)`, and neither history nor flags
depend on the called-counter at entry. -/
def Cascade2Aging (f : Routine Cascade2State) (s : Cascade2State) (axis : Nat) (inp : Int)
    (freq dataRate : Nat) : Prop :=
  ((f s axis inp freq dataRate).state.v_q27 CURR axis = casc2V s axis inp freq ∧
    (f s axis inp freq dataRate).state.w_q27 CURR axis = casc2W s axis inp freq ∧
    (f s axis inp freq dataRate).state.x_q27 PASTx1 axis = inp ∧
    (f s axis inp freq dataRate).state.x_q27 PASTx2 axis =
      seedv (s.initFilt axis) inp (s.x_q27 PASTx1 axis) ∧
    (f s axis inp freq dataRate).state.v_q27 PASTx1 axis = casc2V s axis inp freq ∧
    (f s axis inp freq dataRate).state.v_q27 PASTx2 axis =
      seedv (s.initFilt axis) inp (s.v_q27 PASTx1 axis) ∧
    (f s axis inp freq dataRate).state.w_q27 PASTx1 axis = casc2W s axis inp freq ∧
    (f s axis inp freq dataRate).state.w_q27 PASTx2 axis =
      seedv (s.initFilt axis) inp (s.w_q27 PASTx1 axis)) ∧
  (∀ c : Nat,
    (f { s with calledCount := c } axis inp freq dataRate).state.x_q27 =
      (f s axis inp freq dataRate).state.x_q27 ∧
    (f { s with calledCount := c } axis inp freq dataRate).state.v_q27 =
      (f s axis inp freq dataRate).state.v_q27 ∧
    (f { s with calledCount := c } axis inp freq dataRate).state.w_q27 =
      (f s axis inp freq dataRate).state.w_q27 ∧
    (f { s with calledCount := c } axis inp freq dataRate).state.initFilt =
      (f s axis inp freq dataRate).state.initFilt)

/-- Aging in a cascaded first-order routine `f`, at a call from statics `s` with computed
stage values `u0`, `v0`, `w0`: afterwards the axis holds `x = in`, `u = u0`, `v = v0` and
`w = w0`, and neither history nor flags depend on the called-counter at entry. -/
def Cascade1Aging (f : Routine Cascade1State) (s : Cascade1State) (axis : Nat) (inp : Int)
    (freq dataRate : Nat) : Prop :=
  ((f s axis inp freq dataRate).state.u_q27 CURR axis = casc1U s axis inp freq ∧
    (f s axis inp freq dataRate).state.v_q27 CURR axis = casc1V s axis inp freq ∧
    (f s axis inp freq dataRate).state.w_q27 CURR axis = casc1W s axis inp freq ∧
    (f s axis inp freq dataRate).state.x_q27 PASTx1 axis = inp ∧
    (f s axis inp freq dataRate).state.u_q27 PASTx1 axis = casc1U s axis inp freq ∧
    (f s axis inp freq dataRate).state.v_q27 PASTx1 axis = casc1V s axis inp freq ∧
    (f s axis inp freq dataRate).state.w_q27 PASTx1 axis = casc1W s axis inp freq) ∧
  (∀ c : Nat,
    (f { s with calledCount := c } axis inp freq dataRate).state.x_q27 =
      (f s axis inp freq dataRate).state.x_q27 ∧
    (f { s with calledCount := c } axis inp freq dataRate).state.u_q27 =
      (f s axis inp freq dataRate).state.u_q27 ∧
    (f { s with calledCount := c } axis inp freq dataRate).state.v_q27 =
      (f s axis inp freq dataRate).state.v_q27 ∧
    (f { s with calledCount := c } axis inp freq dataRate).state.w_q27 =
      (f s axis inp freq dataRate).state.w_q27 ∧
    (f { s with calledCount := c } axis inp freq dataRate).state.initFilt =
      (f s axis inp freq dataRate).state.initFilt)

/-! ## Axis independence -/

/-- Two call sequences of the same length with the same `axis`, `freq` and `dataRate` at every
call and the same input at every call made for axis `B`. -/
def SameButOtherInputs (B : Nat) : List Call → List Call → Prop
  | [], [] => True
  | c :: cs, d :: ds =>
      c.axis = d.axis ∧ c.freq = d.freq ∧ c.dataRate = d.dataRate ∧
      (c.axis = B → c.inp = d.inp) ∧ SameButOtherInputs B cs ds
  | _, _ => False

/-- Two direct-form statics with the same called-counter and the same flag and history for
axis `B`. -/
def DirectState.agreeOn (B : Nat) (s t : DirectState) : Prop :=
  s.calledCount = t.calledCount ∧ s.initFilt B = t.initFilt B ∧
  ∀ k, s.x_q27 k B = t.x_q27 k B ∧ s.y_q27 k B = t.y_q27 k B

/-- Two cascaded second-order statics with the same called-counter and the same flag and
history for axis `B`. -/
def Cascade2State.agreeOn (B : Nat) (s t : Cascade2State) : Prop :=
  s.calledCount = t.calledCount ∧ s.initFilt B = t.initFilt B ∧
  ∀ k, s.x_q27 k B = t.x_q27 k B ∧ s.v_q27 k B = t.v_q27 k B ∧ s.w_q27 k B = t.w_q27 k B

/-- Two cascaded first-order statics with the same called-counter and the same flag and
history for axis `B`. -/
def Cascade1State.agreeOn (B : Nat) (s t : Cascade1State) : Prop :=
  s.calledCount = t.calledCount ∧ s.initFilt B = t.initFilt B ∧
  ∀ k, s.x_q27 k B = t.x_q27 k B ∧ s.u_q27 k B = t.u_q27 k B ∧
    s.v_q27 k B = t.v_q27 k B ∧ s.w_q27 k B = t.w_q27 k B

/-- Noninterference for axis `B` of routine `f` on the runs `cs` and `ds` from statics `init`:
every call made for `B` returns the same value and the same settled flag in both runs, and
the final statics agree on `B`. -/
def AxisNoninterference {σ : Type} (f : Routine σ) (init : σ) (agreeOn : Nat → σ → σ → Prop)
    (B : Nat) (cs ds : List Call) : Prop :=
  (∀ (i : Nat) (c : Call), cs[i]? = some c → c.axis = B →
    ∃ r1 r2, (runCalls f init cs)[i]? = some r1 ∧ (runCalls f init ds)[i]? = some r2 ∧
      r1.out = r2.out ∧ r1.ret = r2.ret) ∧
  agreeOn B (stateAfter f init cs) (stateAfter f init ds)

/-! ## Constant input -/

/-- The constant-input response of routine `f` on table row `freq`, `dataRate`: in every run
from the initial statics `init` that calls `f` repeatedly for `axis` with input `c`, the
value computed on the second call and on every later call (read by `computed`) differs from
`c` by at most 1, and every call that reports settled returns a value that differs from `c`
by at most 1. -/
def DCResponse {σ : Type} (f : Routine σ) (init : σ) (computed : σ → Nat → Int)
    (axis : Nat) (c : Int) (freq dataRate : Nat) : Prop :=
  ∀ (n i : Nat) (r : FilterResult σ),
    (runCalls f init
      (List.replicate n { axis := axis, inp := c, freq := freq, dataRate := dataRate }))[i]?
        = some r →
    (1 ≤ i → |computed r.state axis - c| ≤ 1) ∧ (r.ret = 1 → |r.out - c| ≤ 1)

/-- The seeded history a direct-form call reads for `axis` is constant `c`. -/
def DirectState.steady (axis : Nat) (c : Int) (s : DirectState) : Prop :=
  seedv (s.initFilt axis) c (s.x_q27 1 axis) = c ∧
  seedv (s.initFilt axis) c (s.x_q27 2 axis) = c ∧
  seedv (s.initFilt axis) c (s.x_q27 3 axis) = c ∧
  seedv (s.initFilt axis) c (s.y_q27 1 axis) = c ∧
  seedv (s.initFilt axis) c (s.y_q27 2 axis) = c ∧
  seedv (s.initFilt axis) c (s.y_q27 3 axis) = c

/-- The seeded history a cascaded second-order call reads for `axis` is constant `c`. -/
def Cascade2State.steady (axis : Nat) (c : Int) (s : Cascade2State) : Prop :=
  seedv (s.initFilt axis) c (s.x_q27 1 axis) = c ∧
  seedv (s.initFilt axis) c (s.x_q27 2 axis) = c ∧
  seedv (s.initFilt axis) c (s.v_q27 1 axis) = c ∧
  seedv (s.initFilt axis) c (s.v_q27 2 axis) = c ∧
  seedv (s.initFilt axis) c (s.w_q27 1 axis) = c ∧
  seedv (s.initFilt axis) c (s.w_q27 2 axis) = c

/-- The seeded history a cascaded first-order call reads for `axis` is constant `c`. -/
def Cascade1State.steady (axis : Nat) (c : Int) (s : Cascade1State) : Prop :=
  seedv (s.initFilt axis) c (s.x_q27 1 axis) = c ∧
  seedv (s.initFilt axis) c (s.u_q27 1 axis) = c ∧
  seedv (s.initFilt axis) c (s.v_q27 1 axis) = c ∧
  seedv (s.initFilt axis) c (s.w_q27 1 axis) = c

/-! ## Cascaded second-order pair as a composition -/

/-- One second-order section over the integers: on input `p` with past inputs `p1`, `p2` and
past outputs `q1`, `q2` it emits
`floor((b0*(p + 2*p1 + p2) - (a1*q1 + a2*q2) + 2^26) / 2^27)`. -/
def sec2 (b0 a1 a2 p p1 p2 q1 q2 : Int) : Int :=
  (b0 * (p + 2 * p1 + p2) - (a1 * q1 + a2 * q2) + 2 ^ 26) / 2 ^ 27

/-- The stream transformer of one second-order section with registers `p1`, `p2` (past
inputs) and `q1`, `q2` (past outputs): it emits `sec2` of each input and ages both
histories. -/
def sec2Run (b0 a1 a2 : Int) : Int → Int → Int → Int → List Int → List Int
  | _, _, _, _, [] => []
  | p1, p2, q1, q2, p :: ps =>
      sec2 b0 a1 a2 p p1 p2 q1 q2 ::
        sec2Run b0 a1 a2 p p1 (sec2 b0 a1 a2 p p1 p2 q1 q2) q1 ps

/-- The stream transformer `S(seed, b0, a1, a2)`: a second-order section whose four registers
start at `seed`. -/
def sectionStream (seed b0 a1 a2 : Int) (xs : List Int) : List Int :=
  sec2Run b0 a1 a2 seed seed seed seed xs

/-- The calls that feed the samples `xs` to one axis with fixed selectors. -/
def feedAxis (axis freq dataRate : Nat) (xs : List Int) : List Call :=
  xs.map (fun x => { axis := axis, inp := x, freq := freq, dataRate := dataRate })

/-- Routine `f`, fed the samples `xs` on one axis from the initial statics, computes call by
call the output stream of `S(x_1)` in its first stage and the output stream of `S(x_1)`
applied to the output stream of `S(x_1)` in its second stage, with `b0 = bc1_q27[freq][0]`,
`a1 = ac1_q27[freq][1]`, `a2 = ac1_q27[freq][2]` and `x_1` the first sample. -/
def Cascade2Composition (f : Routine Cascade2State) (axis freq dataRate : Nat)
    (xs : List Int) : Prop :=
  (runCalls f Cascade2State.init (feedAxis axis freq dataRate xs)).map
      (fun r => r.state.v_q27 CURR axis) =
    sectionStream (xs.headD 0) (tab2 bc1_q27 freq 0) (tab2 ac1_q27 freq 1)
      (tab2 ac1_q27 freq 2) xs ∧
  (runCalls f Cascade2State.init (feedAxis axis freq dataRate xs)).map
      (fun r => r.state.w_q27 CURR axis) =
    sectionStream (xs.headD 0) (tab2 bc1_q27 freq 0) (tab2 ac1_q27 freq 1)
      (tab2 ac1_q27 freq 2)
      (sectionStream (xs.headD 0) (tab2 bc1_q27 freq 0) (tab2 ac1_q27 freq 1)
        (tab2 ac1_q27 freq 2) xs)

/-- The quadratic form `2^27*q1^2 + a1*q1*q2 + a2*q2^2` of two consecutive outputs of a
second-order section; one step of the section without input multiplies it by `a2 / 2^27`. -/
def quad2 (a1 a2 q1 q2 : Int) : Int :=
  134217728 * (q1 * q1) + a1 * (q1 * q2) + a2 * (q2 * q2)

/-- Two consecutive outputs of a second-order section within the bound `B` whose quadratic
form is within `K`. -/
def StageInv (a1 a2 K B q1 q2 : Int) : Prop :=
  quad2 a1 a2 q1 q2 ≤ K ∧ (-B ≤ q1 ∧ q1 ≤ B) ∧ (-B ≤ q2 ∧ q2 ≤ B)

/-- Row by row, the bound kept by the quadratic form of the first stage's outputs. -/
def lyapK1 (freq : Nat) : Int :=
  [1000000000000000, 10000000000000000, 100000000000000000, 1000000000000000000,
    1000000000000000000, 10000000000000000000, 1000000000000000000].getD freq 0

/-- Row by row, the bound kept by the quadratic form of the second stage's outputs. -/
def lyapK2 (freq : Nat) : Int :=
  [10000000000000000000, 100000000000000000000, 1000000000000000000000,
    10000000000000000000000, 10000000000000000000000, 100000000000000000000000,
    10000000000000000000000].getD freq 0

/-- The seeded history a cascaded second-order call with input `x0` reads for `axis` is
`X1, X2` (inputs), `V1, V2` (first-stage outputs) and `W1, W2` (second-stage outputs). -/
def Cascade2State.regs (s : Cascade2State) (axis : Nat) (x0 X1 X2 V1 V2 W1 W2 : Int) : Prop :=
  seedv (s.initFilt axis) x0 (s.x_q27 1 axis) = X1 ∧
  seedv (s.initFilt axis) x0 (s.x_q27 2 axis) = X2 ∧
  seedv (s.initFilt axis) x0 (s.v_q27 1 axis) = V1 ∧
  seedv (s.initFilt axis) x0 (s.v_q27 2 axis) = V2 ∧
  seedv (s.initFilt axis) x0 (s.w_q27 1 axis) = W1 ∧
  seedv (s.initFilt axis) x0 (s.w_q27 2 axis) = W2

/-- Every history slot a direct-form call reads holds a value of the type that was written
to it: an `int16_t` in the input history, an `int32_t` in the output history. -/
def DirectState.ranged (s : DirectState) : Prop :=
  ∀ axis k, k = 1 ∨ k = 2 ∨ k = 3 → isInt16 (s.x_q27 k axis) ∧ isInt32 (s.y_q27 k axis)

/-! ## The shared warm-up counter -/

/-- In the run `calls` of routine `f` from statics `init`, the settled flag of a call is
decided by its position alone: the calls at positions 0..40 return 0 and every later call
returns 1, whatever axes the calls address. -/
def SettledByCallCount {σ : Type} (f : Routine σ) (init : σ) (calls : List Call) : Prop :=
  ∀ (i : Nat) (r : FilterResult σ), (runCalls f init calls)[i]? = some r →
    r.ret = if 41 ≤ i then 1 else 0

/-- After the calls `pre`, the call of routine `f` for axis 1 with sample `s`, made as call
number `pre.length + 1` of the run from statics `init`, returns settled and delivers
`value` cast to `int32_t`. -/
def SettledFirstCall {σ : Type} (f : Routine σ) (init : σ) (pre : List Call) (s : Int)
    (freq dataRate : Nat) (value : Int) : Prop :=
  ∃ r, (runCalls f init
      (pre ++ [{ axis := 1, inp := s, freq := freq, dataRate := dataRate }]))[pre.length]?
        = some r ∧
    r.ret = 1 ∧ r.out = toInt32 value

/-! ## Absence of 64-bit overflow in the direct form -/

/-- An integer of magnitude below `2^63`. -/
def below63 (z : Int) : Prop := -9223372036854775808 < z ∧ z < 9223372036854775808

/-- Every product, every partial sum and the final `tmp_in - tmp_out + ONE_HALF_Q27` of a
direct-form call has magnitude below `2^63` when computed over the integers, and the machine
expressions `tmp_out`, `tmp_in` and the stored value equal their exact counterparts. -/
def DirectNoWrap (a3 a2 a1 b0 inp x1 x2 x3 y1 y2 y3 : Int) : Prop :=
  below63 (a3 * y3) ∧ below63 (a2 * y2) ∧ below63 (a1 * y1) ∧
  below63 (a3 * y3 + a2 * y2) ∧ below63 (a3 * y3 + a2 * y2 + a1 * y1) ∧
  below63 (inp + x3) ∧ below63 (x1 + x2) ∧ below63 (3 * (x1 + x2)) ∧
  below63 (inp + x3 + 3 * (x1 + x2)) ∧ below63 (b0 * (inp + x3 + 3 * (x1 + x2))) ∧
  below63 (b0 * (inp + x3 + 3 * (x1 + x2)) - (a3 * y3 + a2 * y2 + a1 * y1)) ∧
  below63 (b0 * (inp + x3 + 3 * (x1 + x2)) - (a3 * y3 + a2 * y2 + a1 * y1) + 67108864) ∧
  directTmpOut a3 a2 a1 y1 y2 y3 = a3 * y3 + a2 * y2 + a1 * y1 ∧
  directTmpIn b0 inp x1 x2 x3 = b0 * (inp + x3 + 3 * (x1 + x2)) ∧
  directY0 a3 a2 a1 b0 inp x1 x2 x3 y1 y2 y3 =
    (b0 * (inp + x3 + 3 * (x1 + x2)) - (a3 * y3 + a2 * y2 + a1 * y1) + 67108864) / 134217728

/-- No overflow in the direct-form routine `f`: the statics reached by the run `calls` hold
`int16_t` past inputs and `int32_t` past outputs on every axis, and the next call, with
arguments `axis`, `inp`, `freq`, `dataRate`, computes without wrap. -/
def DirectOverflowFree (f : Routine DirectState) (calls : List Call) (axis : Nat) (inp : Int)
    (freq dataRate : Nat) : Prop :=
  (stateAfter f DirectState.init calls).ranged ∧
  DirectNoWrap (tab3 a_q27 3 dataRate freq) (tab3 a_q27 2 dataRate freq)
    (tab3 a_q27 1 dataRate freq) (tab3 b_q27 0 dataRate freq) inp
    (seedv ((stateAfter f DirectState.init calls).initFilt axis) inp
      ((stateAfter f DirectState.init calls).x_q27 1 axis))
    (seedv ((stateAfter f DirectState.init calls).initFilt axis) inp
      ((stateAfter f DirectState.init calls).x_q27 2 axis))
    (seedv ((stateAfter f DirectState.init calls).initFilt axis) inp
      ((stateAfter f DirectState.init calls).x_q27 3 axis))
    (seedv ((stateAfter f DirectState.init calls).initFilt axis) inp
      ((stateAfter f DirectState.init calls).y_q27 1 axis))
    (seedv ((stateAfter f DirectState.init calls).initFilt axis) inp
      ((stateAfter f DirectState.init calls).y_q27 2 axis))
    (seedv ((stateAfter f DirectState.init calls).initFilt axis) inp
      ((stateAfter f DirectState.init calls).y_q27 3 axis))

/-! ## Zero rows, the sample-rate selector and the twin routines -/

/-- A cascaded first-order call of routine `f` on row 0 stores 0 in all three stages, and a
settled call delivers 0. -/
def Cascade1ZeroRow (f : Routine Cascade1State) (s : Cascade1State) (axis : Nat) (inp : Int)
    (dataRate : Nat) : Prop :=
  (f s axis inp 0 dataRate).state.u_q27 CURR axis = 0 ∧
  (f s axis inp 0 dataRate).state.v_q27 CURR axis = 0 ∧
  (f s axis inp 0 dataRate).state.w_q27 CURR axis = 0 ∧
  (40 < s.calledCount →
    (f s axis inp 0 dataRate).ret = 1 ∧ (f s axis inp 0 dataRate).out = 0)

/-- A cascaded second-order call of routine `f` on row 6 stores 0 in both stages, and a
settled call delivers 0. -/
def Cascade2ZeroRow (f : Routine Cascade2State) (s : Cascade2State) (axis : Nat) (inp : Int)
    (dataRate : Nat) : Prop :=
  (f s axis inp 6 dataRate).state.v_q27 CURR axis = 0 ∧
  (f s axis inp 6 dataRate).state.w_q27 CURR axis = 0 ∧
  (40 < s.calledCount →
    (f s axis inp 6 dataRate).ret = 1 ∧ (f s axis inp 6 dataRate).out = 0)

/-- Routine `f` gives the same result for every two values of `dataRate`. -/
def IgnoresDataRate {σ : Type} (f : Routine σ) : Prop :=
  ∀ (s : σ) (axis : Nat) (inp : Int) (freq d1 d2 : Nat),
    f s axis inp freq d1 = f s axis inp freq d2

/-- The statics of a direct-form routine with an all-zero history, every flag cleared and
the called-counter at 41. -/
def DirectState.settledZero : DirectState :=
  { initFilt := fun _ => 0, calledCount := 41, x_q27 := fun _ _ => 0, y_q27 := fun _ _ => 0 }

/-- The static variables of the six filter routines, each routine with its own. -/
structure Statics where
  /-- The statics of `_accelFilt_3rdOrderBWF_LowPass_Axis`. -/
  accel3 : DirectState
  /-- The statics of `_rateFilt_3rdOrderBWF_LowPass_Axis`. -/
  rate3 : DirectState
  /-- The statics of `_rateFilt_4thOrderBWF_LowPass_Axis_cascaded2nd`. -/
  rate4 : Cascade2State
  /-- The statics of `_accel_4thOrderBWF_LowPass_Axis_cascaded2nd`. -/
  accel4 : Cascade2State
  /-- The statics of `_rateFilt_3rdOrderBWF_LowPass_Axis_cascaded1st`. -/
  rate1 : Cascade1State
  /-- The statics of `_accelFilt_3rdOrderBWF_LowPass_Axis_cascaded1st`. -/
  accel1 : Cascade1State

/-- A call of `_accelFilt_3rdOrderBWF_LowPass_Axis` in the program. -/
def Statics.callAccel3 (g : Statics) (axis : Nat) (inp : Int) (freq dataRate : Nat) : Statics :=
  { g with accel3 := (_accelFilt_3rdOrderBWF_LowPass_Axis g.accel3 axis inp freq dataRate).state }

/-- A call of `_rateFilt_3rdOrderBWF_LowPass_Axis` in the program. -/
def Statics.callRate3 (g : Statics) (axis : Nat) (inp : Int) (freq dataRate : Nat) : Statics :=
  { g with rate3 := (_rateFilt_3rdOrderBWF_LowPass_Axis g.rate3 axis inp freq dataRate).state }

/-- A call of `_rateFilt_4thOrderBWF_LowPass_Axis_cascaded2nd` in the program. -/
def Statics.callRate4 (g : Statics) (axis : Nat) (inp : Int) (freq dataRate : Nat) : Statics :=
  { g with rate4 :=
      (_rateFilt_4thOrderBWF_LowPass_Axis_cascaded2nd g.rate4 axis inp freq dataRate).state }

/-- A call of `_accel_4thOrderBWF_LowPass_Axis_cascaded2nd` in the program. -/
def Statics.callAccel4 (g : Statics) (axis : Nat) (inp : Int) (freq dataRate : Nat) : Statics :=
  { g with accel4 :=
      (_accel_4thOrderBWF_LowPass_Axis_cascaded2nd g.accel4 axis inp freq dataRate).state }

/-- A call of `_rateFilt_3rdOrderBWF_LowPass_Axis_cascaded1st` in the program. -/
def Statics.callRate1 (g : Statics) (axis : Nat) (inp : Int) (freq dataRate : Nat) : Statics :=
  { g with rate1 :=
      (_rateFilt_3rdOrderBWF_LowPass_Axis_cascaded1st g.rate1 axis inp freq dataRate).state }

/-- A call of `_accelFilt_3rdOrderBWF_LowPass_Axis_cascaded1st` in the program. -/
def Statics.callAccel1 (g : Statics) (axis : Nat) (inp : Int) (freq dataRate : Nat) : Statics :=
  { g with accel1 :=
      (_accelFilt_3rdOrderBWF_LowPass_Axis_cascaded1st g.accel1 axis inp freq dataRate).state }

/-- Two routines over the same statics are the same state transformer: equal results from
equal statics and arguments, hence equal results call by call on every run from `init`. -/
def SameTransformer {σ : Type} (f g : Routine σ) (init : σ) : Prop :=
  (∀ (s : σ) (axis : Nat) (inp : Int) (freq dataRate : Nat),
    (f s axis inp freq dataRate).out = (g s axis inp freq dataRate).out ∧
    (f s axis inp freq dataRate).ret = (g s axis inp freq dataRate).ret ∧
    (f s axis inp freq dataRate).state = (g s axis inp freq dataRate).state) ∧
  (∀ calls : List Call, runCalls f init calls = runCalls g init calls)

/-! ## The seeded state as a fixed point -/

/-- The fixed point of a direct-form routine `f` on row `freq`, `dataRate`: in every run
that calls `f` repeatedly for `axis` with input `c` from the initial statics, every call
computes `c`, leaves `c` in the slots `xslots` of the input history and in all four slots
of the output history of the axis, and delivers `c`. -/
def DirectFixedPoint (f : Routine DirectState) (xslots : List Nat) (axis : Nat) (c : Int)
    (freq dataRate : Nat) : Prop :=
  ∀ (n i : Nat) (r : FilterResult DirectState),
    (runCalls f DirectState.init
      (List.replicate n { axis := axis, inp := c, freq := freq, dataRate := dataRate }))[i]?
        = some r →
    r.state.y_q27 0 axis = c ∧ (∀ k ∈ xslots, r.state.x_q27 k axis = c) ∧
    (∀ k, k < 4 → r.state.y_q27 k axis = c) ∧ r.out = c

/-- The fixed point of a cascaded second-order routine `f` on row `freq`: in every run that
calls `f` repeatedly for `axis` with input `c` from the initial statics, every call computes
`c` in both stages, leaves `c` in all three slots of `x_q27`, `v_q27` and `w_q27` of the
axis, and delivers `c`. -/
def Cascade2FixedPoint (f : Routine Cascade2State) (axis : Nat) (c : Int)
    (freq dataRate : Nat) : Prop :=
  ∀ (n i : Nat) (r : FilterResult Cascade2State),
    (runCalls f Cascade2State.init
      (List.replicate n { axis := axis, inp := c, freq := freq, dataRate := dataRate }))[i]?
        = some r →
    (∀ k, k < 3 → r.state.x_q27 k axis = c ∧ r.state.v_q27 k axis = c ∧
      r.state.w_q27 k axis = c) ∧ r.out = c

/-- The fixed point of a cascaded first-order routine `f` on row `freq`: in every run that
calls `f` repeatedly for `axis` with input `c` from the initial statics, every call computes
`c` in all three stages, leaves `c` in both slots of `x_q27`, `u_q27`, `v_q27` and `w_q27`
of the axis, and delivers `c`. -/
def Cascade1FixedPoint (f : Routine Cascade1State) (axis : Nat) (c : Int)
    (freq dataRate : Nat) : Prop :=
  ∀ (n i : Nat) (r : FilterResult Cascade1State),
    (runCalls f Cascade1State.init
      (List.replicate n { axis := axis, inp := c, freq := freq, dataRate := dataRate }))[i]?
        = some r →
    (∀ k, k < 2 → r.state.x_q27 k axis = c ∧ r.state.u_q27 k axis = c ∧
      r.state.v_q27 k axis = c ∧ r.state.w_q27 k axis = c) ∧ r.out = c

/-- The flag of `axis` is set, or every slot a direct-form routine writes for `axis`
holds `c`. -/
def DirectState.freshOrConst (axis : Nat) (c : Int) (s : DirectState) : Prop :=
  s.initFilt axis ≠ 0 ∨
    ((∀ k, k = 1 ∨ k = 2 ∨ k = 3 → s.x_q27 k axis = c) ∧ ∀ k, k < 4 → s.y_q27 k axis = c)

/-- The flag of `axis` is set, or every slot of the cascaded second-order histories of
`axis` holds `c`. -/
def Cascade2State.freshOrConst (axis : Nat) (c : Int) (s : Cascade2State) : Prop :=
  s.initFilt axis ≠ 0 ∨
    ∀ k, k < 3 → s.x_q27 k axis = c ∧ s.v_q27 k axis = c ∧ s.w_q27 k axis = c

/-- The flag of `axis` is set, or every slot of the cascaded first-order histories of `axis`
holds `c`. -/
def Cascade1State.freshOrConst (axis : Nat) (c : Int) (s : Cascade1State) : Prop :=
  s.initFilt axis ≠ 0 ∨
    ∀ k, k < 2 → s.x_q27 k axis = c ∧ s.u_q27 k axis = c ∧ s.v_q27 k axis = c ∧
      s.w_q27 k axis = c

/-! ## The cascaded first-order filter does not overshoot -/

/-- Every intermediate of one first-order stage has magnitude below `2^63` when computed
over the integers, and the machine expression of the stage equals the exact rounded
quotient. -/
def Stage1NoWrap (b0 a1 p p1 q1 : Int) : Prop :=
  below63 (p + p1) ∧ below63 (b0 * (p + p1)) ∧ below63 (a1 * q1) ∧
  below63 (b0 * (p + p1) - a1 * q1) ∧ below63 (b0 * (p + p1) - a1 * q1 + 67108864) ∧
  stage1 b0 a1 p p1 q1 = (b0 * (p + p1) - a1 * q1 + 67108864) / 134217728

/-- A cascaded first-order call of routine `f` from statics `s` stays in the interval
`[lo, hi]`: its three stage values lie in the interval, the cast of the last one to
`int32_t` changes nothing, and no stage wraps. -/
def Cascade1CallInBox (f : Routine Cascade1State) (s : Cascade1State) (axis : Nat) (inp : Int)
    (freq dataRate : Nat) (lo hi : Int) : Prop :=
  (lo ≤ (f s axis inp freq dataRate).state.u_q27 CURR axis ∧
    (f s axis inp freq dataRate).state.u_q27 CURR axis ≤ hi) ∧
  (lo ≤ (f s axis inp freq dataRate).state.v_q27 CURR axis ∧
    (f s axis inp freq dataRate).state.v_q27 CURR axis ≤ hi) ∧
  (lo ≤ (f s axis inp freq dataRate).state.w_q27 CURR axis ∧
    (f s axis inp freq dataRate).state.w_q27 CURR axis ≤ hi) ∧
  toInt32 ((f s axis inp freq dataRate).state.w_q27 CURR axis) =
    (f s axis inp freq dataRate).state.w_q27 CURR axis ∧
  Stage1NoWrap (tab2 bc2_q27 freq CURR) (tab2 ac2_q27 freq PASTx1) inp
    (seedv (s.initFilt axis) inp (s.x_q27 PASTx1 axis))
    (seedv (s.initFilt axis) inp (s.u_q27 PASTx1 axis)) ∧
  Stage1NoWrap (tab2 bc2_q27 freq CURR) (tab2 ac2_q27 freq PASTx1)
    ((f s axis inp freq dataRate).state.u_q27 CURR axis)
    (seedv (s.initFilt axis) inp (s.u_q27 PASTx1 axis))
    (seedv (s.initFilt axis) inp (s.v_q27 PASTx1 axis)) ∧
  Stage1NoWrap (tab2 bc2_q27 freq CURR) (tab2 ac2_q27 freq PASTx1)
    ((f s axis inp freq dataRate).state.v_q27 CURR axis)
    (seedv (s.initFilt axis) inp (s.v_q27 PASTx1 axis))
    (seedv (s.initFilt axis) inp (s.w_q27 PASTx1 axis))

/-- In the run `calls` of the cascaded first-order routine `f` from the initial statics,
every call made for axis `A` stays in the interval `[lo, hi]`. -/
def Cascade1NoOvershoot (f : Routine Cascade1State) (A : Nat) (lo hi : Int)
    (calls : List Call) : Prop :=
  ∀ (i : Nat) (c : Call), calls[i]? = some c → c.axis = A →
    Cascade1CallInBox f (stateAfter f Cascade1State.init (calls.take i)) A c.inp c.freq
      c.dataRate lo hi

/-- The flag of axis `A` is set, or the past input and the three past stage values of `A`
lie in `[lo, hi]`. -/
def Cascade1State.inBox (A : Nat) (lo hi : Int) (s : Cascade1State) : Prop :=
  s.initFilt A ≠ 0 ∨
    ((lo ≤ s.x_q27 1 A ∧ s.x_q27 1 A ≤ hi) ∧ (lo ≤ s.u_q27 1 A ∧ s.u_q27 1 A ≤ hi) ∧
      (lo ≤ s.v_q27 1 A ∧ s.v_q27 1 A ≤ hi) ∧ (lo ≤ s.w_q27 1 A ∧ s.w_q27 1 A ≤ hi))

/-! ## Self-test data record (`Platform/Core/include/bitSelfTest.h`) -/

/-- The record `BuiltInTestStruct`: `uint8_t` and `uint16_t` fields are naturals, the
`int32_t` sums are integers, arrays are functions of their indices. -/
structure BuiltInTestStruct where
  /-- The field `PerformSelfTest`. -/
  PerformSelfTest : Nat
  /-- The field `StartSelfTest`. -/
  StartSelfTest : Nat
  /-- The field `CompleteSelfTest`. -/
  CompleteSelfTest : Nat
  /-- The field `AnalyzeSelfTestResults`. -/
  AnalyzeSelfTestResults : Nat
  /-- The field `CollectSelfTestData`. -/
  CollectSelfTestData : Nat
  /-- The field `SelfTestDataCount`: limit of `SelfTest_PointsToCollect`. -/
  SelfTestDataCount : Nat
  /-- The field `SelfTestDataIndex`: 0 - biased, 1 - unbiased data. -/
  SelfTestDataIndex : Nat
  /-- The field `SelfTestSummation[2][11]`. -/
  SelfTestSummation : Nat → Nat → Int
  /-- The field `SelfTestDelta[11]`. -/
  SelfTestDelta : Nat → Nat
  /-- The field `SelfTestDeltaLimit[11]`. -/
  SelfTestDeltaLimit : Nat → Nat
  /-- The field `NumberOfFailures`. -/
  NumberOfFailures : Nat
  /-- The field `SelfTestFailureLimit`. -/
  SelfTestFailureLimit : Nat
  /-- The field `SelfTest_AverageShift`. -/
  SelfTest_AverageShift : Nat
  /-- The field `SelfTest_PointsToCollect`. -/
  SelfTest_PointsToCollect : Nat

/-- Modelled from the spec: `InitStructureVariables_BIT`, of which the sources hold only the
declaration; by section 4.4 (`initVariables`) it zeroes every field of the record. -/
def InitStructureVariables_BIT : BuiltInTestStruct :=
  { PerformSelfTest := 0, StartSelfTest := 0, CompleteSelfTest := 0,
    AnalyzeSelfTestResults := 0, CollectSelfTestData := 0, SelfTestDataCount := 0,
    SelfTestDataIndex := 0, SelfTestSummation := fun _ _ => 0, SelfTestDelta := fun _ => 0,
    SelfTestDeltaLimit := fun _ => 0, NumberOfFailures := 0, SelfTestFailureLimit := 0,
    SelfTest_AverageShift := 0, SelfTest_PointsToCollect := 0 }

/-- Modelled from the spec: `BITInit`, of which the sources hold only the declaration; by
section 4.4 (`init`) it computes `SelfTest_PointsToCollect = 2 << SelfTest_AverageShift`,
stored in the `uint8_t` field of the record, and resets the counters and the sums. -/
def BITInit (b : BuiltInTestStruct) : BuiltInTestStruct :=
  { b with
    SelfTest_PointsToCollect := toUInt8 (2 <<< b.SelfTest_AverageShift)
    SelfTestDataCount := 0
    NumberOfFailures := 0
    SelfTestSummation := fun _ _ => 0 }

/-- Modelled from the spec: `BITCollectData`, of which the sources hold only the
declaration; by section 4.4 (`collectData`) it adds the reading of each of the 11 channels
to the running sum selected by `SelfTestDataIndex` and increments `SelfTestDataCount`. -/
def BITCollectData (b : BuiltInTestStruct) (reading : Nat → Int) : BuiltInTestStruct :=
  { b with
    SelfTestSummation := fun i ch =>
      if i = b.SelfTestDataIndex ∧ ch < 11 then toInt32 (b.SelfTestSummation i ch + reading ch)
      else b.SelfTestSummation i ch
    SelfTestDataCount := toUInt8 (b.SelfTestDataCount + 1) }

/-- The record after `BITCollectData` has been called on each reading vector in turn. -/
def collectAll (b : BuiltInTestStruct) (readings : List (Nat → Int)) : BuiltInTestStruct :=
  readings.foldl BITCollectData b

/-- The value `SelfTest_PointsToCollect` receives for `SelfTest_AverageShift = shift` is the
power of two `2^(shift + 1)`. -/
def PointsToCollectIsPower (shift : Nat) : Prop :=
  (BITInit { InitStructureVariables_BIT with SelfTest_AverageShift := shift }
    ).SelfTest_PointsToCollect = 2 ^ (shift + 1)

/-! ## Bounds-checked array accesses

Every array of the source has declared dimensions: `initFilt[3]`, the histories
`[4][NUM_AXIS]`, `[3][NUM_AXIS]` or `[2][NUM_AXIS]`, and the constant tables. The routines
below are the six filter routines again, statement by statement, with each array access
checked against the declared dimensions: an access outside them makes the call `none`.
`NUM_AXIS` is declared in `Indices.h`; here it is an argument. -/

/-- The read `a[i]` of an array declared `a[n]`. -/
def at1 (n : Nat) (a : Nat → Nat) (i : Nat) : Option Nat :=
  if i < n then some (a i) else none

/-- The assignment `a[i] = v` on an array declared `a[n]`. -/
def put1 (n : Nat) (a : Nat → Nat) (i v : Nat) : Option (Nat → Nat) :=
  if i < n then some (set1 a i v) else none

/-- The read `a[i][j]` of an array declared `a[n][m]`. -/
def at2 (n m : Nat) (a : Nat → Nat → Int) (i j : Nat) : Option Int :=
  if i < n ∧ j < m then some (a i j) else none

/-- The assignment `a[i][j] = v` on an array declared `a[n][m]`. -/
def put2 (n m : Nat) (a : Nat → Nat → Int) (i j : Nat) (v : Int) : Option (Nat → Nat → Int) :=
  if i < n ∧ j < m then some (set2 a i j v) else none

/-- Entry `t[i][j][k]` of a three-dimensional constant table, `none` outside the table. -/
def tab3Checked (t : List (List (List Int))) (i j k : Nat) : Option Int :=
  match t[i]? with
  | none => none
  | some p =>
    match p[j]? with
    | none => none
    | some r => r[k]?

/-- Entry `t[i][j]` of a two-dimensional constant table, `none` outside the table. -/
def tab2Checked (t : List (List Int)) (i j : Nat) : Option Int :=
  match t[i]? with
  | none => none
  | some r => r[j]?

/-- Sequencing of checked steps: the rest of the routine runs on the value of a step that
stayed within bounds, and an access out of bounds ends the call. -/
@[noinline]
def andThen {α β : Type} (x : Option α) (f : α → Option β) : Option β :=
  match x with
  | none => none
  | some a => f a

/-- The routine `_accelFilt_3rdOrderBWF_LowPass_Axis` with every array access checked. -/
def _accelFilt_3rdOrderBWF_LowPass_Axis_checked (NUM_AXIS : Nat) (s : DirectState) (axis : Nat)
    (inp : Int) (freq dataRate : Nat) : Option (FilterResult DirectState) :=
  -- Initialize the vector of previous readings
  andThen (at1 3 s.initFilt axis) fun flag =>
  andThen (if flag ≠ 0 then put1 3 s.initFilt axis 0 else some s.initFilt) fun initFilt =>
  andThen (if flag ≠ 0 then
      andThen (put2 4 NUM_AXIS s.x_q27 1 axis inp) fun x1 =>
      andThen (put2 4 NUM_AXIS x1 2 axis inp) fun x2 =>
      put2 4 NUM_AXIS x2 3 axis inp
    else some s.x_q27) fun accel_x_q27 =>
  andThen (if flag ≠ 0 then
      andThen (put2 4 NUM_AXIS s.y_q27 1 axis inp) fun y1 =>
      andThen (put2 4 NUM_AXIS y1 2 axis inp) fun y2 =>
      put2 4 NUM_AXIS y2 3 axis inp
    else some s.y_q27) fun accel_y_q27 =>
  -- Filter the input signal
  andThen (tab3Checked a_q27 3 dataRate freq) fun a3 =>
  andThen (at2 4 NUM_AXIS accel_y_q27 3 axis) fun y3 =>
  andThen (tab3Checked a_q27 2 dataRate freq) fun a2 =>
  andThen (at2 4 NUM_AXIS accel_y_q27 2 axis) fun y2 =>
  andThen (tab3Checked a_q27 1 dataRate freq) fun a1 =>
  andThen (at2 4 NUM_AXIS accel_y_q27 1 axis) fun y1 =>
  let tmp_out := add64 (add64 (mul64 a3 y3) (mul64 a2 y2)) (mul64 a1 y1)
  andThen (tab3Checked b_q27 0 dataRate freq) fun b0 =>
  andThen (at2 4 NUM_AXIS accel_x_q27 3 axis) fun x3 =>
  andThen (at2 4 NUM_AXIS accel_x_q27 1 axis) fun x1 =>
  andThen (at2 4 NUM_AXIS accel_x_q27 2 axis) fun x2 =>
  let tmp_in := mul64 b0 (add64 (add64 inp x3) (mul64 3 (add64 x1 x2)))
  -- add 0.5 to the data to round
  andThen (put2 4 NUM_AXIS accel_y_q27 0 axis
    ((add64 (sub64 tmp_in tmp_out) ONE_HALF_Q27) >>> (27 : Nat))) fun accel_y_q27 =>
  andThen (at2 4 NUM_AXIS accel_y_q27 0 axis) fun y0 =>
  let out := toInt32 y0
  -- Save off past values
  andThen (at2 4 NUM_AXIS accel_x_q27 2 axis) fun x2 =>
  andThen (put2 4 NUM_AXIS accel_x_q27 3 axis x2) fun accel_x_q27 =>
  andThen (at2 4 NUM_AXIS accel_y_q27 2 axis) fun y2 =>
  andThen (put2 4 NUM_AXIS accel_y_q27 3 axis y2) fun accel_y_q27 =>
  andThen (at2 4 NUM_AXIS accel_x_q27 1 axis) fun x1 =>
  andThen (put2 4 NUM_AXIS accel_x_q27 2 axis x1) fun accel_x_q27 =>
  andThen (at2 4 NUM_AXIS accel_y_q27 1 axis) fun y1 =>
  andThen (put2 4 NUM_AXIS accel_y_q27 2 axis y1) fun accel_y_q27 =>
  andThen (put2 4 NUM_AXIS accel_x_q27 1 axis inp) fun accel_x_q27 =>
  andThen (put2 4 NUM_AXIS accel_y_q27 1 axis out) fun accel_y_q27 =>
  -- Allow WAIT_TIL_VALID data points to pass through unfiltered
  if s.calledCount > WAIT_TIL_VALID then
    some { ret := 1, out := out,
           state := { initFilt := initFilt, calledCount := s.calledCount,
                      x_q27 := accel_x_q27, y_q27 := accel_y_q27 } }
  else
    some { ret := 0, out := inp,
           state := { initFilt := initFilt, calledCount := toUInt8 (s.calledCount + 1),
                      x_q27 := accel_x_q27, y_q27 := accel_y_q27 } }

/-- The routine `_rateFilt_3rdOrderBWF_LowPass_Axis` with every array access checked. -/
def _rateFilt_3rdOrderBWF_LowPass_Axis_checked (NUM_AXIS : Nat) (s : DirectState) (axis : Nat)
    (inp : Int) (freq dataRate : Nat) : Option (FilterResult DirectState) :=
  -- Initialize the vector of previous readings
  andThen (at1 3 s.initFilt axis) fun flag =>
  andThen (if flag ≠ 0 then put1 3 s.initFilt axis 0 else some s.initFilt) fun initFilt =>
  andThen (if flag ≠ 0 then
      andThen (put2 4 NUM_AXIS s.x_q27 1 axis inp) fun x1 =>
      andThen (put2 4 NUM_AXIS x1 2 axis inp) fun x2 =>
      put2 4 NUM_AXIS x2 3 axis inp
    else some s.x_q27) fun rate_x_q27 =>
  andThen (if flag ≠ 0 then
      andThen (put2 4 NUM_AXIS s.y_q27 1 axis inp) fun y1 =>
      andThen (put2 4 NUM_AXIS y1 2 axis inp) fun y2 =>
      put2 4 NUM_AXIS y2 3 axis inp
    else some s.y_q27) fun rate_y_q27 =>
  -- Filter the input signal
  andThen (tab3Checked a_q27 3 dataRate freq) fun a3 =>
  andThen (at2 4 NUM_AXIS rate_y_q27 3 axis) fun y3 =>
  andThen (tab3Checked a_q27 2 dataRate freq) fun a2 =>
  andThen (at2 4 NUM_AXIS rate_y_q27 2 axis) fun y2 =>
  andThen (tab3Checked a_q27 1 dataRate freq) fun a1 =>
  andThen (at2 4 NUM_AXIS rate_y_q27 1 axis) fun y1 =>
  let tmp_out := add64 (add64 (mul64 a3 y3) (mul64 a2 y2)) (mul64 a1 y1)
  andThen (tab3Checked b_q27 0 dataRate freq) fun b0 =>
  andThen (at2 4 NUM_AXIS rate_x_q27 3 axis) fun x3 =>
  andThen (at2 4 NUM_AXIS rate_x_q27 1 axis) fun x1 =>
  andThen (at2 4 NUM_AXIS rate_x_q27 2 axis) fun x2 =>
  let tmp_in := mul64 b0 (add64 (add64 inp x3) (mul64 3 (add64 x1 x2)))
  -- add 0.5 to the data to round
  andThen (put2 4 NUM_AXIS rate_y_q27 0 axis
    ((add64 (sub64 tmp_in tmp_out) ONE_HALF_Q27) >>> (27 : Nat))) fun rate_y_q27 =>
  andThen (at2 4 NUM_AXIS rate_y_q27 0 axis) fun y0 =>
  let out := toInt32 y0
  -- Save off past values
  andThen (at2 4 NUM_AXIS rate_x_q27 2 axis) fun x2 =>
  andThen (put2 4 NUM_AXIS rate_x_q27 3 axis x2) fun rate_x_q27 =>
  andThen (at2 4 NUM_AXIS rate_y_q27 2 axis) fun y2 =>
  andThen (put2 4 NUM_AXIS rate_y_q27 3 axis y2) fun rate_y_q27 =>
  andThen (at2 4 NUM_AXIS rate_x_q27 1 axis) fun x1 =>
  andThen (put2 4 NUM_AXIS rate_x_q27 2 axis x1) fun rate_x_q27 =>
  andThen (at2 4 NUM_AXIS rate_y_q27 1 axis) fun y1 =>
  andThen (put2 4 NUM_AXIS rate_y_q27 2 axis y1) fun rate_y_q27 =>
  andThen (put2 4 NUM_AXIS rate_x_q27 1 axis inp) fun rate_x_q27 =>
  andThen (put2 4 NUM_AXIS rate_y_q27 1 axis out) fun rate_y_q27 =>
  -- Allow WAIT_TIL_VALID data points to pass through unfiltered
  if s.calledCount > WAIT_TIL_VALID then
    some { ret := 1, out := out,
           state := { initFilt := initFilt, calledCount := s.calledCount,
                      x_q27 := rate_x_q27, y_q27 := rate_y_q27 } }
  else
    some { ret := 0, out := inp,
           state := { initFilt := initFilt, calledCount := toUInt8 (s.calledCount + 1),
                      x_q27 := rate_x_q27, y_q27 := rate_y_q27 } }

/-- The routine `_rateFilt_4thOrderBWF_LowPass_Axis_cascaded2nd` with every array access checked. -/
def _rateFilt_4thOrderBWF_LowPass_Axis_cascaded2nd_checked (NUM_AXIS : Nat) (s : Cascade2State)
    (axis : Nat) (inp : Int) (freq dataRate : Nat) : Option (FilterResult Cascade2State) :=
  andThen (at1 3 s.initFilt axis) fun flag =>
  andThen (if flag ≠ 0 then put1 3 s.initFilt axis 0 else some s.initFilt) fun initFilt =>
  andThen (if flag ≠ 0 then
      andThen (put2 3 NUM_AXIS s.x_q27 CURR axis inp) fun x0 =>
      andThen (put2 3 NUM_AXIS x0 PASTx1 axis inp) fun x1 =>
      put2 3 NUM_AXIS x1 PASTx2 axis inp
    else some s.x_q27) fun x_q27 =>
  andThen (if flag ≠ 0 then
      andThen (put2 3 NUM_AXIS s.v_q27 CURR axis inp) fun v0 =>
      andThen (put2 3 NUM_AXIS v0 PASTx1 axis inp) fun v1 =>
      put2 3 NUM_AXIS v1 PASTx2 axis inp
    else some s.v_q27) fun v_q27 =>
  andThen (if flag ≠ 0 then
      andThen (put2 3 NUM_AXIS s.w_q27 CURR axis inp) fun w0 =>
      andThen (put2 3 NUM_AXIS w0 PASTx1 axis inp) fun w1 =>
      put2 3 NUM_AXIS w1 PASTx2 axis inp
    else some s.w_q27) fun w_q27 =>
  -- Filter the input signal (first stage)
  andThen (tab2Checked bc1_q27 freq CURR) fun b0 =>
  andThen (at2 3 NUM_AXIS x_q27 PASTx1 axis) fun x1 =>
  andThen (at2 3 NUM_AXIS x_q27 PASTx2 axis) fun x2 =>
  let tmp_in := mul64 b0 (add64 (add64 inp (mul64 2 x1)) x2)
  andThen (tab2Checked ac1_q27 freq PASTx1) fun a1 =>
  andThen (at2 3 NUM_AXIS v_q27 PASTx1 axis) fun v1 =>
  andThen (tab2Checked ac1_q27 freq PASTx2) fun a2 =>
  andThen (at2 3 NUM_AXIS v_q27 PASTx2 axis) fun v2 =>
  let tmp_out := add64 (mul64 a1 v1) (mul64 a2 v2)
  andThen (put2 3 NUM_AXIS v_q27 CURR axis
    ((add64 (sub64 tmp_in tmp_out) ONE_HALF_Q27) >>> (27 : Nat))) fun v_q27 =>
  -- Filter the input signal (second stage)
  andThen (tab2Checked bc1_q27 freq CURR) fun b0 =>
  andThen (at2 3 NUM_AXIS v_q27 CURR axis) fun v0 =>
  andThen (at2 3 NUM_AXIS v_q27 PASTx1 axis) fun v1 =>
  andThen (at2 3 NUM_AXIS v_q27 PASTx2 axis) fun v2 =>
  let tmp_in := mul64 b0 (add64 (add64 v0 (mul64 2 v1)) v2)
  andThen (tab2Checked ac1_q27 freq PASTx1) fun a1 =>
  andThen (at2 3 NUM_AXIS w_q27 PASTx1 axis) fun w1 =>
  andThen (tab2Checked ac1_q27 freq PASTx2) fun a2 =>
  andThen (at2 3 NUM_AXIS w_q27 PASTx2 axis) fun w2 =>
  let tmp_out := add64 (mul64 a1 w1) (mul64 a2 w2)
  andThen (put2 3 NUM_AXIS w_q27 0 axis
    ((add64 (sub64 tmp_in tmp_out) ONE_HALF_Q27) >>> (27 : Nat))) fun w_q27 =>
  andThen (at2 3 NUM_AXIS w_q27 0 axis) fun w0 =>
  let out := toInt32 w0
  -- Save off past values
  andThen (at2 3 NUM_AXIS x_q27 PASTx1 axis) fun x1 =>
  andThen (put2 3 NUM_AXIS x_q27 PASTx2 axis x1) fun x_q27 =>
  andThen (put2 3 NUM_AXIS x_q27 PASTx1 axis inp) fun x_q27 =>
  andThen (at2 3 NUM_AXIS v_q27 PASTx1 axis) fun v1 =>
  andThen (put2 3 NUM_AXIS v_q27 PASTx2 axis v1) fun v_q27 =>
  andThen (at2 3 NUM_AXIS v_q27 CURR axis) fun v0 =>
  andThen (put2 3 NUM_AXIS v_q27 PASTx1 axis v0) fun v_q27 =>
  andThen (at2 3 NUM_AXIS w_q27 PASTx1 axis) fun w1 =>
  andThen (put2 3 NUM_AXIS w_q27 PASTx2 axis w1) fun w_q27 =>
  andThen (at2 3 NUM_AXIS w_q27 CURR axis) fun w0 =>
  andThen (put2 3 NUM_AXIS w_q27 PASTx1 axis w0) fun w_q27 =>
  -- Allow WAIT_TIL_VALID data points to pass through unfiltered
  if s.calledCount > WAIT_TIL_VALID then
    some { ret := 1, out := out,
           state := { initFilt := initFilt, calledCount := s.calledCount,
                      x_q27 := x_q27, v_q27 := v_q27, w_q27 := w_q27 } }
  else
    some { ret := 0, out := inp,
           state := { initFilt := initFilt, calledCount := toUInt8 (s.calledCount + 1),
                      x_q27 := x_q27, v_q27 := v_q27, w_q27 := w_q27 } }

/-- The routine `_accel_4thOrderBWF_LowPass_Axis_cascaded2nd` with every array access checked. -/
def _accel_4thOrderBWF_LowPass_Axis_cascaded2nd_checked (NUM_AXIS : Nat) (s : Cascade2State)
    (axis : Nat) (inp : Int) (freq dataRate : Nat) : Option (FilterResult Cascade2State) :=
  andThen (at1 3 s.initFilt axis) fun flag =>
  andThen (if flag ≠ 0 then put1 3 s.initFilt axis 0 else some s.initFilt) fun initFilt =>
  andThen (if flag ≠ 0 then
      andThen (put2 3 NUM_AXIS s.x_q27 CURR axis inp) fun x0 =>
      andThen (put2 3 NUM_AXIS x0 PASTx1 axis inp) fun x1 =>
      put2 3 NUM_AXIS x1 PASTx2 axis inp
    else some s.x_q27) fun x_q27 =>
  andThen (if flag ≠ 0 then
      andThen (put2 3 NUM_AXIS s.v_q27 CURR axis inp) fun v0 =>
      andThen (put2 3 NUM_AXIS v0 PASTx1 axis inp) fun v1 =>
      put2 3 NUM_AXIS v1 PASTx2 axis inp
    else some s.v_q27) fun v_q27 =>
  andThen (if flag ≠ 0 then
      andThen (put2 3 NUM_AXIS s.w_q27 CURR axis inp) fun w0 =>
      andThen (put2 3 NUM_AXIS w0 PASTx1 axis inp) fun w1 =>
      put2 3 NUM_AXIS w1 PASTx2 axis inp
    else some s.w_q27) fun w_q27 =>
  -- Filter the input signal (first stage)
  andThen (tab2Checked bc1_q27 freq CURR) fun b0 =>
  andThen (at2 3 NUM_AXIS x_q27 PASTx1 axis) fun x1 =>
  andThen (at2 3 NUM_AXIS x_q27 PASTx2 axis) fun x2 =>
  let tmp_in := mul64 b0 (add64 (add64 inp (mul64 2 x1)) x2)
  andThen (tab2Checked ac1_q27 freq PASTx1) fun a1 =>
  andThen (at2 3 NUM_AXIS v_q27 PASTx1 axis) fun v1 =>
  andThen (tab2Checked ac1_q27 freq PASTx2) fun a2 =>
  andThen (at2 3 NUM_AXIS v_q27 PASTx2 axis) fun v2 =>
  let tmp_out := add64 (mul64 a1 v1) (mul64 a2 v2)
  andThen (put2 3 NUM_AXIS v_q27 CURR axis
    ((add64 (sub64 tmp_in tmp_out) ONE_HALF_Q27) >>> (27 : Nat))) fun v_q27 =>
  -- Filter the input signal (second stage)
  andThen (tab2Checked bc1_q27 freq CURR) fun b0 =>
  andThen (at2 3 NUM_AXIS v_q27 CURR axis) fun v0 =>
  andThen (at2 3 NUM_AXIS v_q27 PASTx1 axis) fun v1 =>
  andThen (at2 3 NUM_AXIS v_q27 PASTx2 axis) fun v2 =>
  let tmp_in := mul64 b0 (add64 (add64 v0 (mul64 2 v1)) v2)
  andThen (tab2Checked ac1_q27 freq PASTx1) fun a1 =>
  andThen (at2 3 NUM_AXIS w_q27 PASTx1 axis) fun w1 =>
  andThen (tab2Checked ac1_q27 freq PASTx2) fun a2 =>
  andThen (at2 3 NUM_AXIS w_q27 PASTx2 axis) fun w2 =>
  let tmp_out := add64 (mul64 a1 w1) (mul64 a2 w2)
  andThen (put2 3 NUM_AXIS w_q27 0 axis
    ((add64 (sub64 tmp_in tmp_out) ONE_HALF_Q27) >>> (27 : Nat))) fun w_q27 =>
  andThen (at2 3 NUM_AXIS w_q27 0 axis) fun w0 =>
  let out := toInt32 w0
  -- Save off past values
  andThen (at2 3 NUM_AXIS x_q27 PASTx1 axis) fun x1 =>
  andThen (put2 3 NUM_AXIS x_q27 PASTx2 axis x1) fun x_q27 =>
  andThen (put2 3 NUM_AXIS x_q27 PASTx1 axis inp) fun x_q27 =>
  andThen (at2 3 NUM_AXIS v_q27 PASTx1 axis) fun v1 =>
  andThen (put2 3 NUM_AXIS v_q27 PASTx2 axis v1) fun v_q27 =>
  andThen (at2 3 NUM_AXIS v_q27 CURR axis) fun v0 =>
  andThen (put2 3 NUM_AXIS v_q27 PASTx1 axis v0) fun v_q27 =>
  andThen (at2 3 NUM_AXIS w_q27 PASTx1 axis) fun w1 =>
  andThen (put2 3 NUM_AXIS w_q27 PASTx2 axis w1) fun w_q27 =>
  andThen (at2 3 NUM_AXIS w_q27 CURR axis) fun w0 =>
  andThen (put2 3 NUM_AXIS w_q27 PASTx1 axis w0) fun w_q27 =>
  -- Allow WAIT_TIL_VALID data points to pass through unfiltered
  if s.calledCount > WAIT_TIL_VALID then
    some { ret := 1, out := out,
           state := { initFilt := initFilt, calledCount := s.calledCount,
                      x_q27 := x_q27, v_q27 := v_q27, w_q27 := w_q27 } }
  else
    some { ret := 0, out := inp,
           state := { initFilt := initFilt, calledCount := toUInt8 (s.calledCount + 1),
                      x_q27 := x_q27, v_q27 := v_q27, w_q27 := w_q27 } }

/-- The routine `_rateFilt_3rdOrderBWF_LowPass_Axis_cascaded1st` with every array access checked. -/
def _rateFilt_3rdOrderBWF_LowPass_Axis_cascaded1st_checked (NUM_AXIS : Nat) (s : Cascade1State)
    (axis : Nat) (inp : Int) (freq dataRate : Nat) : Option (FilterResult Cascade1State) :=
  andThen (at1 3 s.initFilt axis) fun flag =>
  andThen (if flag ≠ 0 then put1 3 s.initFilt axis 0 else some s.initFilt) fun initFilt =>
  andThen (if flag ≠ 0 then
      andThen (put2 2 NUM_AXIS s.x_q27 CURR axis inp) fun x0 =>
      put2 2 NUM_AXIS x0 PASTx1 axis inp
    else some s.x_q27) fun x_q27 =>
  andThen (if flag ≠ 0 then
      andThen (put2 2 NUM_AXIS s.u_q27 CURR axis inp) fun u0 =>
      put2 2 NUM_AXIS u0 PASTx1 axis inp
    else some s.u_q27) fun u_q27 =>
  andThen (if flag ≠ 0 then
      andThen (put2 2 NUM_AXIS s.v_q27 CURR axis inp) fun v0 =>
      put2 2 NUM_AXIS v0 PASTx1 axis inp
    else some s.v_q27) fun v_q27 =>
  andThen (if flag ≠ 0 then
      andThen (put2 2 NUM_AXIS s.w_q27 CURR axis inp) fun w0 =>
      put2 2 NUM_AXIS w0 PASTx1 axis inp
    else some s.w_q27) fun w_q27 =>
  -- Filter the input signal (first stage)
  andThen (tab2Checked bc2_q27 freq CURR) fun b0 =>
  andThen (at2 2 NUM_AXIS x_q27 PASTx1 axis) fun x1 =>
  let tmp_in := mul64 b0 (add64 inp x1)
  andThen (tab2Checked ac2_q27 freq PASTx1) fun a1 =>
  andThen (at2 2 NUM_AXIS u_q27 PASTx1 axis) fun u1 =>
  let tmp_out := mul64 a1 u1
  andThen (put2 2 NUM_AXIS u_q27 CURR axis
    ((add64 (sub64 tmp_in tmp_out) ONE_HALF_Q27) >>> (27 : Nat))) fun u_q27 =>
  -- Second stage
  andThen (tab2Checked bc2_q27 freq CURR) fun b0 =>
  andThen (at2 2 NUM_AXIS u_q27 CURR axis) fun u0 =>
  andThen (at2 2 NUM_AXIS u_q27 PASTx1 axis) fun u1 =>
  let tmp_in := mul64 b0 (add64 u0 u1)
  andThen (tab2Checked ac2_q27 freq PASTx1) fun a1 =>
  andThen (at2 2 NUM_AXIS v_q27 PASTx1 axis) fun v1 =>
  let tmp_out := mul64 a1 v1
  andThen (put2 2 NUM_AXIS v_q27 CURR axis
    ((add64 (sub64 tmp_in tmp_out) ONE_HALF_Q27) >>> (27 : Nat))) fun v_q27 =>
  -- Third stage
  andThen (tab2Checked bc2_q27 freq CURR) fun b0 =>
  andThen (at2 2 NUM_AXIS v_q27 CURR axis) fun v0 =>
  andThen (at2 2 NUM_AXIS v_q27 PASTx1 axis) fun v1 =>
  let tmp_in := mul64 b0 (add64 v0 v1)
  andThen (tab2Checked ac2_q27 freq PASTx1) fun a1 =>
  andThen (at2 2 NUM_AXIS w_q27 PASTx1 axis) fun w1 =>
  let tmp_out := mul64 a1 w1
  andThen (put2 2 NUM_AXIS w_q27 CURR axis
    ((add64 (sub64 tmp_in tmp_out) ONE_HALF_Q27) >>> (27 : Nat))) fun w_q27 =>
  andThen (at2 2 NUM_AXIS w_q27 CURR axis) fun w0 =>
  let out := toInt32 w0
  -- Save off past values
  andThen (put2 2 NUM_AXIS x_q27 PASTx1 axis inp) fun x_q27 =>
  andThen (at2 2 NUM_AXIS u_q27 CURR axis) fun u0 =>
  andThen (put2 2 NUM_AXIS u_q27 PASTx1 axis u0) fun u_q27 =>
  andThen (at2 2 NUM_AXIS v_q27 CURR axis) fun v0 =>
  andThen (put2 2 NUM_AXIS v_q27 PASTx1 axis v0) fun v_q27 =>
  andThen (at2 2 NUM_AXIS w_q27 CURR axis) fun w0 =>
  andThen (put2 2 NUM_AXIS w_q27 PASTx1 axis w0) fun w_q27 =>
  -- Allow WAIT_TIL_VALID data points to pass through unfiltered
  if s.calledCount > WAIT_TIL_VALID then
    some { ret := 1, out := out,
           state := { initFilt := initFilt, calledCount := s.calledCount,
                      x_q27 := x_q27, u_q27 := u_q27, v_q27 := v_q27, w_q27 := w_q27 } }
  else
    some { ret := 0, out := inp,
           state := { initFilt := initFilt, calledCount := toUInt8 (s.calledCount + 1),
                      x_q27 := x_q27, u_q27 := u_q27, v_q27 := v_q27, w_q27 := w_q27 } }

/-- The routine `_accelFilt_3rdOrderBWF_LowPass_Axis_cascaded1st` with every array access checked. -/
def _accelFilt_3rdOrderBWF_LowPass_Axis_cascaded1st_checked (NUM_AXIS : Nat) (s : Cascade1State)
    (axis : Nat) (inp : Int) (freq dataRate : Nat) : Option (FilterResult Cascade1State) :=
  andThen (at1 3 s.initFilt axis) fun flag =>
  andThen (if flag ≠ 0 then put1 3 s.initFilt axis 0 else some s.initFilt) fun initFilt =>
  andThen (if flag ≠ 0 then
      andThen (put2 2 NUM_AXIS s.x_q27 CURR axis inp) fun x0 =>
      put2 2 NUM_AXIS x0 PASTx1 axis inp
    else some s.x_q27) fun x_q27 =>
  andThen (if flag ≠ 0 then
      andThen (put2 2 NUM_AXIS s.u_q27 CURR axis inp) fun u0 =>
      put2 2 NUM_AXIS u0 PASTx1 axis inp
    else some s.u_q27) fun u_q27 =>
  andThen (if flag ≠ 0 then
      andThen (put2 2 NUM_AXIS s.v_q27 CURR axis inp) fun v0 =>
      put2 2 NUM_AXIS v0 PASTx1 axis inp
    else some s.v_q27) fun v_q27 =>
  andThen (if flag ≠ 0 then
      andThen (put2 2 NUM_AXIS s.w_q27 CURR axis inp) fun w0 =>
      put2 2 NUM_AXIS w0 PASTx1 axis inp
    else some s.w_q27) fun w_q27 =>
  -- Filter the input signal (first stage)
  andThen (tab2Checked bc2_q27 freq CURR) fun b0 =>
  andThen (at2 2 NUM_AXIS x_q27 PASTx1 axis) fun x1 =>
  let tmp_in := mul64 b0 (add64 inp x1)
  andThen (tab2Checked ac2_q27 freq PASTx1) fun a1 =>
  andThen (at2 2 NUM_AXIS u_q27 PASTx1 axis) fun u1 =>
  let tmp_out := mul64 a1 u1
  andThen (put2 2 NUM_AXIS u_q27 CURR axis
    ((add64 (sub64 tmp_in tmp_out) ONE_HALF_Q27) >>> (27 : Nat))) fun u_q27 =>
  -- Second stage
  andThen (tab2Checked bc2_q27 freq CURR) fun b0 =>
  andThen (at2 2 NUM_AXIS u_q27 CURR axis) fun u0 =>
  andThen (at2 2 NUM_AXIS u_q27 PASTx1 axis) fun u1 =>
  let tmp_in := mul64 b0 (add64 u0 u1)
  andThen (tab2Checked ac2_q27 freq PASTx1) fun a1 =>
  andThen (at2 2 NUM_AXIS v_q27 PASTx1 axis) fun v1 =>
  let tmp_out := mul64 a1 v1
  andThen (put2 2 NUM_AXIS v_q27 CURR axis
    ((add64 (sub64 tmp_in tmp_out) ONE_HALF_Q27) >>> (27 : Nat))) fun v_q27 =>
  -- Third stage
  andThen (tab2Checked bc2_q27 freq CURR) fun b0 =>
  andThen (at2 2 NUM_AXIS v_q27 CURR axis) fun v0 =>
  andThen (at2 2 NUM_AXIS v_q27 PASTx1 axis) fun v1 =>
  let tmp_in := mul64 b0 (add64 v0 v1)
  andThen (tab2Checked ac2_q27 freq PASTx1) fun a1 =>
  andThen (at2 2 NUM_AXIS w_q27 PASTx1 axis) fun w1 =>
  let tmp_out := mul64 a1 w1
  andThen (put2 2 NUM_AXIS w_q27 CURR axis
    ((add64 (sub64 tmp_in tmp_out) ONE_HALF_Q27) >>> (27 : Nat))) fun w_q27 =>
  andThen (at2 2 NUM_AXIS w_q27 CURR axis) fun w0 =>
  let out := toInt32 w0
  -- Save off past values
  andThen (put2 2 NUM_AXIS x_q27 PASTx1 axis inp) fun x_q27 =>
  andThen (at2 2 NUM_AXIS u_q27 CURR axis) fun u0 =>
  andThen (put2 2 NUM_AXIS u_q27 PASTx1 axis u0) fun u_q27 =>
  andThen (at2 2 NUM_AXIS v_q27 CURR axis) fun v0 =>
  andThen (put2 2 NUM_AXIS v_q27 PASTx1 axis v0) fun v_q27 =>
  andThen (at2 2 NUM_AXIS w_q27 CURR axis) fun w0 =>
  andThen (put2 2 NUM_AXIS w_q27 PASTx1 axis w0) fun w_q27 =>
  -- Allow WAIT_TIL_VALID data points to pass through unfiltered
  if s.calledCount > WAIT_TIL_VALID then
    some { ret := 1, out := out,
           state := { initFilt := initFilt, calledCount := s.calledCount,
                      x_q27 := x_q27, u_q27 := u_q27, v_q27 := v_q27, w_q27 := w_q27 } }
  else
    some { ret := 0, out := inp,
           state := { initFilt := initFilt, calledCount := toUInt8 (s.calledCount + 1),
                      x_q27 := x_q27, u_q27 := u_q27, v_q27 := v_q27, w_q27 := w_q27 } }

/-- Every array access of the six routines is within the declared dimensions: each checked
routine returns, and returns what the routine itself returns. -/
def AllAccessesInBounds (NUM_AXIS : Nat) (sd : DirectState) (s2 : Cascade2State)
    (s1 : Cascade1State) (axis : Nat) (inp : Int) (freq dataRate : Nat) : Prop :=
  _accelFilt_3rdOrderBWF_LowPass_Axis_checked NUM_AXIS sd axis inp freq dataRate =
    some (_accelFilt_3rdOrderBWF_LowPass_Axis sd axis inp freq dataRate) ∧
  _rateFilt_3rdOrderBWF_LowPass_Axis_checked NUM_AXIS sd axis inp freq dataRate =
    some (_rateFilt_3rdOrderBWF_LowPass_Axis sd axis inp freq dataRate) ∧
  _rateFilt_4thOrderBWF_LowPass_Axis_cascaded2nd_checked NUM_AXIS s2 axis inp freq dataRate =
    some (_rateFilt_4thOrderBWF_LowPass_Axis_cascaded2nd s2 axis inp freq dataRate) ∧
  _accel_4thOrderBWF_LowPass_Axis_cascaded2nd_checked NUM_AXIS s2 axis inp freq dataRate =
    some (_accel_4thOrderBWF_LowPass_Axis_cascaded2nd s2 axis inp freq dataRate) ∧
  _rateFilt_3rdOrderBWF_LowPass_Axis_cascaded1st_checked NUM_AXIS s1 axis inp freq dataRate =
    some (_rateFilt_3rdOrderBWF_LowPass_Axis_cascaded1st s1 axis inp freq dataRate) ∧
  _accelFilt_3rdOrderBWF_LowPass_Axis_cascaded1st_checked NUM_AXIS s1 axis inp freq dataRate =
    some (_accelFilt_3rdOrderBWF_LowPass_Axis_cascaded1st s1 axis inp freq dataRate)

/-! ## Saturation of the called-counter -/

/-- The called-counter `count` of routine `f` saturates: in every statics reachable from
`init` it is at most 41, and one more call never decreases it, leaves it alone once it
exceeds 40, and otherwise stores the counter plus one itself, a value below 256 that the
`uint8_t` increment does not reduce modulo 256. -/
def CounterSaturates {σ : Type} (f : Routine σ) (count : σ → Nat) (init : σ) : Prop :=
  ∀ (calls : List Call) (c : Call),
    count (stateAfter f init calls) ≤ 41 ∧
    count (stateAfter f init calls) ≤
      count (f (stateAfter f init calls) c.axis c.inp c.freq c.dataRate).state ∧
    (40 < count (stateAfter f init calls) →
      count (f (stateAfter f init calls) c.axis c.inp c.freq c.dataRate).state =
        count (stateAfter f init calls)) ∧
    (count (stateAfter f init calls) ≤ 40 →
      count (f (stateAfter f init calls) c.axis c.inp c.freq c.dataRate).state =
        count (stateAfter f init calls) + 1) ∧
    count (f (stateAfter f init calls) c.axis c.inp c.freq c.dataRate).state < 256

/-- Settling of routine `f` is permanent: in every run from `init`, once a call has returned
1 every later call of the run returns 1. -/
def SettlingPermanent {σ : Type} (f : Routine σ) (init : σ) : Prop :=
  ∀ (calls : List Call) (i j : Nat) (r r2 : FilterResult σ), i ≤ j →
    (runCalls f init calls)[i]? = some r → (runCalls f init calls)[j]? = some r2 →
    r.ret = 1 → r2.ret = 1

/-- Three hundred calls on axis 0 with sample 1000 and table row `freq`: more calls than the
`uint8_t` counter has values. -/
def longRun (freq : Nat) : List Call :=
  List.replicate 300 { axis := 0, inp := 1000, freq := freq, dataRate := 0 }

/-- On the run `longRun freq` of routine `f` the counter ends at 41, and exactly the calls
from the 42nd on return 1. -/
def LongRunSettles {σ : Type} (f : Routine σ) (count : σ → Nat) (init : σ) (freq : Nat) :
    Prop :=
  count (stateAfter f init (longRun freq)) = 41 ∧
  ∀ (i : Nat) (r : FilterResult σ), (runCalls f init (longRun freq))[i]? = some r →
    (r.ret = 1 ↔ 41 ≤ i)

/-! # Theorems -/

/-! ## The routines in closed form -/

theorem accel3_normal_form (s : DirectState) (axis : Nat) (inp : Int) (freq dataRate : Nat) :
    _accelFilt_3rdOrderBWF_LowPass_Axis s axis inp freq dataRate =
      { ret := if 40 < s.calledCount then 1 else 0,
        out := if 40 < s.calledCount then toInt32 (directValue s axis inp freq dataRate) else inp,
        state :=
          { initFilt := fun k => if k = axis then 0 else s.initFilt k,
            calledCount :=
              if 40 < s.calledCount then s.calledCount else toUInt8 (s.calledCount + 1),
            x_q27 := fun k l =>
              if l = axis then
                (if k = 1 then inp
                 else if k = 2 then seedv (s.initFilt axis) inp (s.x_q27 1 axis)
                 else if k = 3 then seedv (s.initFilt axis) inp (s.x_q27 2 axis)
                 else s.x_q27 k l)
              else s.x_q27 k l,
            y_q27 := fun k l =>
              if l = axis then
                (if k = 0 then directValue s axis inp freq dataRate
                 else if k = 1 then toInt32 (directValue s axis inp freq dataRate)
                 else if k = 2 then seedv (s.initFilt axis) inp (s.y_q27 1 axis)
                 else if k = 3 then seedv (s.initFilt axis) inp (s.y_q27 2 axis)
                 else s.y_q27 k l)
              else s.y_q27 k l } } := by
  unfold _accelFilt_3rdOrderBWF_LowPass_Axis directValue directY0 roundShift27 directTmpIn
    directTmpOut seedv WAIT_TIL_VALID
  by_cases hc : 40 < s.calledCount <;> by_cases hf : s.initFilt axis = 0
  all_goals
    simp only [gt_iff_lt, hc, hf, if_true, if_false, ne_eq, not_true_eq_false, not_false_eq_true]
    refine FilterResult.ext rfl ?_ (DirectState.ext ?_ rfl ?_ ?_)
    · first
        | rfl
        | simp [set2]
    · funext k
      by_cases hk : k = axis
      · subst hk
        simp [set1, hf]
      · simp [set1, hk]
    · funext k l
      by_cases hl : l = axis
      · subst hl
        rcases k with _ | _ | _ | _ | k <;> simp [set2]
      · simp [set2, hl]
    · funext k l
      by_cases hl : l = axis
      · subst hl
        rcases k with _ | _ | _ | _ | k <;> simp [set2]
      · simp [set2, hl]

theorem rate3_eq_accel3 :
    _rateFilt_3rdOrderBWF_LowPass_Axis = _accelFilt_3rdOrderBWF_LowPass_Axis := rfl

theorem rate4_normal_form (s : Cascade2State) (axis : Nat) (inp : Int) (freq dataRate : Nat) :
    _rateFilt_4thOrderBWF_LowPass_Axis_cascaded2nd s axis inp freq dataRate =
      { ret := if 40 < s.calledCount then 1 else 0,
        out := if 40 < s.calledCount then toInt32 (casc2W s axis inp freq) else inp,
        state :=
          { initFilt := fun k => if k = axis then 0 else s.initFilt k,
            calledCount :=
              if 40 < s.calledCount then s.calledCount else toUInt8 (s.calledCount + 1),
            x_q27 := fun k l =>
              if l = axis then
                (if k = 0 then seedv (s.initFilt axis) inp (s.x_q27 0 axis)
                 else if k = 1 then inp
                 else if k = 2 then seedv (s.initFilt axis) inp (s.x_q27 1 axis)
                 else s.x_q27 k l)
              else s.x_q27 k l,
            v_q27 := fun k l =>
              if l = axis then
                (if k = 0 then casc2V s axis inp freq
                 else if k = 1 then casc2V s axis inp freq
                 else if k = 2 then seedv (s.initFilt axis) inp (s.v_q27 1 axis)
                 else s.v_q27 k l)
              else s.v_q27 k l,
            w_q27 := fun k l =>
              if l = axis then
                (if k = 0 then casc2W s axis inp freq
                 else if k = 1 then casc2W s axis inp freq
                 else if k = 2 then seedv (s.initFilt axis) inp (s.w_q27 1 axis)
                 else s.w_q27 k l)
              else s.w_q27 k l } } := by
  unfold _rateFilt_4thOrderBWF_LowPass_Axis_cascaded2nd casc2W casc2V stage2 roundShift27
    stage2TmpIn stage2TmpOut seedv WAIT_TIL_VALID
    CURR PASTx1 PASTx2
  by_cases hc : 40 < s.calledCount <;> by_cases hf : s.initFilt axis = 0
  all_goals
    simp only [gt_iff_lt, hc, hf, if_true, if_false, ne_eq, not_true_eq_false, not_false_eq_true]
    refine FilterResult.ext rfl ?_ (Cascade2State.ext ?_ rfl ?_ ?_ ?_)
    · first
        | rfl
        | simp [set2]
    · funext k
      by_cases hk : k = axis
      · subst hk
        simp [set1, hf]
      · simp [set1, hk]
    · funext k l
      by_cases hl : l = axis
      · subst hl
        rcases k with _ | _ | _ | k <;> simp [set2]
      · simp [set2, hl]
    · funext k l
      by_cases hl : l = axis
      · subst hl
        rcases k with _ | _ | _ | k <;> simp [set2]
      · simp [set2, hl]
    · funext k l
      by_cases hl : l = axis
      · subst hl
        rcases k with _ | _ | _ | k <;> simp [set2]
      · simp [set2, hl]

theorem accel4_eq_rate4 :
    _accel_4thOrderBWF_LowPass_Axis_cascaded2nd =
      _rateFilt_4thOrderBWF_LowPass_Axis_cascaded2nd := rfl

theorem rate1_normal_form (s : Cascade1State) (axis : Nat) (inp : Int) (freq dataRate : Nat) :
    _rateFilt_3rdOrderBWF_LowPass_Axis_cascaded1st s axis inp freq dataRate =
      { ret := if 40 < s.calledCount then 1 else 0,
        out := if 40 < s.calledCount then toInt32 (casc1W s axis inp freq) else inp,
        state :=
          { initFilt := fun k => if k = axis then 0 else s.initFilt k,
            calledCount :=
              if 40 < s.calledCount then s.calledCount else toUInt8 (s.calledCount + 1),
            x_q27 := fun k l =>
              if l = axis then
                (if k = 0 then seedv (s.initFilt axis) inp (s.x_q27 0 axis)
                 else if k = 1 then inp
                 else s.x_q27 k l)
              else s.x_q27 k l,
            u_q27 := fun k l =>
              if l = axis then
                (if k = 0 then casc1U s axis inp freq
                 else if k = 1 then casc1U s axis inp freq
                 else s.u_q27 k l)
              else s.u_q27 k l,
            v_q27 := fun k l =>
              if l = axis then
                (if k = 0 then casc1V s axis inp freq
                 else if k = 1 then casc1V s axis inp freq
                 else s.v_q27 k l)
              else s.v_q27 k l,
            w_q27 := fun k l =>
              if l = axis then
                (if k = 0 then casc1W s axis inp freq
                 else if k = 1 then casc1W s axis inp freq
                 else s.w_q27 k l)
              else s.w_q27 k l } } := by
  unfold _rateFilt_3rdOrderBWF_LowPass_Axis_cascaded1st casc1W casc1V casc1U stage1 roundShift27
    stage1TmpIn stage1TmpOut seedv
    WAIT_TIL_VALID CURR PASTx1
  by_cases hc : 40 < s.calledCount <;> by_cases hf : s.initFilt axis = 0
  all_goals
    simp only [gt_iff_lt, hc, hf, if_true, if_false, ne_eq, not_true_eq_false, not_false_eq_true]
    refine FilterResult.ext rfl ?_ (Cascade1State.ext ?_ rfl ?_ ?_ ?_ ?_)
    · first
        | rfl
        | simp [set2]
    · funext k
      by_cases hk : k = axis
      · subst hk
        simp [set1, hf]
      · simp [set1, hk]
    · funext k l
      by_cases hl : l = axis
      · subst hl
        rcases k with _ | _ | k <;> simp [set2]
      · simp [set2, hl]
    · funext k l
      by_cases hl : l = axis
      · subst hl
        rcases k with _ | _ | k <;> simp [set2]
      · simp [set2, hl]
    · funext k l
      by_cases hl : l = axis
      · subst hl
        rcases k with _ | _ | k <;> simp [set2]
      · simp [set2, hl]
    · funext k l
      by_cases hl : l = axis
      · subst hl
        rcases k with _ | _ | k <;> simp [set2]
      · simp [set2, hl]

theorem accel1_eq_rate1 :
    _accelFilt_3rdOrderBWF_LowPass_Axis_cascaded1st =
      _rateFilt_3rdOrderBWF_LowPass_Axis_cascaded1st := rfl

/-! ## Machine arithmetic -/

theorem toInt64_of_isInt64 {z : Int} (h : isInt64 z) : toInt64 z = z := by
  unfold isInt64 at h
  unfold toInt64
  omega

theorem toInt32_of_isInt32 {z : Int} (h : isInt32 z) : toInt32 z = z := by
  unfold isInt32 at h
  unfold toInt32
  omega

theorem isInt64_toInt64 (z : Int) : isInt64 (toInt64 z) := by
  unfold isInt64 toInt64
  omega

theorem isInt32_toInt32 (z : Int) : isInt32 (toInt32 z) := by
  unfold isInt32 toInt32
  omega

theorem isInt32_of_isInt16 {z : Int} (h : isInt16 z) : isInt32 z := by
  unfold isInt16 at h
  unfold isInt32
  omega

theorem toInt64_add_mul (x m : Int) : toInt64 (x + m * 18446744073709551616) = toInt64 x := by
  unfold toInt64
  omega

theorem toInt64_eq_add_mul (a : Int) : ∃ k : Int, toInt64 a = a + k * 18446744073709551616 :=
  ⟨-((a + 9223372036854775808) / 18446744073709551616), by unfold toInt64; omega⟩

theorem toInt64_add_left (a b : Int) : toInt64 (toInt64 a + b) = toInt64 (a + b) := by
  unfold toInt64
  omega

theorem toInt64_add_right (a b : Int) : toInt64 (a + toInt64 b) = toInt64 (a + b) := by
  unfold toInt64
  omega

theorem toInt64_sub_left (a b : Int) : toInt64 (toInt64 a - b) = toInt64 (a - b) := by
  unfold toInt64
  omega

theorem toInt64_sub_right (a b : Int) : toInt64 (a - toInt64 b) = toInt64 (a - b) := by
  unfold toInt64
  omega

theorem toInt64_mul_left (a b : Int) : toInt64 (toInt64 a * b) = toInt64 (a * b) := by
  obtain ⟨k, hk⟩ := toInt64_eq_add_mul a
  rw [hk, show (a + k * 18446744073709551616) * b = a * b + (k * b) * 18446744073709551616 by ring,
    toInt64_add_mul]

theorem toInt64_mul_right (a b : Int) : toInt64 (a * toInt64 b) = toInt64 (a * b) := by
  rw [mul_comm, toInt64_mul_left, mul_comm]

theorem shiftRight27 (z : Int) : z >>> (27 : Nat) = z / 134217728 := by
  rw [Int.shiftRight_eq_div_pow]
  norm_num

/-- The direct-form machine expression is the exact rounded quotient whenever the exact
accumulator fits in 64 bits. -/
theorem directY0_exact (a3 a2 a1 b0 inp x1 x2 x3 y1 y2 y3 : Int)
    (h : isInt64 (b0 * (inp + 3 * x1 + 3 * x2 + x3) - (a1 * y1 + a2 * y2 + a3 * y3) + 67108864)) :
    directY0 a3 a2 a1 b0 inp x1 x2 x3 y1 y2 y3 =
      (b0 * (inp + 3 * x1 + 3 * x2 + x3) - (a1 * y1 + a2 * y2 + a3 * y3) + 67108864)
        / 134217728 := by
  unfold directY0 roundShift27 directTmpIn directTmpOut add64 sub64 mul64 ONE_HALF_Q27
  simp only [toInt64_add_left, toInt64_add_right, toInt64_sub_left, toInt64_sub_right,
    toInt64_mul_left, toInt64_mul_right]
  rw [shiftRight27]
  have e : b0 * (inp + x3 + 3 * (x1 + x2)) - (a3 * y3 + a2 * y2 + a1 * y1) + 67108864 =
      b0 * (inp + 3 * x1 + 3 * x2 + x3) - (a1 * y1 + a2 * y2 + a3 * y3) + 67108864 := by ring
  rw [e, toInt64_of_isInt64 h]

/-- The second-order stage expression is the exact rounded quotient whenever the exact
accumulator fits in 64 bits. -/
theorem stage2_exact (b0 a1 a2 p p1 p2 q1 q2 : Int)
    (h : isInt64 (b0 * (p + 2 * p1 + p2) - (a1 * q1 + a2 * q2) + 67108864)) :
    stage2 b0 a1 a2 p p1 p2 q1 q2 =
      (b0 * (p + 2 * p1 + p2) - (a1 * q1 + a2 * q2) + 67108864) / 134217728 := by
  unfold stage2 roundShift27 stage2TmpIn stage2TmpOut add64 sub64 mul64 ONE_HALF_Q27
  simp only [toInt64_add_left, toInt64_add_right, toInt64_sub_left, toInt64_sub_right,
    toInt64_mul_left, toInt64_mul_right]
  rw [shiftRight27, toInt64_of_isInt64 h]

/-- The first-order stage expression is the exact rounded quotient whenever the exact
accumulator fits in 64 bits. -/
theorem stage1_exact (b0 a1 p p1 q1 : Int)
    (h : isInt64 (b0 * (p + p1) - a1 * q1 + 67108864)) :
    stage1 b0 a1 p p1 q1 = (b0 * (p + p1) - a1 * q1 + 67108864) / 134217728 := by
  unfold stage1 roundShift27 stage1TmpIn stage1TmpOut add64 sub64 mul64 ONE_HALF_Q27
  simp only [toInt64_add_left, toInt64_add_right, toInt64_sub_left, toInt64_sub_right,
    toInt64_mul_left, toInt64_mul_right]
  rw [shiftRight27, toInt64_of_isInt64 h]

/-! ## Warm-up -/

theorem accel3_warmup (s : DirectState) (axis : Nat) (inp : Int) (freq dataRate : Nat) :
    WarmUpContract _accelFilt_3rdOrderBWF_LowPass_Axis DirectState.calledCount directValue
      (fun t ax => t.y_q27 0 ax) s axis inp freq dataRate := by
  unfold WarmUpContract
  rw [accel3_normal_form]
  refine ⟨?_, ?_, ?_⟩
  · intro h
    have h1 : ¬ 40 < s.calledCount := by omega
    simp only [h1, if_false, toUInt8]
    refine ⟨trivial, trivial, ?_⟩
    omega
  · intro h
    simp [h]
  · simp

theorem rate4_warmup (s : Cascade2State) (axis : Nat) (inp : Int) (freq dataRate : Nat) :
    WarmUpContract _rateFilt_4thOrderBWF_LowPass_Axis_cascaded2nd Cascade2State.calledCount
      (fun t ax x fr _ => casc2W t ax x fr) (fun t ax => t.w_q27 0 ax)
      s axis inp freq dataRate := by
  unfold WarmUpContract
  rw [rate4_normal_form]
  refine ⟨?_, ?_, ?_⟩
  · intro h
    have h1 : ¬ 40 < s.calledCount := by omega
    simp only [h1, if_false, toUInt8]
    refine ⟨trivial, trivial, ?_⟩
    omega
  · intro h
    simp [h]
  · simp

theorem rate1_warmup (s : Cascade1State) (axis : Nat) (inp : Int) (freq dataRate : Nat) :
    WarmUpContract _rateFilt_3rdOrderBWF_LowPass_Axis_cascaded1st Cascade1State.calledCount
      (fun t ax x fr _ => casc1W t ax x fr) (fun t ax => t.w_q27 CURR ax)
      s axis inp freq dataRate := by
  unfold WarmUpContract
  rw [rate1_normal_form]
  refine ⟨?_, ?_, ?_⟩
  · intro h
    have h1 : ¬ 40 < s.calledCount := by omega
    simp only [h1, if_false, toUInt8]
    refine ⟨trivial, trivial, ?_⟩
    omega
  · intro h
    simp [h, CURR]
  · simp [CURR]

/-- C1. Warm-up by counter value: in each of the six filter routines, for every axis below 3,
every `freq` below 7, every `dataRate` below 2 and every `int16_t` input, a call entered with
the routine's called-counter at most 40 writes the raw input to `*out`, returns 0 and
increments the counter by one, and a call entered with the counter above 40 writes the
computed filter value cast to `int32_t`, returns 1 and leaves the counter unchanged. The
computed filter value is the value the recurrence of the routine produces in this call from
the histories at entry (after first-call seeding), the input and the selected coefficients:
`directValue` for the direct form, `casc2W` and `casc1W` for the last stage of the cascades;
every call also stores it in slot 0 of the last output history. -/
theorem warmup_by_counter_value (sd sd1 : DirectState) (s2 s21 : Cascade2State)
    (s1 s11 : Cascade1State) (axis freq dataRate : Nat) (inp : Int)
    (haxis : axis < 3) (hfreq : freq < 7) (hrate : dataRate < 2) (hin : isInt16 inp) :
    WarmUpContract _accelFilt_3rdOrderBWF_LowPass_Axis DirectState.calledCount directValue
      (fun t ax => t.y_q27 0 ax) sd axis inp freq dataRate ∧
    WarmUpContract _rateFilt_3rdOrderBWF_LowPass_Axis DirectState.calledCount directValue
      (fun t ax => t.y_q27 0 ax) sd1 axis inp freq dataRate ∧
    WarmUpContract _rateFilt_4thOrderBWF_LowPass_Axis_cascaded2nd Cascade2State.calledCount
      (fun t ax x fr _ => casc2W t ax x fr) (fun t ax => t.w_q27 0 ax)
      s2 axis inp freq dataRate ∧
    WarmUpContract _accel_4thOrderBWF_LowPass_Axis_cascaded2nd Cascade2State.calledCount
      (fun t ax x fr _ => casc2W t ax x fr) (fun t ax => t.w_q27 0 ax)
      s21 axis inp freq dataRate ∧
    WarmUpContract _rateFilt_3rdOrderBWF_LowPass_Axis_cascaded1st Cascade1State.calledCount
      (fun t ax x fr _ => casc1W t ax x fr) (fun t ax => t.w_q27 CURR ax)
      s1 axis inp freq dataRate ∧
    WarmUpContract _accelFilt_3rdOrderBWF_LowPass_Axis_cascaded1st Cascade1State.calledCount
      (fun t ax x fr _ => casc1W t ax x fr) (fun t ax => t.w_q27 CURR ax)
      s11 axis inp freq dataRate := by
  rw [rate3_eq_accel3, accel4_eq_rate4, accel1_eq_rate1]
  exact ⟨accel3_warmup _ _ _ _ _, accel3_warmup _ _ _ _ _, rate4_warmup _ _ _ _ _,
    rate4_warmup _ _ _ _ _, rate1_warmup _ _ _ _ _, rate1_warmup _ _ _ _ _⟩

set_option maxRecDepth 100000 in
/-- The warm-up contract at settled calls (counter 41) and at warm-up calls (counter 0) on
axis 2 with input -1000; and the settled outputs themselves from histories that hold 5000 in
every slot: the recurrence gives 4998, 4999 and 4962, not the stale 5000 of slot 0. -/
theorem warmup_by_counter_value_witness :
    (2 < 3 ∧ 3 < 7 ∧ 1 < 2 ∧ isInt16 (-1000)) ∧
    (WarmUpContract _accelFilt_3rdOrderBWF_LowPass_Axis DirectState.calledCount directValue
      (fun t ax => t.y_q27 0 ax) { DirectState.init with calledCount := 41 } 2 (-1000) 3 1 ∧
    WarmUpContract _rateFilt_3rdOrderBWF_LowPass_Axis DirectState.calledCount directValue
      (fun t ax => t.y_q27 0 ax) DirectState.init 2 (-1000) 3 1 ∧
    WarmUpContract _rateFilt_4thOrderBWF_LowPass_Axis_cascaded2nd Cascade2State.calledCount
      (fun t ax x fr _ => casc2W t ax x fr) (fun t ax => t.w_q27 0 ax)
      { Cascade2State.init with calledCount := 41 } 2 (-1000) 3 1 ∧
    WarmUpContract _accel_4thOrderBWF_LowPass_Axis_cascaded2nd Cascade2State.calledCount
      (fun t ax x fr _ => casc2W t ax x fr) (fun t ax => t.w_q27 0 ax)
      Cascade2State.init 2 (-1000) 3 1 ∧
    WarmUpContract _rateFilt_3rdOrderBWF_LowPass_Axis_cascaded1st Cascade1State.calledCount
      (fun t ax x fr _ => casc1W t ax x fr) (fun t ax => t.w_q27 CURR ax)
      { Cascade1State.init with calledCount := 41 } 2 (-1000) 3 1 ∧
    WarmUpContract _accelFilt_3rdOrderBWF_LowPass_Axis_cascaded1st Cascade1State.calledCount
      (fun t ax x fr _ => casc1W t ax x fr) (fun t ax => t.w_q27 CURR ax)
      Cascade1State.init 2 (-1000) 3 1) ∧
    (_accelFilt_3rdOrderBWF_LowPass_Axis
      { initFilt := fun _ => 0, calledCount := 41, x_q27 := fun _ _ => 5000,
        y_q27 := fun _ _ => 5000 } 2 (-1000) 3 1).out = 4998 ∧
    (_rateFilt_4thOrderBWF_LowPass_Axis_cascaded2nd
      { initFilt := fun _ => 0, calledCount := 41, x_q27 := fun _ _ => 5000,
        v_q27 := fun _ _ => 5000, w_q27 := fun _ _ => 5000 } 2 (-1000) 3 1).out = 4999 ∧
    (_rateFilt_3rdOrderBWF_LowPass_Axis_cascaded1st
      { initFilt := fun _ => 0, calledCount := 41, x_q27 := fun _ _ => 5000,
        u_q27 := fun _ _ => 5000, v_q27 := fun _ _ => 5000, w_q27 := fun _ _ => 5000 }
      2 (-1000) 3 1).out = 4962 :=
  ⟨by decide,
   warmup_by_counter_value _ _ _ _ _ _ 2 3 1 (-1000) (by decide) (by decide) (by decide)
     (by decide), by decide, by decide, by decide⟩

/-! ## Direct-form recurrence -/

theorem seedv_isInt16 {flag : Nat} {inp v : Int} (hin : isInt16 inp) (hv : isInt16 v) :
    isInt16 (seedv flag inp v) := by
  unfold seedv
  split_ifs <;> assumption

theorem seedv_isInt32 {flag : Nat} {inp v : Int} (hin : isInt16 inp) (hv : isInt32 v) :
    isInt32 (seedv flag inp v) := by
  unfold seedv
  split_ifs
  · exact isInt32_of_isInt16 hin
  · exact hv

/-- With 16-bit inputs and 32-bit fed-back outputs the direct-form accumulator fits in 64
bits on every row of the tables. -/
theorem direct_acc_isInt64 {freq dataRate : Nat} {inp x1 x2 x3 y1 y2 y3 : Int}
    (hfreq : freq < 7) (hrate : dataRate < 2) (hin : isInt16 inp)
    (hx1 : isInt16 x1) (hx2 : isInt16 x2) (hx3 : isInt16 x3)
    (hy1 : isInt32 y1) (hy2 : isInt32 y2) (hy3 : isInt32 y3) :
    isInt64 (tab3 b_q27 0 dataRate freq * (inp + 3 * x1 + 3 * x2 + x3) -
      (tab3 a_q27 1 dataRate freq * y1 + tab3 a_q27 2 dataRate freq * y2 +
        tab3 a_q27 3 dataRate freq * y3) + 67108864) := by
  unfold isInt16 at hin hx1 hx2 hx3
  unfold isInt32 at hy1 hy2 hy3
  unfold isInt64
  interval_cases freq <;> interval_cases dataRate <;>
    simp only [tab3, a_q27, b_q27, List.getD_cons_zero, List.getD_cons_succ] <;> omega

theorem directFormula_eq (b0 a1 a2 a3 inp x1 x2 x3 y1 y2 y3 : Int) :
    directFormula b0 a1 a2 a3 inp x1 x2 x3 y1 y2 y3 =
      (b0 * (inp + 3 * x1 + 3 * x2 + x3) - (a1 * y1 + a2 * y2 + a3 * y3) + 67108864)
        / 134217728 := by
  unfold directFormula
  norm_num

theorem directValue_eq_formula (s : DirectState) (axis freq dataRate : Nat) (inp : Int)
    (hfreq : freq < 7) (hrate : dataRate < 2) (hin : isInt16 inp)
    (hx1 : isInt16 (s.x_q27 1 axis)) (hx2 : isInt16 (s.x_q27 2 axis))
    (hx3 : isInt16 (s.x_q27 3 axis))
    (hy1 : isInt32 (s.y_q27 1 axis)) (hy2 : isInt32 (s.y_q27 2 axis))
    (hy3 : isInt32 (s.y_q27 3 axis)) :
    directValue s axis inp freq dataRate =
      directFormula (tab3 b_q27 0 dataRate freq) (tab3 a_q27 1 dataRate freq)
        (tab3 a_q27 2 dataRate freq) (tab3 a_q27 3 dataRate freq) inp
        (seedv (s.initFilt axis) inp (s.x_q27 1 axis))
        (seedv (s.initFilt axis) inp (s.x_q27 2 axis))
        (seedv (s.initFilt axis) inp (s.x_q27 3 axis))
        (seedv (s.initFilt axis) inp (s.y_q27 1 axis))
        (seedv (s.initFilt axis) inp (s.y_q27 2 axis))
        (seedv (s.initFilt axis) inp (s.y_q27 3 axis)) := by
  unfold directValue
  rw [directFormula_eq]
  exact directY0_exact _ _ _ _ _ _ _ _ _ _ _
    (direct_acc_isInt64 hfreq hrate hin (seedv_isInt16 hin hx1) (seedv_isInt16 hin hx2)
      (seedv_isInt16 hin hx3) (seedv_isInt32 hin hy1) (seedv_isInt32 hin hy2)
      (seedv_isInt32 hin hy3))

theorem accel3_eq_directFormWith :
    _accelFilt_3rdOrderBWF_LowPass_Axis = directFormWith a_q27 b_q27 := rfl

theorem directFormWith_congr (a b a1 b1 : List (List (List Int))) (s : DirectState)
    (axis : Nat) (inp : Int) (freq dataRate : Nat)
    (h1 : tab3 a1 1 dataRate freq = tab3 a 1 dataRate freq)
    (h2 : tab3 a1 2 dataRate freq = tab3 a 2 dataRate freq)
    (h3 : tab3 a1 3 dataRate freq = tab3 a 3 dataRate freq)
    (h0 : tab3 b1 0 dataRate freq = tab3 b 0 dataRate freq) :
    directFormWith a1 b1 s axis inp freq dataRate = directFormWith a b s axis inp freq dataRate := by
  unfold directFormWith
  simp only [h1, h2, h3, h0]

/-! ## Reachable direct-form histories -/

theorem accel3_ranged_step (s : DirectState) (axis : Nat) (inp : Int) (freq dataRate : Nat)
    (hin : isInt16 inp) (hs : s.ranged) :
    (_accelFilt_3rdOrderBWF_LowPass_Axis s axis inp freq dataRate).state.ranged := by
  intro l k hk
  rw [accel3_normal_form]
  by_cases hl : l = axis
  · subst hl
    have h1 := hs l 1 (Or.inl rfl)
    have h2 := hs l 2 (Or.inr (Or.inl rfl))
    rcases hk with rfl | rfl | rfl
    · simp only [if_true]
      exact ⟨hin, isInt32_toInt32 _⟩
    · simp only [if_true]
      exact ⟨seedv_isInt16 hin h1.1, seedv_isInt32 hin h1.2⟩
    · simp only [if_true]
      exact ⟨seedv_isInt16 hin h2.1, seedv_isInt32 hin h2.2⟩
  · simp only [hl, if_false]
    exact hs l k hk

/-- Every statics a direct-form routine reaches from its initial statics by calls with
`int16_t` inputs holds `int16_t` past inputs and `int32_t` past outputs. -/
theorem accel3_ranged_reachable (calls : List Call) (hin : ∀ c ∈ calls, isInt16 c.inp) :
    (stateAfter _accelFilt_3rdOrderBWF_LowPass_Axis DirectState.init calls).ranged ∧
    (stateAfter _rateFilt_3rdOrderBWF_LowPass_Axis DirectState.init calls).ranged := by
  rw [rate3_eq_accel3]
  have gen : ∀ (cs : List Call) (s : DirectState), s.ranged → (∀ c ∈ cs, isInt16 c.inp) →
      (stateAfter _accelFilt_3rdOrderBWF_LowPass_Axis s cs).ranged := by
    intro cs
    induction cs with
    | nil => intro s hs _; exact hs
    | cons c cs ih =>
      intro s hs hc
      exact ih _ (accel3_ranged_step s c.axis c.inp c.freq c.dataRate
        (hc c (List.mem_cons_self _ _)) hs) (fun c1 h1 => hc c1 (List.mem_cons_of_mem _ h1))
  have h0 : DirectState.init.ranged := by
    intro l k _
    exact ⟨show isInt16 0 by decide, show isInt32 0 by decide⟩
  exact ⟨gen calls _ h0 hin, gen calls _ h0 hin⟩

/-- C3. Direct-form third-order recurrence: for both direct-form routines, every axis below 3,
`freq` below 7, `dataRate` below 2, `int16_t` input and every history of that axis (three
past `int16_t` inputs, three past `int32_t` outputs, after any first-call seeding), the value
computed and stored in slot 0 is
`floor((b0*(in + 3*x1 + 3*x2 + x3) - (a1*y1 + a2*y2 + a3*y3) + 2^26) / 2^27)` with
`b0 = b_q27[0][dataRate][freq]` and `ak = a_q27[k][dataRate][freq]`, the value delivered when
settled is that value cast to `int32_t`, and replacing the tables by any others that agree on
`b[0][dataRate][freq]` and `a[1..3][dataRate][freq]` leaves the whole call unchanged. -/
theorem direct_form_recurrence (s : DirectState) (axis freq dataRate : Nat) (inp : Int)
    (haxis : axis < 3) (hfreq : freq < 7) (hrate : dataRate < 2) (hin : isInt16 inp)
    (hx1 : isInt16 (s.x_q27 1 axis)) (hx2 : isInt16 (s.x_q27 2 axis))
    (hx3 : isInt16 (s.x_q27 3 axis))
    (hy1 : isInt32 (s.y_q27 1 axis)) (hy2 : isInt32 (s.y_q27 2 axis))
    (hy3 : isInt32 (s.y_q27 3 axis)) :
    DirectRecurrence _accelFilt_3rdOrderBWF_LowPass_Axis s axis inp freq dataRate ∧
    DirectRecurrence _rateFilt_3rdOrderBWF_LowPass_Axis s axis inp freq dataRate ∧
    (∀ a b : List (List (List Int)),
      tab3 a 1 dataRate freq = tab3 a_q27 1 dataRate freq →
      tab3 a 2 dataRate freq = tab3 a_q27 2 dataRate freq →
      tab3 a 3 dataRate freq = tab3 a_q27 3 dataRate freq →
      tab3 b 0 dataRate freq = tab3 b_q27 0 dataRate freq →
      directFormWith a b s axis inp freq dataRate =
          _accelFilt_3rdOrderBWF_LowPass_Axis s axis inp freq dataRate ∧
      directFormWith a b s axis inp freq dataRate =
          _rateFilt_3rdOrderBWF_LowPass_Axis s axis inp freq dataRate) := by
  have hv := directValue_eq_formula s axis freq dataRate inp hfreq hrate hin hx1 hx2 hx3 hy1 hy2 hy3
  have hrec : DirectRecurrence _accelFilt_3rdOrderBWF_LowPass_Axis s axis inp freq dataRate := by
    unfold DirectRecurrence
    rw [accel3_normal_form, ← hv]
    refine ⟨by simp, fun hc => ?_⟩
    simp [hc]
  refine ⟨hrec, ?_, ?_⟩
  · rw [rate3_eq_accel3]
    exact hrec
  · intro a b h1 h2 h3 h0
    rw [rate3_eq_accel3, accel3_eq_directFormWith]
    exact ⟨directFormWith_congr _ _ _ _ _ _ _ _ _ h1 h2 h3 h0,
      directFormWith_congr _ _ _ _ _ _ _ _ _ h1 h2 h3 h0⟩

/-- The direct-form recurrence at a settled call on axis 1 of a state whose history holds
16-bit inputs and a 32-bit output. -/
theorem direct_form_recurrence_witness :
    (1 < 3 ∧ 4 < 7 ∧ 1 < 2 ∧ isInt16 (-12345)) ∧
    DirectRecurrence _accelFilt_3rdOrderBWF_LowPass_Axis
      { initFilt := fun _ => 0, calledCount := 41,
        x_q27 := fun k _ => 100 * k, y_q27 := fun k _ => 2000000000 - k } 1 (-12345) 4 1 :=
  ⟨by decide,
   (direct_form_recurrence
      { initFilt := fun _ => 0, calledCount := 41,
        x_q27 := fun k _ => 100 * k, y_q27 := fun k _ => 2000000000 - k } 1 4 1 (-12345)
      (by decide) (by decide) (by decide) (by decide) (by decide) (by decide) (by decide)
      (by decide) (by decide) (by decide)).1⟩

/-! ## Cascaded first-order recurrence -/

theorem sec1_eq (b0 a1 p p1 q1 : Int) :
    sec1 b0 a1 p p1 q1 = (b0 * (p + p1) - a1 * q1 + 67108864) / 134217728 := by
  unfold sec1
  norm_num

/-- On every row of the first-order tables, a stage fed values below `2^34` in magnitude
has an accumulator that fits in 64 bits. -/
theorem casc1_acc_isInt64 {freq : Nat} {p p1 q1 : Int} (hfreq : freq < 7)
    (hp : -17179869184 ≤ p ∧ p ≤ 17179869184) (hp1 : -17179869184 ≤ p1 ∧ p1 ≤ 17179869184)
    (hq1 : -17179869184 ≤ q1 ∧ q1 ≤ 17179869184) :
    isInt64 (tab2 bc2_q27 freq 0 * (p + p1) - tab2 ac2_q27 freq 1 * q1 + 67108864) := by
  unfold isInt64
  interval_cases freq <;>
    simp only [tab2, ac2_q27, bc2_q27, List.getD_cons_zero, List.getD_cons_succ] <;> omega

/-- On every row of the first-order tables, a stage whose past values are 32-bit and whose
input is below `2^33` in magnitude produces a value below `2^34` in magnitude. -/
theorem casc1_sec1_bound {freq : Nat} {p p1 q1 : Int} (hfreq : freq < 7)
    (hp : -8589934592 ≤ p ∧ p ≤ 8589934592) (hp1 : isInt32 p1) (hq1 : isInt32 q1) :
    -8589934592 ≤ sec1 (tab2 bc2_q27 freq 0) (tab2 ac2_q27 freq 1) p p1 q1 ∧
      sec1 (tab2 bc2_q27 freq 0) (tab2 ac2_q27 freq 1) p p1 q1 ≤ 8589934592 := by
  unfold isInt32 at hp1 hq1
  rw [sec1_eq]
  interval_cases freq <;>
    simp only [tab2, ac2_q27, bc2_q27, List.getD_cons_zero, List.getD_cons_succ] <;> omega

theorem stage1_eq_sec1 {freq : Nat} {p p1 q1 : Int} (hfreq : freq < 7)
    (hp : -8589934592 ≤ p ∧ p ≤ 8589934592) (hp1 : isInt32 p1) (hq1 : isInt32 q1) :
    stage1 (tab2 bc2_q27 freq 0) (tab2 ac2_q27 freq 1) p p1 q1 =
      sec1 (tab2 bc2_q27 freq 0) (tab2 ac2_q27 freq 1) p p1 q1 := by
  rw [sec1_eq]
  apply stage1_exact
  unfold isInt32 at hp1 hq1
  exact casc1_acc_isInt64 hfreq (by omega) (by omega) (by omega)

theorem rate1_recurrence (s : Cascade1State) (axis freq dataRate : Nat) (inp : Int)
    (hfreq : freq < 7) (hin : isInt16 inp)
    (hx1 : isInt32 (s.x_q27 1 axis)) (hu1 : isInt32 (s.u_q27 1 axis))
    (hv1 : isInt32 (s.v_q27 1 axis)) (hw1 : isInt32 (s.w_q27 1 axis)) :
    Cascade1Recurrence _rateFilt_3rdOrderBWF_LowPass_Axis_cascaded1st s axis inp freq
      dataRate := by
  have hX := @seedv_isInt32 (s.initFilt axis) _ _ hin hx1
  have hU := @seedv_isInt32 (s.initFilt axis) _ _ hin hu1
  have hV := @seedv_isInt32 (s.initFilt axis) _ _ hin hv1
  have hW := @seedv_isInt32 (s.initFilt axis) _ _ hin hw1
  have hin2 : -8589934592 ≤ inp ∧ inp ≤ 8589934592 := by
    unfold isInt16 at hin
    omega
  have hu : casc1U s axis inp freq = sec1 (tab2 bc2_q27 freq 0) (tab2 ac2_q27 freq 1) inp
      (seedv (s.initFilt axis) inp (s.x_q27 1 axis))
      (seedv (s.initFilt axis) inp (s.u_q27 1 axis)) := by
    unfold casc1U
    exact stage1_eq_sec1 hfreq hin2 hX hU
  have hub := casc1_sec1_bound hfreq hin2 hX hU
  have hv : casc1V s axis inp freq = sec1 (tab2 bc2_q27 freq 0) (tab2 ac2_q27 freq 1)
      (casc1U s axis inp freq)
      (seedv (s.initFilt axis) inp (s.u_q27 1 axis))
      (seedv (s.initFilt axis) inp (s.v_q27 1 axis)) := by
    unfold casc1V
    rw [hu]
    exact stage1_eq_sec1 hfreq hub hU hV
  have hvb := casc1_sec1_bound hfreq hub hU hV
  rw [← hu] at hvb
  rw [← hv] at hvb
  have hw : casc1W s axis inp freq = sec1 (tab2 bc2_q27 freq 0) (tab2 ac2_q27 freq 1)
      (casc1V s axis inp freq)
      (seedv (s.initFilt axis) inp (s.v_q27 1 axis))
      (seedv (s.initFilt axis) inp (s.w_q27 1 axis)) := by
    unfold casc1W
    exact stage1_eq_sec1 hfreq hvb hV hW
  unfold Cascade1Recurrence
  simp only
  rw [rate1_normal_form, ← hu, ← hv, ← hw]
  refine ⟨by simp [CURR], by simp [CURR], by simp [CURR], fun hc => ?_⟩
  simp [hc]

/-- C5. Cascaded first-order triple recurrence: for both cascaded first-order routines, with
`sec(p, p1, q1) = floor((b0*(p + p1) - a1*q1 + 2^26) / 2^27)`, `b0 = bc2_q27[freq][0]` and
`a1 = ac2_q27[freq][1]`, for every axis below 3, `freq` below 7, `int16_t` input and every
history `x1`, `u1`, `v1`, `w1` of 32-bit values of that axis (after any first-call seeding),
the stage values are `u0 = sec(in, x1, u1)`, `v0 = sec(u0, u1, v1)`, `w0 = sec(v0, v1, w1)`
and a settled call delivers `w0` cast to `int32_t`. -/
theorem cascaded_first_order_recurrence (s : Cascade1State) (axis freq dataRate : Nat)
    (inp : Int) (haxis : axis < 3) (hfreq : freq < 7) (hin : isInt16 inp)
    (hx1 : isInt32 (s.x_q27 1 axis)) (hu1 : isInt32 (s.u_q27 1 axis))
    (hv1 : isInt32 (s.v_q27 1 axis)) (hw1 : isInt32 (s.w_q27 1 axis)) :
    Cascade1Recurrence _rateFilt_3rdOrderBWF_LowPass_Axis_cascaded1st s axis inp freq
      dataRate ∧
    Cascade1Recurrence _accelFilt_3rdOrderBWF_LowPass_Axis_cascaded1st s axis inp freq
      dataRate := by
  rw [accel1_eq_rate1]
  exact ⟨rate1_recurrence s axis freq dataRate inp hfreq hin hx1 hu1 hv1 hw1,
    rate1_recurrence s axis freq dataRate inp hfreq hin hx1 hu1 hv1 hw1⟩

/-- The cascaded first-order recurrence at a settled call on axis 2 of a state holding a
32-bit history. -/
theorem cascaded_first_order_recurrence_witness :
    (2 < 3 ∧ 5 < 7 ∧ isInt16 31000) ∧
    Cascade1Recurrence _accelFilt_3rdOrderBWF_LowPass_Axis_cascaded1st
      { initFilt := fun _ => 0, calledCount := 41, x_q27 := fun _ _ => -32768,
        u_q27 := fun _ _ => 2147483647, v_q27 := fun _ _ => -2147483648,
        w_q27 := fun _ _ => 77 } 2 31000 5 0 :=
  ⟨by decide,
   (cascaded_first_order_recurrence
      { initFilt := fun _ => 0, calledCount := 41, x_q27 := fun _ _ => -32768,
        u_q27 := fun _ _ => 2147483647, v_q27 := fun _ _ => -2147483648,
        w_q27 := fun _ _ => 77 } 2 5 0 31000
      (by decide) (by decide) (by decide) (by decide) (by decide) (by decide) (by decide)).2⟩

/-! ## Warm-up counted in calls -/

set_option maxRecDepth 100000 in
/-- C2. The routines at forty-two calls from their initial statics (forty samples of 0,
then two of 1000, axis 0): listed are the return value, `*out` and the computed filter value
of calls 40, 41 and 42. Call 41 still returns 0 and passes the raw 1000 through although the
filter computed another value; call 42 is the first to return 1. -/
theorem warmup_forty_first_call_passes_raw :
    ((runCalls _accelFilt_3rdOrderBWF_LowPass_Axis DirectState.init (warmupProbe 6)).map
        (fun r => (r.ret, r.out, r.state.y_q27 0 0))).drop 39
      = [(0, 0, 0), (0, 1000, 32), (1, 173, 173)] ∧
    ((runCalls _rateFilt_3rdOrderBWF_LowPass_Axis DirectState.init (warmupProbe 6)).map
        (fun r => (r.ret, r.out, r.state.y_q27 0 0))).drop 39
      = [(0, 0, 0), (0, 1000, 32), (1, 173, 173)] ∧
    ((runCalls _rateFilt_4thOrderBWF_LowPass_Axis_cascaded2nd Cascade2State.init
        (warmupProbe 5)).map (fun r => (r.ret, r.out, r.state.w_q27 0 0))).drop 39
      = [(0, 0, 0), (0, 1000, 18), (1, 116, 116)] ∧
    ((runCalls _accel_4thOrderBWF_LowPass_Axis_cascaded2nd Cascade2State.init
        (warmupProbe 5)).map (fun r => (r.ret, r.out, r.state.w_q27 0 0))).drop 39
      = [(0, 0, 0), (0, 1000, 18), (1, 116, 116)] ∧
    ((runCalls _rateFilt_3rdOrderBWF_LowPass_Axis_cascaded1st Cascade1State.init
        (warmupProbe 6)).map (fun r => (r.ret, r.out, r.state.w_q27 0 0))).drop 39
      = [(0, 0, 0), (0, 1000, 104), (1, 434, 434)] ∧
    ((runCalls _accelFilt_3rdOrderBWF_LowPass_Axis_cascaded1st Cascade1State.init
        (warmupProbe 6)).map (fun r => (r.ret, r.out, r.state.w_q27 0 0))).drop 39
      = [(0, 0, 0), (0, 1000, 104), (1, 434, 434)] := by
  decide

/-! ## Rounding -/

theorem roundShift27_eq {acc : Int} (h : isInt64 (acc + 67108864)) :
    roundShift27 acc = (acc + 67108864) / 134217728 := by
  unfold roundShift27 add64 ONE_HALF_Q27
  rw [toInt64_of_isInt64 h, shiftRight27]

theorem accel3_stage_rounds : DirectStageRounds _accelFilt_3rdOrderBWF_LowPass_Axis := by
  intro s axis inp freq dataRate
  rw [accel3_normal_form]
  simp [directValue, directY0]

theorem rate4_stages_round :
    Cascade2StagesRound _rateFilt_4thOrderBWF_LowPass_Axis_cascaded2nd := by
  intro s axis inp freq dataRate
  rw [rate4_normal_form]
  simp [casc2W, casc2V, stage2, CURR, PASTx1, PASTx2]

theorem rate1_stages_round :
    Cascade1StagesRound _rateFilt_3rdOrderBWF_LowPass_Axis_cascaded1st := by
  intro s axis inp freq dataRate
  rw [rate1_normal_form]
  simp [casc1W, casc1V, casc1U, stage1, CURR, PASTx1]

/-- C9. Round-half-up shift: every stage of every filter stores
`r = (acc + 2^26) >> 27` for its `acc = tmp_in - tmp_out`, and for every integer `acc` with
`acc + 2^26` in the signed 64-bit range this `r` is the unique integer with
`2^27*r - 2^26 <= acc < 2^27*r + 2^26`, that is the integer nearest to `acc / 2^27` with
exact halves rounded up, for negative `acc` as for positive (`-2^26` gives 0, `2^26`
gives 1). -/
theorem round_half_up_shift (acc : Int) (hacc : isInt64 (acc + 2 ^ 26)) :
    (2 ^ 27 * roundShift27 acc - 2 ^ 26 ≤ acc ∧ acc < 2 ^ 27 * roundShift27 acc + 2 ^ 26) ∧
    (∀ r : Int, 2 ^ 27 * r - 2 ^ 26 ≤ acc → acc < 2 ^ 27 * r + 2 ^ 26 → r = roundShift27 acc) ∧
    roundShift27 acc = ⌊(acc : ℚ) / 2 ^ 27 + 1 / 2⌋ ∧
    roundShift27 (-2 ^ 26) = 0 ∧ roundShift27 (2 ^ 26) = 1 ∧
    DirectStageRounds _accelFilt_3rdOrderBWF_LowPass_Axis ∧
    DirectStageRounds _rateFilt_3rdOrderBWF_LowPass_Axis ∧
    Cascade2StagesRound _rateFilt_4thOrderBWF_LowPass_Axis_cascaded2nd ∧
    Cascade2StagesRound _accel_4thOrderBWF_LowPass_Axis_cascaded2nd ∧
    Cascade1StagesRound _rateFilt_3rdOrderBWF_LowPass_Axis_cascaded1st ∧
    Cascade1StagesRound _accelFilt_3rdOrderBWF_LowPass_Axis_cascaded1st := by
  have h64 : isInt64 (acc + 67108864) := by
    norm_num at hacc
    exact hacc
  have hr := roundShift27_eq h64
  have hbr : 134217728 * roundShift27 acc - 67108864 ≤ acc ∧
      acc < 134217728 * roundShift27 acc + 67108864 := by
    rw [hr]
    omega
  refine ⟨?_, ?_, ?_, ?_, ?_, accel3_stage_rounds, ?_, rate4_stages_round, ?_,
    rate1_stages_round, ?_⟩
  · norm_num
    omega
  · intro r h1 h2
    norm_num at h1 h2
    omega
  · symm
    rw [Int.floor_eq_iff]
    have h1 : ((134217728 * roundShift27 acc - 67108864 : Int) : ℚ) ≤ (acc : ℚ) := by
      exact_mod_cast hbr.1
    have h2 : (acc : ℚ) < ((134217728 * roundShift27 acc + 67108864 : Int) : ℚ) := by
      exact_mod_cast hbr.2
    push_cast at h1 h2
    constructor
    · rw [← sub_nonneg]
      have e : (acc : ℚ) / 2 ^ 27 + 1 / 2 - (roundShift27 acc : ℚ) =
          ((acc : ℚ) - (134217728 * (roundShift27 acc : ℚ) - 67108864)) / 134217728 := by
        norm_num
        ring
      rw [e]
      apply div_nonneg
      · linarith
      · norm_num
    · rw [← sub_pos]
      have e : (roundShift27 acc : ℚ) + 1 - ((acc : ℚ) / 2 ^ 27 + 1 / 2) =
          ((134217728 * (roundShift27 acc : ℚ) + 67108864) - (acc : ℚ)) / 134217728 := by
        norm_num
        ring
      rw [e]
      apply div_pos
      · linarith
      · norm_num
  · decide
  · decide
  · rw [rate3_eq_accel3]
    exact accel3_stage_rounds
  · rw [accel4_eq_rate4]
    exact rate4_stages_round
  · rw [accel1_eq_rate1]
    exact rate1_stages_round

/-- The rounding shift at the negative half-way accumulator `-3 * 2^26`, which rounds up
to -1. -/
theorem round_half_up_shift_witness :
    isInt64 (-201326592 + 2 ^ 26) ∧
    (2 ^ 27 * roundShift27 (-201326592) - 2 ^ 26 ≤ -201326592 ∧
      -201326592 < 2 ^ 27 * roundShift27 (-201326592) + 2 ^ 26) ∧
    roundShift27 (-201326592) = -1 :=
  ⟨by decide, (round_half_up_shift (-201326592) (by decide)).1, by decide⟩

/-! ## First-call seeding -/

theorem accel3_seeding (s : DirectState) (axis : Nat) (inp : Int) (freq dataRate : Nat) :
    DirectSeeding _accelFilt_3rdOrderBWF_LowPass_Axis s axis inp freq dataRate := by
  unfold DirectSeeding
  rw [accel3_normal_form]
  refine ⟨fun h => ?_, fun h => ?_, fun k hk => ?_⟩
  · simp [directValue, seedv, h]
  · simp [directValue, seedv, h]
  · simp [hk]

theorem rate4_seeding (s : Cascade2State) (axis : Nat) (inp : Int) (freq dataRate : Nat) :
    Cascade2Seeding _rateFilt_4thOrderBWF_LowPass_Axis_cascaded2nd s axis inp freq dataRate := by
  unfold Cascade2Seeding
  rw [rate4_normal_form]
  refine ⟨fun h => ?_, fun h => ?_, fun k hk => ?_⟩
  · simp [casc2W, casc2V, seedv, h, CURR, PASTx1, PASTx2]
  · simp [casc2W, casc2V, seedv, h, CURR, PASTx1, PASTx2]
  · simp [hk]

theorem rate1_seeding (s : Cascade1State) (axis : Nat) (inp : Int) (freq dataRate : Nat) :
    Cascade1Seeding _rateFilt_3rdOrderBWF_LowPass_Axis_cascaded1st s axis inp freq dataRate := by
  unfold Cascade1Seeding
  rw [rate1_normal_form]
  refine ⟨fun h => ?_, fun h => ?_, fun k hk => ?_⟩
  · simp [casc1W, casc1V, casc1U, seedv, h, CURR, PASTx1]
  · simp [casc1W, casc1V, casc1U, seedv, h, CURR, PASTx1]
  · simp [hk]

/-- A flag that one call can only clear or leave alone stays clear through every sequence
of calls. -/
theorem flagStaysCleared_of_step {σ : Type} (f : Routine σ) (flag : σ → Nat → Nat)
    (hstep : ∀ (s : σ) (axis : Nat) (inp : Int) (freq dataRate k : Nat),
      flag s k = 0 → flag (f s axis inp freq dataRate).state k = 0) :
    FlagStaysCleared f flag := by
  intro s calls
  induction calls generalizing s with
  | nil => intro k h; exact h
  | cons c cs ih =>
    intro k h
    exact ih _ k (hstep s c.axis c.inp c.freq c.dataRate k h)

/-- A flag that a call leaves alone on every axis but its own is still set, from initial
statics with every flag set, after calls none of which is made for the axis. -/
theorem flagSetUntilFirstCall_of_step {σ : Type} (f : Routine σ) (flag : σ → Nat → Nat)
    (init : σ) (hinit : ∀ k, flag init k = 1)
    (hstep : ∀ (s : σ) (axis : Nat) (inp : Int) (freq dataRate k : Nat),
      k ≠ axis → flag (f s axis inp freq dataRate).state k = flag s k) :
    FlagSetUntilFirstCall f flag init := by
  intro calls k hk
  have gen : ∀ (cs : List Call) (s : σ), flag s k = 1 → (∀ c ∈ cs, c.axis ≠ k) →
      flag (stateAfter f s cs) k = 1 := by
    intro cs
    induction cs with
    | nil => intro s h _; exact h
    | cons c cs ih =>
      intro s h hc
      apply ih
      · rw [hstep s c.axis c.inp c.freq c.dataRate k (hc c (List.mem_cons_self _ _)).symm]
        exact h
      · intro c1 hc1
        exact hc c1 (List.mem_cons_of_mem _ hc1)
  exact gen calls init (hinit k) hk

theorem accel3_flags :
    FlagStaysCleared _accelFilt_3rdOrderBWF_LowPass_Axis DirectState.initFilt ∧
    FlagSetUntilFirstCall _accelFilt_3rdOrderBWF_LowPass_Axis DirectState.initFilt
      DirectState.init := by
  constructor
  · apply flagStaysCleared_of_step
    intro s axis inp freq dataRate k h
    rw [accel3_normal_form]
    simp [h]
  · apply flagSetUntilFirstCall_of_step
    · intro k; rfl
    · intro s axis inp freq dataRate k h
      rw [accel3_normal_form]
      simp [h]

theorem rate4_flags :
    FlagStaysCleared _rateFilt_4thOrderBWF_LowPass_Axis_cascaded2nd Cascade2State.initFilt ∧
    FlagSetUntilFirstCall _rateFilt_4thOrderBWF_LowPass_Axis_cascaded2nd Cascade2State.initFilt
      Cascade2State.init := by
  constructor
  · apply flagStaysCleared_of_step
    intro s axis inp freq dataRate k h
    rw [rate4_normal_form]
    simp [h]
  · apply flagSetUntilFirstCall_of_step
    · intro k; rfl
    · intro s axis inp freq dataRate k h
      rw [rate4_normal_form]
      simp [h]

theorem rate1_flags :
    FlagStaysCleared _rateFilt_3rdOrderBWF_LowPass_Axis_cascaded1st Cascade1State.initFilt ∧
    FlagSetUntilFirstCall _rateFilt_3rdOrderBWF_LowPass_Axis_cascaded1st Cascade1State.initFilt
      Cascade1State.init := by
  constructor
  · apply flagStaysCleared_of_step
    intro s axis inp freq dataRate k h
    rw [rate1_normal_form]
    simp [h]
  · apply flagSetUntilFirstCall_of_step
    · intro k; rfl
    · intro s axis inp freq dataRate k h
      rw [rate1_normal_form]
      simp [h]

/-- C6. First-call seeding: in each of the six filter routines, a call for an axis whose
initialisation flag is set (the first call made for that axis: from the initial statics the
flag stays set until then) evaluates the recurrence with every past-input and past-output
slot of that axis equal to the sample itself, whatever the history arrays held, and clears
the flag; a cleared flag is never set again, so every later call for the axis evaluates the
recurrence on the stored, aged history; and a call changes neither the flag nor the history
of any other axis. -/
theorem first_call_seeding (sd : DirectState) (s2 : Cascade2State) (s1 : Cascade1State)
    (axis freq dataRate : Nat) (inp : Int)
    (haxis : axis < 3) (hfreq : freq < 7) (hrate : dataRate < 2) (hin : isInt16 inp) :
    (DirectSeeding _accelFilt_3rdOrderBWF_LowPass_Axis sd axis inp freq dataRate ∧
      FlagStaysCleared _accelFilt_3rdOrderBWF_LowPass_Axis DirectState.initFilt ∧
      FlagSetUntilFirstCall _accelFilt_3rdOrderBWF_LowPass_Axis DirectState.initFilt
        DirectState.init) ∧
    (DirectSeeding _rateFilt_3rdOrderBWF_LowPass_Axis sd axis inp freq dataRate ∧
      FlagStaysCleared _rateFilt_3rdOrderBWF_LowPass_Axis DirectState.initFilt ∧
      FlagSetUntilFirstCall _rateFilt_3rdOrderBWF_LowPass_Axis DirectState.initFilt
        DirectState.init) ∧
    (Cascade2Seeding _rateFilt_4thOrderBWF_LowPass_Axis_cascaded2nd s2 axis inp freq dataRate ∧
      FlagStaysCleared _rateFilt_4thOrderBWF_LowPass_Axis_cascaded2nd Cascade2State.initFilt ∧
      FlagSetUntilFirstCall _rateFilt_4thOrderBWF_LowPass_Axis_cascaded2nd
        Cascade2State.initFilt Cascade2State.init) ∧
    (Cascade2Seeding _accel_4thOrderBWF_LowPass_Axis_cascaded2nd s2 axis inp freq dataRate ∧
      FlagStaysCleared _accel_4thOrderBWF_LowPass_Axis_cascaded2nd Cascade2State.initFilt ∧
      FlagSetUntilFirstCall _accel_4thOrderBWF_LowPass_Axis_cascaded2nd
        Cascade2State.initFilt Cascade2State.init) ∧
    (Cascade1Seeding _rateFilt_3rdOrderBWF_LowPass_Axis_cascaded1st s1 axis inp freq dataRate ∧
      FlagStaysCleared _rateFilt_3rdOrderBWF_LowPass_Axis_cascaded1st Cascade1State.initFilt ∧
      FlagSetUntilFirstCall _rateFilt_3rdOrderBWF_LowPass_Axis_cascaded1st
        Cascade1State.initFilt Cascade1State.init) ∧
    (Cascade1Seeding _accelFilt_3rdOrderBWF_LowPass_Axis_cascaded1st s1 axis inp freq dataRate ∧
      FlagStaysCleared _accelFilt_3rdOrderBWF_LowPass_Axis_cascaded1st Cascade1State.initFilt ∧
      FlagSetUntilFirstCall _accelFilt_3rdOrderBWF_LowPass_Axis_cascaded1st
        Cascade1State.initFilt Cascade1State.init) := by
  rw [rate3_eq_accel3, accel4_eq_rate4, accel1_eq_rate1]
  exact ⟨⟨accel3_seeding _ _ _ _ _, accel3_flags⟩, ⟨accel3_seeding _ _ _ _ _, accel3_flags⟩,
    ⟨rate4_seeding _ _ _ _ _, rate4_flags⟩, ⟨rate4_seeding _ _ _ _ _, rate4_flags⟩,
    ⟨rate1_seeding _ _ _ _ _, rate1_flags⟩, ⟨rate1_seeding _ _ _ _ _, rate1_flags⟩⟩

/-- Seeding at the first call for axis 1, with sample 250, of a direct-form routine whose
history arrays hold other values: the recurrence is evaluated on 250 in every slot. -/
theorem first_call_seeding_witness :
    (1 < 3 ∧ 2 < 7 ∧ 0 < 2 ∧ isInt16 250) ∧
    DirectSeeding _accelFilt_3rdOrderBWF_LowPass_Axis
      { initFilt := fun _ => 1, calledCount := 7, x_q27 := fun _ _ => -9, y_q27 := fun _ _ => 5 }
      1 250 2 0 ∧
    (_accelFilt_3rdOrderBWF_LowPass_Axis
      { initFilt := fun _ => 1, calledCount := 7, x_q27 := fun _ _ => -9, y_q27 := fun _ _ => 5 }
      1 250 2 0).state.y_q27 0 1 = 250 :=
  ⟨by decide,
   (first_call_seeding
      { initFilt := fun _ => 1, calledCount := 7, x_q27 := fun _ _ => -9, y_q27 := fun _ _ => 5 }
      Cascade2State.init Cascade1State.init 1 2 0 250
      (by decide) (by decide) (by decide) (by decide)).1.1,
   by decide⟩

/-! ## History aging -/

theorem accel3_aging (s : DirectState) (axis : Nat) (inp : Int) (freq dataRate : Nat) :
    DirectAging _accelFilt_3rdOrderBWF_LowPass_Axis s axis inp freq dataRate := by
  unfold DirectAging
  refine ⟨?_, fun c => ?_⟩
  · rw [accel3_normal_form]
    simp
  · rw [accel3_normal_form, accel3_normal_form]
    simp [directValue]

theorem rate4_aging (s : Cascade2State) (axis : Nat) (inp : Int) (freq dataRate : Nat) :
    Cascade2Aging _rateFilt_4thOrderBWF_LowPass_Axis_cascaded2nd s axis inp freq dataRate := by
  unfold Cascade2Aging
  refine ⟨?_, fun c => ?_⟩
  · rw [rate4_normal_form]
    simp [CURR, PASTx1, PASTx2]
  · rw [rate4_normal_form, rate4_normal_form]
    simp [casc2W, casc2V]

theorem rate1_aging (s : Cascade1State) (axis : Nat) (inp : Int) (freq dataRate : Nat) :
    Cascade1Aging _rateFilt_3rdOrderBWF_LowPass_Axis_cascaded1st s axis inp freq dataRate := by
  unfold Cascade1Aging
  refine ⟨?_, fun c => ?_⟩
  · rw [rate1_normal_form]
    simp [CURR, PASTx1]
  · rw [rate1_normal_form, rate1_normal_form]
    simp [casc1W, casc1V, casc1U]

/-- C10. History aging is the true recurrence, with or without warm-up: in each of the six
filter routines the history of the called axis after a call is the (seeded) history before
the call shifted by one slot, with the raw input as newest past input and the value just
computed by the recurrence as newest past output (direct form: `x = (in, x1, x2)`,
`y = (int32(y0), y1, y2)`; cascaded second order: `x = (in, x1)`, `v = (v0, v1)`,
`w = (w0, w1)`; cascaded first order: `x = in`, `u = u0`, `v = v0`, `w = w0`), and this next
history is the same for every value of the called-counter at entry. -/
theorem history_aging (sd : DirectState) (s2 : Cascade2State) (s1 : Cascade1State)
    (axis freq dataRate : Nat) (inp : Int)
    (haxis : axis < 3) (hfreq : freq < 7) (hrate : dataRate < 2) (hin : isInt16 inp) :
    DirectAging _accelFilt_3rdOrderBWF_LowPass_Axis sd axis inp freq dataRate ∧
    DirectAging _rateFilt_3rdOrderBWF_LowPass_Axis sd axis inp freq dataRate ∧
    Cascade2Aging _rateFilt_4thOrderBWF_LowPass_Axis_cascaded2nd s2 axis inp freq dataRate ∧
    Cascade2Aging _accel_4thOrderBWF_LowPass_Axis_cascaded2nd s2 axis inp freq dataRate ∧
    Cascade1Aging _rateFilt_3rdOrderBWF_LowPass_Axis_cascaded1st s1 axis inp freq dataRate ∧
    Cascade1Aging _accelFilt_3rdOrderBWF_LowPass_Axis_cascaded1st s1 axis inp freq dataRate := by
  rw [rate3_eq_accel3, accel4_eq_rate4, accel1_eq_rate1]
  exact ⟨accel3_aging _ _ _ _ _, accel3_aging _ _ _ _ _, rate4_aging _ _ _ _ _,
    rate4_aging _ _ _ _ _, rate1_aging _ _ _ _ _, rate1_aging _ _ _ _ _⟩

/-- Aging at a warm-up call (counter 3) on axis 0 of a direct-form routine: the output
history receives the computed 29, not the raw 900 that the call passes to `*out`. -/
theorem history_aging_witness :
    (0 < 3 ∧ 6 < 7 ∧ 0 < 2 ∧ isInt16 900) ∧
    DirectAging _accelFilt_3rdOrderBWF_LowPass_Axis
      { initFilt := fun _ => 0, calledCount := 3, x_q27 := fun _ _ => 0, y_q27 := fun _ _ => 0 }
      0 900 6 0 ∧
    (_accelFilt_3rdOrderBWF_LowPass_Axis
      { initFilt := fun _ => 0, calledCount := 3, x_q27 := fun _ _ => 0, y_q27 := fun _ _ => 0 }
      0 900 6 0).out = 900 ∧
    (_accelFilt_3rdOrderBWF_LowPass_Axis
      { initFilt := fun _ => 0, calledCount := 3, x_q27 := fun _ _ => 0, y_q27 := fun _ _ => 0 }
      0 900 6 0).state.y_q27 1 0 = 29 :=
  ⟨by decide,
   (history_aging
      { initFilt := fun _ => 0, calledCount := 3, x_q27 := fun _ _ => 0, y_q27 := fun _ _ => 0 }
      Cascade2State.init Cascade1State.init 0 6 0 900
      (by decide) (by decide) (by decide) (by decide)).1,
   by decide, by decide⟩

/-! ## Axis independence -/

/-- A routine whose calls keep two statics in agreement on axis `B`, and return the same
result on `B` from agreeing statics, is noninterfering for `B` from every pair of agreeing
statics. -/
theorem noninterference_of_step {σ : Type} (f : Routine σ) (agreeOn : Nat → σ → σ → Prop)
    (B : Nat)
    (hstep : ∀ (s t : σ) (axis : Nat) (i1 i2 : Int) (freq dataRate : Nat),
      agreeOn B s t → (axis = B → i1 = i2) →
      agreeOn B (f s axis i1 freq dataRate).state (f t axis i2 freq dataRate).state ∧
      (axis = B → (f s axis i1 freq dataRate).out = (f t axis i2 freq dataRate).out ∧
        (f s axis i1 freq dataRate).ret = (f t axis i2 freq dataRate).ret)) :
    ∀ (cs ds : List Call) (s t : σ), agreeOn B s t → SameButOtherInputs B cs ds →
      (∀ (i : Nat) (c : Call), cs[i]? = some c → c.axis = B →
        ∃ r1 r2, (runCalls f s cs)[i]? = some r1 ∧ (runCalls f t ds)[i]? = some r2 ∧
          r1.out = r2.out ∧ r1.ret = r2.ret) ∧
      agreeOn B (stateAfter f s cs) (stateAfter f t ds) := by
  intro cs
  induction cs with
  | nil =>
    intro ds s t hst hsame
    cases ds with
    | nil =>
      refine ⟨?_, hst⟩
      intro i c hc
      simp at hc
    | cons d ds => exact absurd hsame (by simp [SameButOtherInputs])
  | cons c cs ih =>
    intro ds s t hst hsame
    cases ds with
    | nil => exact absurd hsame (by simp [SameButOtherInputs])
    | cons d ds =>
      obtain ⟨hax, hfr, hdr, hinp, hrest⟩ := hsame
      have hs := hstep s t c.axis c.inp d.inp c.freq c.dataRate hst hinp
      rw [hax, hfr, hdr] at hs
      have hs1 : agreeOn B (f s c.axis c.inp c.freq c.dataRate).state
          (f t d.axis d.inp d.freq d.dataRate).state := by
        rw [hax, hfr, hdr]
        exact hs.1
      obtain ⟨ih1, ih2⟩ := ih ds _ _ hs1 hrest
      refine ⟨?_, ?_⟩
      · intro i c1 hc1 hB
        cases i with
        | zero =>
          simp only [List.getElem?_cons_zero, Option.some.injEq] at hc1
          subst hc1
          refine ⟨f s c.axis c.inp c.freq c.dataRate, f t d.axis d.inp d.freq d.dataRate,
            by simp [runCalls], by simp [runCalls], ?_⟩
          have hB2 : d.axis = B := by rw [← hax]; exact hB
          have := hs.2 hB2
          rw [hax, hfr, hdr]
          exact this
        | succ j =>
          simp only [List.getElem?_cons_succ] at hc1
          obtain ⟨r1, r2, h1, h2, h3⟩ := ih1 j c1 hc1 hB
          exact ⟨r1, r2, by simpa [runCalls] using h1, by simpa [runCalls] using h2, h3⟩
      · simpa [stateAfter] using ih2

theorem accel3_step_agree (B : Nat) (s t : DirectState) (axis : Nat) (i1 i2 : Int)
    (freq dataRate : Nat) (hst : DirectState.agreeOn B s t) (hin : axis = B → i1 = i2) :
    DirectState.agreeOn B (_accelFilt_3rdOrderBWF_LowPass_Axis s axis i1 freq dataRate).state
      (_accelFilt_3rdOrderBWF_LowPass_Axis t axis i2 freq dataRate).state ∧
    (axis = B →
      (_accelFilt_3rdOrderBWF_LowPass_Axis s axis i1 freq dataRate).out =
        (_accelFilt_3rdOrderBWF_LowPass_Axis t axis i2 freq dataRate).out ∧
      (_accelFilt_3rdOrderBWF_LowPass_Axis s axis i1 freq dataRate).ret =
        (_accelFilt_3rdOrderBWF_LowPass_Axis t axis i2 freq dataRate).ret) := by
  obtain ⟨hc, hf, hh⟩ := hst
  rw [accel3_normal_form, accel3_normal_form]
  by_cases hB : axis = B
  · subst hB
    have hi := hin rfl
    subst hi
    have hv : directValue s axis i1 freq dataRate = directValue t axis i1 freq dataRate := by
      unfold directValue
      rw [hf, (hh 1).1, (hh 2).1, (hh 3).1, (hh 1).2, (hh 2).2, (hh 3).2]
    refine ⟨⟨?_, ?_, fun k => ?_⟩, fun _ => ?_⟩
    · simp [hc]
    · simp
    · simp [hv, hf, (hh 1).1, (hh 2).1, (hh 1).2, (hh 2).2, (hh k).1, (hh k).2]
    · simp [hc, hv]
  · have hB2 : ¬ B = axis := fun h => hB h.symm
    refine ⟨⟨?_, ?_, fun k => ?_⟩, fun h => absurd h hB⟩
    · simp [hc]
    · simp [hB2, hf]
    · simp [hB2, (hh k).1, (hh k).2]

theorem rate4_step_agree (B : Nat) (s t : Cascade2State) (axis : Nat) (i1 i2 : Int)
    (freq dataRate : Nat) (hst : Cascade2State.agreeOn B s t) (hin : axis = B → i1 = i2) :
    Cascade2State.agreeOn B
      (_rateFilt_4thOrderBWF_LowPass_Axis_cascaded2nd s axis i1 freq dataRate).state
      (_rateFilt_4thOrderBWF_LowPass_Axis_cascaded2nd t axis i2 freq dataRate).state ∧
    (axis = B →
      (_rateFilt_4thOrderBWF_LowPass_Axis_cascaded2nd s axis i1 freq dataRate).out =
        (_rateFilt_4thOrderBWF_LowPass_Axis_cascaded2nd t axis i2 freq dataRate).out ∧
      (_rateFilt_4thOrderBWF_LowPass_Axis_cascaded2nd s axis i1 freq dataRate).ret =
        (_rateFilt_4thOrderBWF_LowPass_Axis_cascaded2nd t axis i2 freq dataRate).ret) := by
  obtain ⟨hc, hf, hh⟩ := hst
  rw [rate4_normal_form, rate4_normal_form]
  by_cases hB : axis = B
  · subst hB
    have hi := hin rfl
    subst hi
    have hv : casc2V s axis i1 freq = casc2V t axis i1 freq := by
      unfold casc2V
      rw [hf, (hh 1).1, (hh 2).1, (hh 1).2.1, (hh 2).2.1]
    have hw : casc2W s axis i1 freq = casc2W t axis i1 freq := by
      unfold casc2W
      rw [hv, hf, (hh 1).2.1, (hh 2).2.1, (hh 1).2.2, (hh 2).2.2]
    refine ⟨⟨?_, ?_, fun k => ?_⟩, fun _ => ?_⟩
    · simp [hc]
    · simp
    · simp [hv, hw, hf, (hh 0).1, (hh 1).1, (hh 1).2.1, (hh 1).2.2, (hh k).1, (hh k).2.1,
        (hh k).2.2]
    · simp [hc, hw]
  · have hB2 : ¬ B = axis := fun h => hB h.symm
    refine ⟨⟨?_, ?_, fun k => ?_⟩, fun h => absurd h hB⟩
    · simp [hc]
    · simp [hB2, hf]
    · simp [hB2, (hh k).1, (hh k).2.1, (hh k).2.2]

theorem rate1_step_agree (B : Nat) (s t : Cascade1State) (axis : Nat) (i1 i2 : Int)
    (freq dataRate : Nat) (hst : Cascade1State.agreeOn B s t) (hin : axis = B → i1 = i2) :
    Cascade1State.agreeOn B
      (_rateFilt_3rdOrderBWF_LowPass_Axis_cascaded1st s axis i1 freq dataRate).state
      (_rateFilt_3rdOrderBWF_LowPass_Axis_cascaded1st t axis i2 freq dataRate).state ∧
    (axis = B →
      (_rateFilt_3rdOrderBWF_LowPass_Axis_cascaded1st s axis i1 freq dataRate).out =
        (_rateFilt_3rdOrderBWF_LowPass_Axis_cascaded1st t axis i2 freq dataRate).out ∧
      (_rateFilt_3rdOrderBWF_LowPass_Axis_cascaded1st s axis i1 freq dataRate).ret =
        (_rateFilt_3rdOrderBWF_LowPass_Axis_cascaded1st t axis i2 freq dataRate).ret) := by
  obtain ⟨hc, hf, hh⟩ := hst
  rw [rate1_normal_form, rate1_normal_form]
  by_cases hB : axis = B
  · subst hB
    have hi := hin rfl
    subst hi
    have hu : casc1U s axis i1 freq = casc1U t axis i1 freq := by
      unfold casc1U
      rw [hf, (hh 1).1, (hh 1).2.1]
    have hv : casc1V s axis i1 freq = casc1V t axis i1 freq := by
      unfold casc1V
      rw [hu, hf, (hh 1).2.1, (hh 1).2.2.1]
    have hw : casc1W s axis i1 freq = casc1W t axis i1 freq := by
      unfold casc1W
      rw [hv, hf, (hh 1).2.2.1, (hh 1).2.2.2]
    refine ⟨⟨?_, ?_, fun k => ?_⟩, fun _ => ?_⟩
    · simp [hc]
    · simp
    · simp [hu, hv, hw, hf, (hh 0).1, (hh k).1, (hh k).2.1, (hh k).2.2.1, (hh k).2.2.2]
    · simp [hc, hw]
  · have hB2 : ¬ B = axis := fun h => hB h.symm
    refine ⟨⟨?_, ?_, fun k => ?_⟩, fun h => absurd h hB⟩
    · simp [hc]
    · simp [hB2, hf]
    · simp [hB2, (hh k).1, (hh k).2.1, (hh k).2.2.1, (hh k).2.2.2]

/-- C8. Axis independence as noninterference: for each of the six filter routines and every
axis `B`, two runs from the initial statics with the same number of calls and the same
`axis`, `freq` and `dataRate` at every call, whose inputs agree on every call made for `B`
and are arbitrary on the other calls, return the same output value and the same settled flag
at every call made for `B`, and end in statics with equal history slots, equal
initialisation flag for `B` and equal called-counter. -/
theorem axis_independence (B : Nat) (cs ds : List Call) (hsame : SameButOtherInputs B cs ds) :
    AxisNoninterference _accelFilt_3rdOrderBWF_LowPass_Axis DirectState.init
      DirectState.agreeOn B cs ds ∧
    AxisNoninterference _rateFilt_3rdOrderBWF_LowPass_Axis DirectState.init
      DirectState.agreeOn B cs ds ∧
    AxisNoninterference _rateFilt_4thOrderBWF_LowPass_Axis_cascaded2nd Cascade2State.init
      Cascade2State.agreeOn B cs ds ∧
    AxisNoninterference _accel_4thOrderBWF_LowPass_Axis_cascaded2nd Cascade2State.init
      Cascade2State.agreeOn B cs ds ∧
    AxisNoninterference _rateFilt_3rdOrderBWF_LowPass_Axis_cascaded1st Cascade1State.init
      Cascade1State.agreeOn B cs ds ∧
    AxisNoninterference _accelFilt_3rdOrderBWF_LowPass_Axis_cascaded1st Cascade1State.init
      Cascade1State.agreeOn B cs ds := by
  rw [rate3_eq_accel3, accel4_eq_rate4, accel1_eq_rate1]
  have h3 := noninterference_of_step _accelFilt_3rdOrderBWF_LowPass_Axis DirectState.agreeOn B
    (fun s t axis i1 i2 freq dataRate => accel3_step_agree B s t axis i1 i2 freq dataRate)
    cs ds DirectState.init DirectState.init ⟨rfl, rfl, fun _ => ⟨rfl, rfl⟩⟩ hsame
  have h4 := noninterference_of_step _rateFilt_4thOrderBWF_LowPass_Axis_cascaded2nd
    Cascade2State.agreeOn B
    (fun s t axis i1 i2 freq dataRate => rate4_step_agree B s t axis i1 i2 freq dataRate)
    cs ds Cascade2State.init Cascade2State.init ⟨rfl, rfl, fun _ => ⟨rfl, rfl, rfl⟩⟩ hsame
  have h1 := noninterference_of_step _rateFilt_3rdOrderBWF_LowPass_Axis_cascaded1st
    Cascade1State.agreeOn B
    (fun s t axis i1 i2 freq dataRate => rate1_step_agree B s t axis i1 i2 freq dataRate)
    cs ds Cascade1State.init Cascade1State.init ⟨rfl, rfl, fun _ => ⟨rfl, rfl, rfl, rfl⟩⟩ hsame
  exact ⟨h3, h3, h4, h4, h1, h1⟩

/-- Noninterference for axis 1 on two runs of three calls that differ in the inputs given to
axes 0 and 2. -/
theorem axis_independence_witness :
    SameButOtherInputs 1
      [{ axis := 0, inp := 5, freq := 2, dataRate := 1 },
       { axis := 1, inp := -700, freq := 2, dataRate := 1 },
       { axis := 2, inp := 32767, freq := 2, dataRate := 1 }]
      [{ axis := 0, inp := -32768, freq := 2, dataRate := 1 },
       { axis := 1, inp := -700, freq := 2, dataRate := 1 },
       { axis := 2, inp := 0, freq := 2, dataRate := 1 }] ∧
    AxisNoninterference _rateFilt_4thOrderBWF_LowPass_Axis_cascaded2nd Cascade2State.init
      Cascade2State.agreeOn 1
      [{ axis := 0, inp := 5, freq := 2, dataRate := 1 },
       { axis := 1, inp := -700, freq := 2, dataRate := 1 },
       { axis := 2, inp := 32767, freq := 2, dataRate := 1 }]
      [{ axis := 0, inp := -32768, freq := 2, dataRate := 1 },
       { axis := 1, inp := -700, freq := 2, dataRate := 1 },
       { axis := 2, inp := 0, freq := 2, dataRate := 1 }] :=
  ⟨by simp [SameButOtherInputs],
   (axis_independence 1 _ _ (by simp [SameButOtherInputs])).2.2.1⟩

/-! ## Constant input -/

/-- A property of results that every call with arguments `c` establishes from statics
satisfying an invariant holds of every result of a run that repeats the call. -/
theorem runCalls_replicate_forall {σ : Type} (f : Routine σ) (P : σ → Prop)
    (Q : FilterResult σ → Prop) (c : Call)
    (hstep : ∀ s, P s → P (f s c.axis c.inp c.freq c.dataRate).state ∧
      Q (f s c.axis c.inp c.freq c.dataRate)) :
    ∀ (n : Nat) (s : σ), P s → ∀ (i : Nat) (r : FilterResult σ),
      (runCalls f s (List.replicate n c))[i]? = some r → Q r := by
  intro n
  induction n with
  | zero =>
    intro s _ i r h
    simp [runCalls] at h
  | succ n ih =>
    intro s hs i r h
    rw [List.replicate_succ] at h
    cases i with
    | zero =>
      simp only [runCalls, List.getElem?_cons_zero, Option.some.injEq] at h
      rw [← h]
      exact (hstep s hs).2
    | succ j =>
      simp only [runCalls, List.getElem?_cons_succ] at h
      exact ih _ (hstep s hs).1 j r h

theorem toInt32_of_isInt16 {z : Int} (h : isInt16 z) : toInt32 z = z :=
  toInt32_of_isInt32 (isInt32_of_isInt16 h)

/-- Every row of the direct-form tables has the constant history as an exact fixed point. -/
theorem directY0_const {freq dataRate : Nat} {c : Int} (hfreq : freq < 7)
    (hrate : dataRate < 2) (hc : isInt16 c) :
    directY0 (tab3 a_q27 3 dataRate freq) (tab3 a_q27 2 dataRate freq)
      (tab3 a_q27 1 dataRate freq) (tab3 b_q27 0 dataRate freq) c c c c c c c = c := by
  have h32 := isInt32_of_isInt16 hc
  rw [directY0_exact _ _ _ _ _ _ _ _ _ _ _
    (direct_acc_isInt64 hfreq hrate hc hc hc hc h32 h32 h32)]
  unfold isInt16 at hc
  interval_cases freq <;> interval_cases dataRate <;>
    simp only [tab3, a_q27, b_q27, List.getD_cons_zero, List.getD_cons_succ] <;> omega

/-- On every row of the second-order tables, a stage fed 32-bit values has an accumulator
that fits in 64 bits. -/
theorem casc2_acc_isInt64 {freq : Nat} {p p1 p2 q1 q2 : Int} (hfreq : freq < 7)
    (hp : isInt32 p) (hp1 : isInt32 p1) (hp2 : isInt32 p2) (hq1 : isInt32 q1)
    (hq2 : isInt32 q2) :
    isInt64 (tab2 bc1_q27 freq 0 * (p + 2 * p1 + p2) -
      (tab2 ac1_q27 freq 1 * q1 + tab2 ac1_q27 freq 2 * q2) + 67108864) := by
  unfold isInt32 at hp hp1 hp2 hq1 hq2
  unfold isInt64
  interval_cases freq <;>
    simp only [tab2, ac1_q27, bc1_q27, List.getD_cons_zero, List.getD_cons_succ] <;> omega

/-- Every initialised row of the second-order tables has the constant history as an exact
fixed point of a stage. -/
theorem stage2_const {freq : Nat} {c : Int} (hfreq : freq < 6) (hc : isInt16 c) :
    stage2 (tab2 bc1_q27 freq 0) (tab2 ac1_q27 freq 1) (tab2 ac1_q27 freq 2) c c c c c = c := by
  have h32 := isInt32_of_isInt16 hc
  rw [stage2_exact _ _ _ _ _ _ _ _ (casc2_acc_isInt64 (by omega) h32 h32 h32 h32 h32)]
  unfold isInt16 at hc
  interval_cases freq <;>
    simp only [tab2, ac1_q27, bc1_q27, List.getD_cons_zero, List.getD_cons_succ] <;> omega

/-- Every row but the first of the first-order tables has the constant history as an exact
fixed point of a stage. -/
theorem stage1_const {freq : Nat} {c : Int} (hfreq0 : 1 ≤ freq) (hfreq : freq < 7)
    (hc : isInt16 c) :
    stage1 (tab2 bc2_q27 freq 0) (tab2 ac2_q27 freq 1) c c c = c := by
  have h32 : -17179869184 ≤ c ∧ c ≤ 17179869184 := by
    unfold isInt16 at hc
    omega
  rw [stage1_exact _ _ _ _ _ (casc1_acc_isInt64 hfreq h32 h32 h32)]
  unfold isInt16 at hc
  interval_cases freq <;>
    simp only [tab2, ac2_q27, bc2_q27, List.getD_cons_zero, List.getD_cons_succ] <;> omega

/-- A direct-form call with input `c` for an axis whose seeded history is constant `c`
computes `c`, delivers `c` and leaves the history constant. -/
theorem accel3_const_step {freq dataRate axis : Nat} {c : Int} (hfreq : freq < 7)
    (hrate : dataRate < 2) (hc : isInt16 c) (s : DirectState)
    (hs : DirectState.steady axis c s) :
    DirectState.steady axis c
      (_accelFilt_3rdOrderBWF_LowPass_Axis s axis c freq dataRate).state ∧
    ((_accelFilt_3rdOrderBWF_LowPass_Axis s axis c freq dataRate).state.y_q27 0 axis = c ∧
      (_accelFilt_3rdOrderBWF_LowPass_Axis s axis c freq dataRate).out = c) := by
  obtain ⟨hx1, hx2, hx3, hy1, hy2, hy3⟩ := hs
  have hv : directValue s axis c freq dataRate = c := by
    unfold directValue
    rw [hx1, hx2, hx3, hy1, hy2, hy3]
    exact directY0_const hfreq hrate hc
  have h32 := toInt32_of_isInt16 hc
  rw [accel3_normal_form]
  unfold DirectState.steady
  simp [hv, h32, hx1, hx2, hy1, hy2, seedv]
  exact ⟨fun h => by simpa [seedv, h] using hx1, fun h => by simpa [seedv, h] using hx2,
    fun h => by simpa [seedv, h] using hy1, fun h => by simpa [seedv, h] using hy2⟩

/-- A cascaded second-order call with input `c`, on an initialised row, for an axis whose
seeded history is constant `c` computes `c` in both stages, delivers `c` and leaves the
history constant. -/
theorem rate4_const_step {freq dataRate axis : Nat} {c : Int} (hfreq : freq < 6)
    (hc : isInt16 c) (s : Cascade2State) (hs : Cascade2State.steady axis c s) :
    Cascade2State.steady axis c
      (_rateFilt_4thOrderBWF_LowPass_Axis_cascaded2nd s axis c freq dataRate).state ∧
    (((_rateFilt_4thOrderBWF_LowPass_Axis_cascaded2nd s axis c freq dataRate).state.v_q27 0
        axis = c ∧
      (_rateFilt_4thOrderBWF_LowPass_Axis_cascaded2nd s axis c freq dataRate).state.w_q27 0
        axis = c) ∧
      (_rateFilt_4thOrderBWF_LowPass_Axis_cascaded2nd s axis c freq dataRate).out = c) := by
  obtain ⟨hx1, hx2, hv1, hv2, hw1, hw2⟩ := hs
  have hv : casc2V s axis c freq = c := by
    unfold casc2V
    rw [hx1, hx2, hv1, hv2]
    exact stage2_const hfreq hc
  have hw : casc2W s axis c freq = c := by
    unfold casc2W
    rw [hv, hv1, hv2, hw1, hw2]
    exact stage2_const hfreq hc
  have h32 := toInt32_of_isInt16 hc
  rw [rate4_normal_form]
  unfold Cascade2State.steady
  simp [hv, hw, h32, hx1, hv1, hw1, seedv]
  exact ⟨fun h => by simpa [seedv, h] using hx1, fun h => by simpa [seedv, h] using hv1,
    fun h => by simpa [seedv, h] using hw1⟩

/-- A cascaded first-order call with input `c`, on a row other than the first, for an axis
whose seeded history is constant `c` computes `c` in all three stages, delivers `c` and
leaves the history constant. -/
theorem rate1_const_step {freq dataRate axis : Nat} {c : Int} (hfreq0 : 1 ≤ freq)
    (hfreq : freq < 7) (hc : isInt16 c) (s : Cascade1State)
    (hs : Cascade1State.steady axis c s) :
    Cascade1State.steady axis c
      (_rateFilt_3rdOrderBWF_LowPass_Axis_cascaded1st s axis c freq dataRate).state ∧
    (((_rateFilt_3rdOrderBWF_LowPass_Axis_cascaded1st s axis c freq dataRate).state.u_q27 0
        axis = c ∧
      (_rateFilt_3rdOrderBWF_LowPass_Axis_cascaded1st s axis c freq dataRate).state.v_q27 0
        axis = c ∧
      (_rateFilt_3rdOrderBWF_LowPass_Axis_cascaded1st s axis c freq dataRate).state.w_q27 0
        axis = c) ∧
      (_rateFilt_3rdOrderBWF_LowPass_Axis_cascaded1st s axis c freq dataRate).out = c) := by
  obtain ⟨hx1, hu1, hv1, hw1⟩ := hs
  have hu : casc1U s axis c freq = c := by
    unfold casc1U
    rw [hx1, hu1]
    exact stage1_const hfreq0 hfreq hc
  have hv : casc1V s axis c freq = c := by
    unfold casc1V
    rw [hu, hu1, hv1]
    exact stage1_const hfreq0 hfreq hc
  have hw : casc1W s axis c freq = c := by
    unfold casc1W
    rw [hv, hv1, hw1]
    exact stage1_const hfreq0 hfreq hc
  have h32 := toInt32_of_isInt16 hc
  rw [rate1_normal_form]
  unfold Cascade1State.steady
  simp [hu, hv, hw, h32, seedv]

theorem accel3_dc {freq dataRate axis : Nat} {c : Int} (hfreq : freq < 7)
    (hrate : dataRate < 2) (hc : isInt16 c) :
    DCResponse _accelFilt_3rdOrderBWF_LowPass_Axis DirectState.init
      (fun t ax => t.y_q27 0 ax) axis c freq dataRate := by
  intro n i r hr
  have h := runCalls_replicate_forall _accelFilt_3rdOrderBWF_LowPass_Axis
    (DirectState.steady axis c) (fun r => r.state.y_q27 0 axis = c ∧ r.out = c)
    { axis := axis, inp := c, freq := freq, dataRate := dataRate }
    (fun s hs => accel3_const_step hfreq hrate hc s hs) n DirectState.init
    (by simp [DirectState.steady, DirectState.init, seedv]) i r hr
  simp [h.1, h.2]

theorem rate4_dc {freq dataRate axis : Nat} {c : Int} (hfreq : freq < 6) (hc : isInt16 c) :
    DCResponse _rateFilt_4thOrderBWF_LowPass_Axis_cascaded2nd Cascade2State.init
      (fun t ax => t.w_q27 0 ax) axis c freq dataRate := by
  intro n i r hr
  have h := runCalls_replicate_forall _rateFilt_4thOrderBWF_LowPass_Axis_cascaded2nd
    (Cascade2State.steady axis c)
    (fun r => (r.state.v_q27 0 axis = c ∧ r.state.w_q27 0 axis = c) ∧ r.out = c)
    { axis := axis, inp := c, freq := freq, dataRate := dataRate }
    (fun s hs => rate4_const_step hfreq hc s hs) n Cascade2State.init
    (by simp [Cascade2State.steady, Cascade2State.init, seedv]) i r hr
  simp [h.1.2, h.2]

theorem rate1_dc {freq dataRate axis : Nat} {c : Int} (hfreq0 : 1 ≤ freq) (hfreq : freq < 7)
    (hc : isInt16 c) :
    DCResponse _rateFilt_3rdOrderBWF_LowPass_Axis_cascaded1st Cascade1State.init
      (fun t ax => t.w_q27 0 ax) axis c freq dataRate := by
  intro n i r hr
  have h := runCalls_replicate_forall _rateFilt_3rdOrderBWF_LowPass_Axis_cascaded1st
    (Cascade1State.steady axis c)
    (fun r => (r.state.u_q27 0 axis = c ∧ r.state.v_q27 0 axis = c ∧
      r.state.w_q27 0 axis = c) ∧ r.out = c)
    { axis := axis, inp := c, freq := freq, dataRate := dataRate }
    (fun s hs => rate1_const_step hfreq0 hfreq hc s hs) n Cascade1State.init
    (by simp [Cascade1State.steady, Cascade1State.init, seedv]) i r hr
  simp [h.1.2.2, h.2]

/-- C7, as the code has it. Constant-input response on every table row that holds
coefficients: for the direct-form routines with every `freq` 0..6 and `dataRate` 0..1, for
the cascaded second-order routines with `freq` 0..5 and for the cascaded first-order routines
with `freq` 1..6, every axis below 3 and every `int16_t` value `c`: calling the routine
repeatedly for that axis with input `c` from the initial statics, the value computed on the
second and on every later call differs from `c` by at most 1, and every settled call returns
a value that differs from `c` by at most 1. -/
theorem dc_response_on_coefficient_rows (axis freq dataRate : Nat) (c : Int)
    (haxis : axis < 3) (hfreq : freq < 7) (hrate : dataRate < 2) (hc : isInt16 c) :
    DCResponse _accelFilt_3rdOrderBWF_LowPass_Axis DirectState.init
      (fun t ax => t.y_q27 0 ax) axis c freq dataRate ∧
    DCResponse _rateFilt_3rdOrderBWF_LowPass_Axis DirectState.init
      (fun t ax => t.y_q27 0 ax) axis c freq dataRate ∧
    (freq < 6 →
      DCResponse _rateFilt_4thOrderBWF_LowPass_Axis_cascaded2nd Cascade2State.init
        (fun t ax => t.w_q27 0 ax) axis c freq dataRate ∧
      DCResponse _accel_4thOrderBWF_LowPass_Axis_cascaded2nd Cascade2State.init
        (fun t ax => t.w_q27 0 ax) axis c freq dataRate) ∧
    (1 ≤ freq →
      DCResponse _rateFilt_3rdOrderBWF_LowPass_Axis_cascaded1st Cascade1State.init
        (fun t ax => t.w_q27 0 ax) axis c freq dataRate ∧
      DCResponse _accelFilt_3rdOrderBWF_LowPass_Axis_cascaded1st Cascade1State.init
        (fun t ax => t.w_q27 0 ax) axis c freq dataRate) := by
  rw [rate3_eq_accel3, accel4_eq_rate4, accel1_eq_rate1]
  exact ⟨accel3_dc hfreq hrate hc, accel3_dc hfreq hrate hc,
    fun h => ⟨rate4_dc h hc, rate4_dc h hc⟩,
    fun h => ⟨rate1_dc h hfreq hc, rate1_dc h hfreq hc⟩⟩

/-- The constant-input response of a cascaded second-order routine and of a cascaded
first-order routine on row 5, axis 2, input -32768. -/
theorem dc_response_on_coefficient_rows_witness :
    (2 < 3 ∧ 5 < 7 ∧ 1 < 2 ∧ isInt16 (-32768)) ∧
    DCResponse _rateFilt_4thOrderBWF_LowPass_Axis_cascaded2nd Cascade2State.init
      (fun t ax => t.w_q27 0 ax) 2 (-32768) 5 1 ∧
    DCResponse _accelFilt_3rdOrderBWF_LowPass_Axis_cascaded1st Cascade1State.init
      (fun t ax => t.w_q27 0 ax) 2 (-32768) 5 1 :=
  ⟨by decide,
   ((dc_response_on_coefficient_rows 2 5 1 (-32768) (by decide) (by decide) (by decide)
      (by decide)).2.2.1 (by decide)).1,
   ((dc_response_on_coefficient_rows 2 5 1 (-32768) (by decide) (by decide) (by decide)
      (by decide)).2.2.2 (by decide)).2⟩

/-- C7, as the specification has it, fails on the rows that hold no coefficients: on row 0
of the cascaded first-order tables (labelled "unfiltered") and on row 6 of the cascaded
second-order tables (left without initialiser) the second call with constant input 100
computes 0. -/
theorem dc_response_fails_on_zero_rows :
    ¬ DCResponse _rateFilt_3rdOrderBWF_LowPass_Axis_cascaded1st Cascade1State.init
        (fun t ax => t.w_q27 0 ax) 0 100 0 0 ∧
    ¬ DCResponse _rateFilt_4thOrderBWF_LowPass_Axis_cascaded2nd Cascade2State.init
        (fun t ax => t.w_q27 0 ax) 0 100 6 0 := by
  constructor
  · intro h
    have h1 := (h 2 1 _ rfl).1 (le_refl 1)
    revert h1
    decide
  · intro h
    have h1 := (h 2 1 _ rfl).1 (le_refl 1)
    revert h1
    decide

/-! ## Boundedness of the second-order sections -/

/-- One step of a second-order section with total perturbation `u` (input term and rounding)
keeps the quadratic form within `K` when `K` is large enough for the size `U` of `u`. -/
theorem quad2_step (a1 a2 μ K U q0 q1 q2 u : Int) (hμ : 0 < μ) (ha2 : 0 ≤ a2)
    (hD : a1 * a1 ≤ 4 * 134217728 * a2)
    (hq0 : 134217728 * q0 = -(a1 * q1) - a2 * q2 + u)
    (hu : u * u ≤ U * U)
    (hW : quad2 a1 a2 q1 q2 ≤ K)
    (hK : μ * (μ + 1) * (U * U) + (μ + 1) * a2 * K ≤ μ * 134217728 * K) :
    quad2 a1 a2 q0 q1 ≤ K := by
  unfold quad2 at hW ⊢
  have key : 134217728 * (134217728 * (q0 * q0) + a1 * (q0 * q1) + a2 * (q1 * q1)) =
      a2 * (134217728 * (q1 * q1) + a1 * (q1 * q2) + a2 * (q2 * q2)) +
        u * (-(a1 * q1) - 2 * a2 * q2) + u * u := by
    linear_combination (134217728 * q0 + (-(a1 * q1) - a2 * q2 + u) + a1 * q1) * hq0
  have h1 : 4 * μ * (u * (-(a1 * q1) - 2 * a2 * q2)) ≤
      4 * μ * μ * (u * u) + (-(a1 * q1) - 2 * a2 * q2) * (-(a1 * q1) - 2 * a2 * q2) := by
    nlinarith [sq_nonneg (2 * μ * u - (-(a1 * q1) - 2 * a2 * q2))]
  have h2 : (-(a1 * q1) - 2 * a2 * q2) * (-(a1 * q1) - 2 * a2 * q2) ≤
      4 * a2 * (134217728 * (q1 * q1) + a1 * (q1 * q2) + a2 * (q2 * q2)) := by
    have : 0 ≤ (4 * 134217728 * a2 - a1 * a1) * (q1 * q1) :=
      mul_nonneg (by linarith) (mul_self_nonneg q1)
    nlinarith
  have h3 : (μ + 1) * a2 * (134217728 * (q1 * q1) + a1 * (q1 * q2) + a2 * (q2 * q2)) ≤
      (μ + 1) * a2 * K :=
    mul_le_mul_of_nonneg_left hW (mul_nonneg (by linarith) ha2)
  have h4 : μ * (μ + 1) * (u * u) ≤ μ * (μ + 1) * (U * U) :=
    mul_le_mul_of_nonneg_left hu (mul_nonneg hμ.le (by linarith))
  have h5 : μ * 134217728 * (134217728 * (q0 * q0) + a1 * (q0 * q1) + a2 * (q1 * q1)) ≤
      μ * 134217728 * K := by
    have e : μ * 134217728 * (134217728 * (q0 * q0) + a1 * (q0 * q1) + a2 * (q1 * q1)) =
        μ * (a2 * (134217728 * (q1 * q1) + a1 * (q1 * q2) + a2 * (q2 * q2)) +
        u * (-(a1 * q1) - 2 * a2 * q2) + u * u) := by
      rw [← key]; ring
    rw [e]
    nlinarith
  exact le_of_mul_le_mul_left h5 (by positivity)

/-- A bound on the quadratic form bounds its first argument. -/
theorem quad2_bound (a1 a2 K B q0 q1 : Int) (ha2 : 0 ≤ a2) (hB0 : 0 ≤ B)
    (hD : 0 < 4 * 134217728 * a2 - a1 * a1)
    (hW : quad2 a1 a2 q0 q1 ≤ K)
    (hB : 4 * a2 * K < (4 * 134217728 * a2 - a1 * a1) * ((B + 1) * (B + 1))) :
    -B ≤ q0 ∧ q0 ≤ B := by
  unfold quad2 at hW
  have e : 4 * a2 * (134217728 * (q0 * q0) + a1 * (q0 * q1) + a2 * (q1 * q1)) =
      (2 * a2 * q1 + a1 * q0) * (2 * a2 * q1 + a1 * q0) +
        (4 * 134217728 * a2 - a1 * a1) * (q0 * q0) := by ring
  have h1 : 4 * a2 * (134217728 * (q0 * q0) + a1 * (q0 * q1) + a2 * (q1 * q1)) ≤ 4 * a2 * K :=
    mul_le_mul_of_nonneg_left hW (by linarith)
  have h2 : (4 * 134217728 * a2 - a1 * a1) * (q0 * q0) <
      (4 * 134217728 * a2 - a1 * a1) * ((B + 1) * (B + 1)) := by
    nlinarith [mul_self_nonneg (2 * a2 * q1 + a1 * q0)]
  have h3 : q0 * q0 < (B + 1) * (B + 1) := lt_of_mul_lt_mul_left h2 hD.le
  constructor
  · by_contra h
    have h5 : q0 ≤ -(B + 1) := by omega
    nlinarith
  · by_contra h
    have h5 : B + 1 ≤ q0 := by omega
    nlinarith

/-- One step of a second-order section with stable coefficients keeps `StageInv` when the
input term is at most `Pmax` in magnitude and `K`, `B` are large enough for it. -/
theorem stageInv_step (b0 a1 a2 μ K B Pmax P q1 q2 : Int) (hb0 : 0 ≤ b0) (hμ : 0 < μ)
    (ha2 : 0 ≤ a2) (hB0 : 0 ≤ B) (hD : 0 < 4 * 134217728 * a2 - a1 * a1)
    (hK : μ * (μ + 1) * ((b0 * Pmax + 67108864) * (b0 * Pmax + 67108864)) + (μ + 1) * a2 * K ≤
      μ * 134217728 * K)
    (hB : 4 * a2 * K < (4 * 134217728 * a2 - a1 * a1) * ((B + 1) * (B + 1)))
    (hP : -Pmax ≤ P ∧ P ≤ Pmax) (hinv : StageInv a1 a2 K B q1 q2) :
    StageInv a1 a2 K B ((b0 * P - (a1 * q1 + a2 * q2) + 67108864) / 134217728) q1 := by
  obtain ⟨hW, hq1, hq2⟩ := hinv
  have hm := Int.emod_add_ediv (b0 * P - (a1 * q1 + a2 * q2) + 67108864) 134217728
  have hm0 := Int.emod_nonneg (b0 * P - (a1 * q1 + a2 * q2) + 67108864)
    (show (134217728 : Int) ≠ 0 by norm_num)
  have hm1 := Int.emod_lt_of_pos (b0 * P - (a1 * q1 + a2 * q2) + 67108864)
    (show (0 : Int) < 134217728 by norm_num)
  generalize (b0 * P - (a1 * q1 + a2 * q2) + 67108864) / 134217728 = q0 at hm ⊢
  generalize (b0 * P - (a1 * q1 + a2 * q2) + 67108864) % 134217728 = m at hm hm0 hm1
  have hbP1 : b0 * P ≤ b0 * Pmax := mul_le_mul_of_nonneg_left hP.2 hb0
  have hbP2 : -(b0 * Pmax) ≤ b0 * P := by
    have := mul_le_mul_of_nonneg_left hP.1 hb0
    linarith
  have hq0 : 134217728 * q0 = -(a1 * q1) - a2 * q2 + (b0 * P + 67108864 - m) := by linarith
  have hu1 : -(b0 * Pmax + 67108864) ≤ b0 * P + 67108864 - m := by linarith
  have hu2 : b0 * P + 67108864 - m ≤ b0 * Pmax + 67108864 := by linarith
  have hu : (b0 * P + 67108864 - m) * (b0 * P + 67108864 - m) ≤
      (b0 * Pmax + 67108864) * (b0 * Pmax + 67108864) := by
    nlinarith [mul_nonneg (sub_nonneg.mpr hu2) (by linarith : (0 : Int) ≤
      (b0 * Pmax + 67108864) + (b0 * P + 67108864 - m))]
  have hW1 := quad2_step a1 a2 μ K (b0 * Pmax + 67108864) q0 q1 q2 (b0 * P + 67108864 - m)
    hμ ha2 (by linarith) hq0 hu hW hK
  exact ⟨hW1, quad2_bound a1 a2 K B q0 q1 ha2 hB0 hD hW1 hB, hq1⟩

/-- On a row of zero coefficients a section emits 0 and keeps `StageInv`. -/
theorem stageInv_zero_row (K B P q1 q2 : Int) (hK : 0 ≤ K) (hB : 0 ≤ B)
    (hinv : StageInv 0 0 K B q1 q2) :
    StageInv 0 0 K B ((0 * P - (0 * q1 + 0 * q2) + 67108864) / 134217728) q1 := by
  obtain ⟨_, hq1, _⟩ := hinv
  have e : (0 * P - (0 * q1 + 0 * q2) + 67108864) / 134217728 = 0 := by norm_num
  rw [e]
  exact ⟨by simpa [quad2] using hK, ⟨by omega, hB⟩, hq1⟩

/-- On every row of the second-order tables the first stage, fed sums of 16-bit samples, keeps
its outputs within `2^20` in magnitude. -/
theorem casc2_stage1_inv {freq : Nat} {P q1 q2 : Int} (hfreq : freq < 7)
    (hP : -131072 ≤ P ∧ P ≤ 131072)
    (hinv : StageInv (tab2 ac1_q27 freq 1) (tab2 ac1_q27 freq 2) (lyapK1 freq) 1048576 q1 q2) :
    StageInv (tab2 ac1_q27 freq 1) (tab2 ac1_q27 freq 2) (lyapK1 freq) 1048576
      ((tab2 bc1_q27 freq 0 * P - (tab2 ac1_q27 freq 1 * q1 + tab2 ac1_q27 freq 2 * q2) +
        67108864) / 134217728) q1 := by
  interval_cases freq
  · exact stageInv_step 12712 (-264715683) 130548801 72 _ _ 131072 P q1 q2 (by decide) (by decide)
      (by decide) (by decide) (by decide) (by decide) (by decide) hP hinv
  · exact stageInv_step 77840 (-259138893) 125232525 28 _ _ 131072 P q1 q2 (by decide) (by decide)
      (by decide) (by decide) (by decide) (by decide) (by decide) hP hinv
  · exact stageInv_step 300992 (-249866120) 116852362 14 _ _ 131072 P q1 q2 (by decide) (by decide)
      (by decide) (by decide) (by decide) (by decide) (by decide) hP hinv
  · exact stageInv_step 1705053 (-222373757) 94976243 5 _ _ 131072 P q1 q2 (by decide) (by decide)
      (by decide) (by decide) (by decide) (by decide) (by decide) hP hinv
  · exact stageInv_step 5853064 (-178322400) 67516929 3 _ _ 131072 P q1 q2 (by decide) (by decide)
      (by decide) (by decide) (by decide) (by decide) (by decide) hP hinv
  · exact stageInv_step 17944050 (-98460363) 36018836 1 _ _ 131072 P q1 q2 (by decide) (by decide)
      (by decide) (by decide) (by decide) (by decide) (by decide) hP hinv
  · exact stageInv_zero_row _ _ P q1 q2 (by decide) (by decide) hinv

/-- On every row of the second-order tables the second stage, fed sums of first-stage outputs,
keeps its outputs within `2^26` in magnitude. -/
theorem casc2_stage2_inv {freq : Nat} {P q1 q2 : Int} (hfreq : freq < 7)
    (hP : -4194304 ≤ P ∧ P ≤ 4194304)
    (hinv : StageInv (tab2 ac1_q27 freq 1) (tab2 ac1_q27 freq 2) (lyapK2 freq) 67108864 q1 q2) :
    StageInv (tab2 ac1_q27 freq 1) (tab2 ac1_q27 freq 2) (lyapK2 freq) 67108864
      ((tab2 bc1_q27 freq 0 * P - (tab2 ac1_q27 freq 1 * q1 + tab2 ac1_q27 freq 2 * q2) +
        67108864) / 134217728) q1 := by
  interval_cases freq
  · exact stageInv_step 12712 (-264715683) 130548801 72 _ _ 4194304 P q1 q2 (by decide) (by decide)
      (by decide) (by decide) (by decide) (by decide) (by decide) hP hinv
  · exact stageInv_step 77840 (-259138893) 125232525 28 _ _ 4194304 P q1 q2 (by decide) (by decide)
      (by decide) (by decide) (by decide) (by decide) (by decide) hP hinv
  · exact stageInv_step 300992 (-249866120) 116852362 14 _ _ 4194304 P q1 q2 (by decide) (by decide)
      (by decide) (by decide) (by decide) (by decide) (by decide) hP hinv
  · exact stageInv_step 1705053 (-222373757) 94976243 5 _ _ 4194304 P q1 q2 (by decide) (by decide)
      (by decide) (by decide) (by decide) (by decide) (by decide) hP hinv
  · exact stageInv_step 5853064 (-178322400) 67516929 3 _ _ 4194304 P q1 q2 (by decide) (by decide)
      (by decide) (by decide) (by decide) (by decide) (by decide) hP hinv
  · exact stageInv_step 17944050 (-98460363) 36018836 1 _ _ 4194304 P q1 q2 (by decide) (by decide)
      (by decide) (by decide) (by decide) (by decide) (by decide) hP hinv
  · exact stageInv_zero_row _ _ P q1 q2 (by decide) (by decide) hinv

/-! ## Cascaded second-order pair as a composition -/

theorem sec2_eq (b0 a1 a2 p p1 p2 q1 q2 : Int) :
    sec2 b0 a1 a2 p p1 p2 q1 q2 =
      (b0 * (p + 2 * p1 + p2) - (a1 * q1 + a2 * q2) + 67108864) / 134217728 := by
  unfold sec2
  norm_num

theorem stageInv_isInt32 {a1 a2 K B q1 q2 : Int} (h : StageInv a1 a2 K B q1 q2)
    (hB : B ≤ 2147483647) : isInt32 q1 ∧ isInt32 q2 := by
  obtain ⟨_, h1, h2⟩ := h
  unfold isInt32
  omega

theorem stage2_eq_sec2 {freq : Nat} {p p1 p2 q1 q2 : Int} (hfreq : freq < 7)
    (hp : isInt32 p) (hp1 : isInt32 p1) (hp2 : isInt32 p2) (hq1 : isInt32 q1)
    (hq2 : isInt32 q2) :
    stage2 (tab2 bc1_q27 freq 0) (tab2 ac1_q27 freq 1) (tab2 ac1_q27 freq 2) p p1 p2 q1 q2 =
      sec2 (tab2 bc1_q27 freq 0) (tab2 ac1_q27 freq 1) (tab2 ac1_q27 freq 2) p p1 p2 q1 q2 := by
  rw [sec2_eq]
  exact stage2_exact _ _ _ _ _ _ _ _ (casc2_acc_isInt64 hfreq hp hp1 hp2 hq1 hq2)

/-- A freshly seeded section satisfies the first-stage and the second-stage bound. -/
theorem stageInv_seed {freq : Nat} {x : Int} (hfreq : freq < 7) (hx : isInt16 x) :
    StageInv (tab2 ac1_q27 freq 1) (tab2 ac1_q27 freq 2) (lyapK1 freq) 1048576 x x ∧
    StageInv (tab2 ac1_q27 freq 1) (tab2 ac1_q27 freq 2) (lyapK2 freq) 67108864 x x := by
  unfold isInt16 at hx
  have hx2 : x * x ≤ 1073741824 := by nlinarith
  have hx0 : 0 ≤ x * x := mul_self_nonneg x
  unfold StageInv quad2
  interval_cases freq <;>
    simp only [tab2, ac1_q27, lyapK1, lyapK2, List.getD_cons_zero, List.getD_cons_succ] <;>
    refine ⟨⟨?_, ⟨?_, ?_⟩, ⟨?_, ?_⟩⟩, ⟨?_, ⟨?_, ?_⟩, ⟨?_, ?_⟩⟩⟩ <;> linarith

/-- One call of the cascaded second-order routine on a bounded seeded history: both stage
values are `sec2` of the registers, the registers age, and the bounds are kept. -/
theorem rate4_step_sec2 {axis freq dataRate : Nat} (hfreq : freq < 7) (s : Cascade2State)
    {x X1 X2 V1 V2 W1 W2 : Int} (hx : isInt16 x)
    (hregs : s.regs axis x X1 X2 V1 V2 W1 W2) (hX1 : isInt16 X1) (hX2 : isInt16 X2)
    (hV : StageInv (tab2 ac1_q27 freq 1) (tab2 ac1_q27 freq 2) (lyapK1 freq) 1048576 V1 V2)
    (hW : StageInv (tab2 ac1_q27 freq 1) (tab2 ac1_q27 freq 2) (lyapK2 freq) 67108864 W1 W2) :
    (_rateFilt_4thOrderBWF_LowPass_Axis_cascaded2nd s axis x freq dataRate).state.v_q27 CURR axis
        = sec2 (tab2 bc1_q27 freq 0) (tab2 ac1_q27 freq 1) (tab2 ac1_q27 freq 2)
            x X1 X2 V1 V2 ∧
    (_rateFilt_4thOrderBWF_LowPass_Axis_cascaded2nd s axis x freq dataRate).state.w_q27 CURR axis
        = sec2 (tab2 bc1_q27 freq 0) (tab2 ac1_q27 freq 1) (tab2 ac1_q27 freq 2)
            (sec2 (tab2 bc1_q27 freq 0) (tab2 ac1_q27 freq 1) (tab2 ac1_q27 freq 2)
              x X1 X2 V1 V2) V1 V2 W1 W2 ∧
    (∀ x0, (_rateFilt_4thOrderBWF_LowPass_Axis_cascaded2nd s axis x freq dataRate).state.regs
        axis x0 x X1
        (sec2 (tab2 bc1_q27 freq 0) (tab2 ac1_q27 freq 1) (tab2 ac1_q27 freq 2) x X1 X2 V1 V2) V1
        (sec2 (tab2 bc1_q27 freq 0) (tab2 ac1_q27 freq 1) (tab2 ac1_q27 freq 2)
          (sec2 (tab2 bc1_q27 freq 0) (tab2 ac1_q27 freq 1) (tab2 ac1_q27 freq 2)
            x X1 X2 V1 V2) V1 V2 W1 W2) W1) ∧
    StageInv (tab2 ac1_q27 freq 1) (tab2 ac1_q27 freq 2) (lyapK1 freq) 1048576
      (sec2 (tab2 bc1_q27 freq 0) (tab2 ac1_q27 freq 1) (tab2 ac1_q27 freq 2) x X1 X2 V1 V2) V1 ∧
    StageInv (tab2 ac1_q27 freq 1) (tab2 ac1_q27 freq 2) (lyapK2 freq) 67108864
      (sec2 (tab2 bc1_q27 freq 0) (tab2 ac1_q27 freq 1) (tab2 ac1_q27 freq 2)
        (sec2 (tab2 bc1_q27 freq 0) (tab2 ac1_q27 freq 1) (tab2 ac1_q27 freq 2)
          x X1 X2 V1 V2) V1 V2 W1 W2) W1 := by
  obtain ⟨r1, r2, r3, r4, r5, r6⟩ := hregs
  have hV32 := stageInv_isInt32 hV (by decide)
  have hW32 := stageInv_isInt32 hW (by decide)
  have hx32 := isInt32_of_isInt16 hx
  have hX1' := isInt32_of_isInt16 hX1
  have hX2' := isInt32_of_isInt16 hX2
  -- first stage
  have hv : casc2V s axis x freq = sec2 (tab2 bc1_q27 freq 0) (tab2 ac1_q27 freq 1)
      (tab2 ac1_q27 freq 2) x X1 X2 V1 V2 := by
    unfold casc2V
    rw [r1, r2, r3, r4]
    exact stage2_eq_sec2 hfreq hx32 hX1' hX2' hV32.1 hV32.2
  have hP1 : -131072 ≤ x + 2 * X1 + X2 ∧ x + 2 * X1 + X2 ≤ 131072 := by
    unfold isInt16 at hx hX1 hX2
    omega
  have hV1 := casc2_stage1_inv hfreq hP1 hV
  rw [← sec2_eq] at hV1
  have hv32 := (stageInv_isInt32 hV1 (by decide)).1
  -- second stage
  have hw : casc2W s axis x freq = sec2 (tab2 bc1_q27 freq 0) (tab2 ac1_q27 freq 1)
      (tab2 ac1_q27 freq 2)
      (sec2 (tab2 bc1_q27 freq 0) (tab2 ac1_q27 freq 1) (tab2 ac1_q27 freq 2) x X1 X2 V1 V2)
      V1 V2 W1 W2 := by
    unfold casc2W
    rw [hv, r3, r4, r5, r6]
    exact stage2_eq_sec2 hfreq hv32 hV32.1 hV32.2 hW32.1 hW32.2
  have hP2 : -4194304 ≤
      sec2 (tab2 bc1_q27 freq 0) (tab2 ac1_q27 freq 1) (tab2 ac1_q27 freq 2) x X1 X2 V1 V2 +
        2 * V1 + V2 ∧
      sec2 (tab2 bc1_q27 freq 0) (tab2 ac1_q27 freq 1) (tab2 ac1_q27 freq 2) x X1 X2 V1 V2 +
        2 * V1 + V2 ≤ 4194304 := by
    obtain ⟨_, h1, _⟩ := hV1
    obtain ⟨_, h2, h3⟩ := hV
    omega
  have hW1 := casc2_stage2_inv hfreq hP2 hW
  rw [← sec2_eq] at hW1
  rw [rate4_normal_form]
  refine ⟨?_, ?_, fun x0 => ?_, hV1, hW1⟩
  · simp [CURR, hv]
  · simp [CURR, hw]
  · unfold Cascade2State.regs
    simp [seedv, hv, hw, r1, r3, r5]
    exact ⟨by simpa [seedv] using r1, by simpa [seedv] using r3, by simpa [seedv] using r5⟩

theorem runCalls_cons {σ : Type} (f : Routine σ) (s : σ) (c : Call) (cs : List Call) :
    runCalls f s (c :: cs) =
      f s c.axis c.inp c.freq c.dataRate ::
        runCalls f (f s c.axis c.inp c.freq c.dataRate).state cs := rfl

/-- From statics whose seeded history is bounded, the cascaded second-order routine fed
16-bit samples on one axis computes the two section streams. -/
theorem rate4_run_sec2 {axis freq dataRate : Nat} (hfreq : freq < 7) :
    ∀ (xs : List Int) (s : Cascade2State) (X1 X2 V1 V2 W1 W2 : Int),
      (∀ x ∈ xs, isInt16 x) →
      (∀ x0, xs.head? = some x0 → s.regs axis x0 X1 X2 V1 V2 W1 W2) →
      isInt16 X1 → isInt16 X2 →
      StageInv (tab2 ac1_q27 freq 1) (tab2 ac1_q27 freq 2) (lyapK1 freq) 1048576 V1 V2 →
      StageInv (tab2 ac1_q27 freq 1) (tab2 ac1_q27 freq 2) (lyapK2 freq) 67108864 W1 W2 →
      (runCalls _rateFilt_4thOrderBWF_LowPass_Axis_cascaded2nd s
          (feedAxis axis freq dataRate xs)).map (fun r => r.state.v_q27 CURR axis) =
        sec2Run (tab2 bc1_q27 freq 0) (tab2 ac1_q27 freq 1) (tab2 ac1_q27 freq 2)
          X1 X2 V1 V2 xs ∧
      (runCalls _rateFilt_4thOrderBWF_LowPass_Axis_cascaded2nd s
          (feedAxis axis freq dataRate xs)).map (fun r => r.state.w_q27 CURR axis) =
        sec2Run (tab2 bc1_q27 freq 0) (tab2 ac1_q27 freq 1) (tab2 ac1_q27 freq 2)
          V1 V2 W1 W2
          (sec2Run (tab2 bc1_q27 freq 0) (tab2 ac1_q27 freq 1) (tab2 ac1_q27 freq 2)
            X1 X2 V1 V2 xs) := by
  intro xs
  induction xs with
  | nil =>
    intro s X1 X2 V1 V2 W1 W2 _ _ _ _ _ _
    simp [feedAxis, runCalls, sec2Run]
  | cons x rest ih =>
    intro s X1 X2 V1 V2 W1 W2 hxs hregs hX1 hX2 hV hW
    have hx : isInt16 x := hxs x (List.mem_cons_self _ _)
    have hrest : ∀ y ∈ rest, isInt16 y := fun y hy => hxs y (List.mem_cons_of_mem _ hy)
    obtain ⟨hv, hw, hregs1, hV1, hW1⟩ :=
      @rate4_step_sec2 axis freq dataRate hfreq s _ _ _ _ _ _ _ hx (hregs x rfl) hX1 hX2 hV hW
    obtain ⟨ih1, ih2⟩ := ih _ _ _ _ _ _ _ hrest (fun x0 _ => hregs1 x0) hx hX1 hV1 hW1
    simp only [feedAxis, List.map_cons, runCalls_cons, sec2Run] at ih1 ih2 ⊢
    rw [hv, hw]
    exact ⟨by rw [ih1], by rw [ih2]⟩

/-- C4. The cascaded second-order pair is the composition of two identical sections: for
both cascaded second-order routines, every axis below 3, every `freq` below 7 and every
finite sequence `x` of `int16_t` samples fed to one axis of a fresh filter, the first-stage
value of every call is the corresponding element of `S(x_1)` applied to `x` and the computed
value of every call is the corresponding element of `S(x_1)` applied to the output stream of
`S(x_1)` applied to `x`, where `S(seed)` is the second-order section with
`b0 = bc1_q27[freq][0]`, `a1 = ac1_q27[freq][1]`, `a2 = ac1_q27[freq][2]` whose registers
start at `seed` and which emits
`floor((b0*(p + 2*p1 + p2) - (a1*q1 + a2*q2) + 2^26) / 2^27)`. -/
theorem cascaded_second_order_composition (axis freq dataRate : Nat) (xs : List Int)
    (haxis : axis < 3) (hfreq : freq < 7) (hxs : ∀ x ∈ xs, isInt16 x) :
    Cascade2Composition _rateFilt_4thOrderBWF_LowPass_Axis_cascaded2nd axis freq dataRate xs ∧
    Cascade2Composition _accel_4thOrderBWF_LowPass_Axis_cascaded2nd axis freq dataRate xs := by
  rw [accel4_eq_rate4]
  have main : Cascade2Composition _rateFilt_4thOrderBWF_LowPass_Axis_cascaded2nd axis freq
      dataRate xs := by
    unfold Cascade2Composition sectionStream
    cases xs with
    | nil => simp [feedAxis, runCalls, sec2Run]
    | cons x rest =>
      have hx : isInt16 x := hxs x (List.mem_cons_self _ _)
      have hseed := stageInv_seed hfreq hx
      have hregs : ∀ x0, (x :: rest).head? = some x0 →
          Cascade2State.init.regs axis x0 x x x x x x := by
        intro x0 h0
        simp only [List.head?_cons, Option.some.injEq] at h0
        subst h0
        simp [Cascade2State.regs, Cascade2State.init, seedv]
      exact rate4_run_sec2 hfreq (x :: rest) Cascade2State.init x x x x x x hxs hregs hx hx
        hseed.1 hseed.2
  exact ⟨main, main⟩

/-- The composition on the four samples 1000, -2000, 30000, -32768 fed to axis 1 on row 4
(50 Hz), with the values computed. -/
theorem cascaded_second_order_composition_witness :
    (1 < 3 ∧ 4 < 7 ∧ ∀ x ∈ [1000, -2000, 30000, -32768], isInt16 x) ∧
    Cascade2Composition _accel_4thOrderBWF_LowPass_Axis_cascaded2nd 1 4 0
      [1000, -2000, 30000, -32768] ∧
    (runCalls _accel_4thOrderBWF_LowPass_Axis_cascaded2nd Cascade2State.init
      (feedAxis 1 4 0 [1000, -2000, 30000, -32768])).map (fun r => r.state.w_q27 CURR 1) =
      [1000, 994, 1017, 1183] :=
  ⟨by decide,
   (cascaded_second_order_composition 1 4 0 [1000, -2000, 30000, -32768] (by decide)
      (by decide) (by decide)).2,
   by decide⟩

/-! ## The shared warm-up counter -/

/-- The result of the call at position `i` of a run is the routine applied to the statics
left by the calls before it. -/
theorem runCalls_getElem? {σ : Type} (f : Routine σ) :
    ∀ (calls : List Call) (s : σ) (i : Nat) (c : Call), calls[i]? = some c →
      (runCalls f s calls)[i]? =
        some (f (stateAfter f s (calls.take i)) c.axis c.inp c.freq c.dataRate) := by
  intro calls
  induction calls with
  | nil => intro s i c h; simp at h
  | cons d ds ih =>
    intro s i c h
    cases i with
    | zero =>
      simp only [List.getElem?_cons_zero, Option.some.injEq] at h
      subst h
      simp [runCalls, stateAfter]
    | succ j =>
      simp only [List.getElem?_cons_succ] at h
      simp only [runCalls, List.getElem?_cons_succ, List.take_succ_cons, stateAfter]
      exact ih _ j c h

theorem runCalls_length {σ : Type} (f : Routine σ) :
    ∀ (calls : List Call) (s : σ), (runCalls f s calls).length = calls.length := by
  intro calls
  induction calls with
  | nil => intro s; rfl
  | cons d ds ih => intro s; simp [runCalls, ih]

/-- A counter that every call advances by one until it passes 40 equals, after a run from
0, the number of calls made, capped at 41. -/
theorem count_stateAfter {σ : Type} (f : Routine σ) (count : σ → Nat)
    (hcount : ∀ (s : σ) (axis : Nat) (inp : Int) (freq dataRate : Nat),
      count (f s axis inp freq dataRate).state =
        if 40 < count s then count s else toUInt8 (count s + 1)) :
    ∀ (calls : List Call) (s : σ), count s ≤ 41 →
      count (stateAfter f s calls) = min (count s + calls.length) 41 := by
  intro calls
  induction calls with
  | nil => intro s hs; simp [stateAfter, hs]
  | cons d ds ih =>
    intro s hs
    have h1 := hcount s d.axis d.inp d.freq d.dataRate
    have h2 : count (f s d.axis d.inp d.freq d.dataRate).state ≤ 41 := by
      rw [h1]
      unfold toUInt8
      split_ifs <;> omega
    simp only [stateAfter, List.length_cons]
    rw [ih _ h2, h1]
    unfold toUInt8
    split_ifs <;> omega

theorem settledByCallCount_of_step {σ : Type} (f : Routine σ) (count : σ → Nat) (init : σ)
    (h0 : count init = 0)
    (hret : ∀ (s : σ) (axis : Nat) (inp : Int) (freq dataRate : Nat),
      (f s axis inp freq dataRate).ret = if 40 < count s then 1 else 0)
    (hcount : ∀ (s : σ) (axis : Nat) (inp : Int) (freq dataRate : Nat),
      count (f s axis inp freq dataRate).state =
        if 40 < count s then count s else toUInt8 (count s + 1))
    (calls : List Call) : SettledByCallCount f init calls := by
  intro i r hr
  have hi : i < calls.length := by
    have := List.getElem?_eq_some_iff.mp hr
    obtain ⟨h, _⟩ := this
    rw [runCalls_length] at h
    exact h
  have hc : calls[i]? = some calls[i] := List.getElem?_eq_getElem hi
  rw [runCalls_getElem? f calls init i _ hc] at hr
  simp only [Option.some.injEq] at hr
  rw [← hr, hret, count_stateAfter f count hcount _ init (by omega), h0]
  simp only [List.length_take]
  split_ifs <;> omega

theorem accel3_ret_count (s : DirectState) (axis : Nat) (inp : Int) (freq dataRate : Nat) :
    (_accelFilt_3rdOrderBWF_LowPass_Axis s axis inp freq dataRate).ret =
        (if 40 < s.calledCount then 1 else 0) ∧
    (_accelFilt_3rdOrderBWF_LowPass_Axis s axis inp freq dataRate).state.calledCount =
        (if 40 < s.calledCount then s.calledCount else toUInt8 (s.calledCount + 1)) := by
  rw [accel3_normal_form]
  exact ⟨rfl, rfl⟩

theorem rate4_ret_count (s : Cascade2State) (axis : Nat) (inp : Int) (freq dataRate : Nat) :
    (_rateFilt_4thOrderBWF_LowPass_Axis_cascaded2nd s axis inp freq dataRate).ret =
        (if 40 < s.calledCount then 1 else 0) ∧
    (_rateFilt_4thOrderBWF_LowPass_Axis_cascaded2nd s axis inp freq dataRate).state.calledCount =
        (if 40 < s.calledCount then s.calledCount else toUInt8 (s.calledCount + 1)) := by
  rw [rate4_normal_form]
  exact ⟨rfl, rfl⟩

theorem rate1_ret_count (s : Cascade1State) (axis : Nat) (inp : Int) (freq dataRate : Nat) :
    (_rateFilt_3rdOrderBWF_LowPass_Axis_cascaded1st s axis inp freq dataRate).ret =
        (if 40 < s.calledCount then 1 else 0) ∧
    (_rateFilt_3rdOrderBWF_LowPass_Axis_cascaded1st s axis inp freq dataRate).state.calledCount =
        (if 40 < s.calledCount then s.calledCount else toUInt8 (s.calledCount + 1)) := by
  rw [rate1_normal_form]
  exact ⟨rfl, rfl⟩

/-- The statics and the result of the first call for axis 1 made after 41 calls for axis 0:
the counter stands at 41 and the flag of axis 1 is still set. -/
theorem first_call_after_warmup {σ : Type} (f : Routine σ) (count : σ → Nat)
    (flag : σ → Nat → Nat) (init : σ) (h0 : count init = 0)
    (hcount : ∀ (s : σ) (axis : Nat) (inp : Int) (freq dataRate : Nat),
      count (f s axis inp freq dataRate).state =
        if 40 < count s then count s else toUInt8 (count s + 1))
    (hflag : FlagSetUntilFirstCall f flag init)
    (pre : List Call) (hlen : pre.length = 41) (hpre : ∀ c ∈ pre, c.axis = 0)
    (s : Int) (freq dataRate : Nat) :
    (runCalls f init
      (pre ++ [{ axis := 1, inp := s, freq := freq, dataRate := dataRate }]))[pre.length]?
        = some (f (stateAfter f init pre) 1 s freq dataRate) ∧
    count (stateAfter f init pre) = 41 ∧ flag (stateAfter f init pre) 1 = 1 := by
  refine ⟨?_, ?_, ?_⟩
  · have h := runCalls_getElem? f
      (pre ++ [{ axis := 1, inp := s, freq := freq, dataRate := dataRate }]) init pre.length
      { axis := 1, inp := s, freq := freq, dataRate := dataRate } (by simp)
    simpa using h
  · rw [count_stateAfter f count hcount pre init (by omega), h0, hlen]
    rfl
  · apply hflag
    intro c hc
    rw [hpre c hc]
    decide

theorem accel3_settledFirstCall (pre : List Call) (hlen : pre.length = 41)
    (hpre : ∀ c ∈ pre, c.axis = 0) (s : Int) (freq dataRate : Nat) :
    SettledFirstCall _accelFilt_3rdOrderBWF_LowPass_Axis DirectState.init pre s freq dataRate
      (directY0 (tab3 a_q27 3 dataRate freq) (tab3 a_q27 2 dataRate freq)
        (tab3 a_q27 1 dataRate freq) (tab3 b_q27 0 dataRate freq) s s s s s s s) := by
  obtain ⟨h1, h2, h3⟩ := first_call_after_warmup _accelFilt_3rdOrderBWF_LowPass_Axis
    DirectState.calledCount DirectState.initFilt DirectState.init rfl
    (fun s axis inp freq dataRate => (accel3_ret_count s axis inp freq dataRate).2)
    accel3_flags.2 pre hlen hpre s freq dataRate
  refine ⟨_, h1, ?_, ?_⟩
  · rw [(accel3_ret_count _ _ _ _ _).1, h2]
    rfl
  · rw [accel3_normal_form]
    simp [h2, directValue, seedv, h3]

theorem rate4_settledFirstCall (pre : List Call) (hlen : pre.length = 41)
    (hpre : ∀ c ∈ pre, c.axis = 0) (s : Int) (freq dataRate : Nat) :
    SettledFirstCall _rateFilt_4thOrderBWF_LowPass_Axis_cascaded2nd Cascade2State.init pre s
      freq dataRate
      (stage2 (tab2 bc1_q27 freq 0) (tab2 ac1_q27 freq 1) (tab2 ac1_q27 freq 2)
        (stage2 (tab2 bc1_q27 freq 0) (tab2 ac1_q27 freq 1) (tab2 ac1_q27 freq 2) s s s s s)
        s s s s) := by
  obtain ⟨h1, h2, h3⟩ := first_call_after_warmup _rateFilt_4thOrderBWF_LowPass_Axis_cascaded2nd
    Cascade2State.calledCount Cascade2State.initFilt Cascade2State.init rfl
    (fun s axis inp freq dataRate => (rate4_ret_count s axis inp freq dataRate).2)
    rate4_flags.2 pre hlen hpre s freq dataRate
  refine ⟨_, h1, ?_, ?_⟩
  · rw [(rate4_ret_count _ _ _ _ _).1, h2]
    rfl
  · rw [rate4_normal_form]
    simp [h2, casc2W, casc2V, seedv, h3]

theorem rate1_settledFirstCall (pre : List Call) (hlen : pre.length = 41)
    (hpre : ∀ c ∈ pre, c.axis = 0) (s : Int) (freq dataRate : Nat) :
    SettledFirstCall _rateFilt_3rdOrderBWF_LowPass_Axis_cascaded1st Cascade1State.init pre s
      freq dataRate
      (stage1 (tab2 bc2_q27 freq 0) (tab2 ac2_q27 freq 1)
        (stage1 (tab2 bc2_q27 freq 0) (tab2 ac2_q27 freq 1)
          (stage1 (tab2 bc2_q27 freq 0) (tab2 ac2_q27 freq 1) s s s) s s) s s) := by
  obtain ⟨h1, h2, h3⟩ := first_call_after_warmup _rateFilt_3rdOrderBWF_LowPass_Axis_cascaded1st
    Cascade1State.calledCount Cascade1State.initFilt Cascade1State.init rfl
    (fun s axis inp freq dataRate => (rate1_ret_count s axis inp freq dataRate).2)
    rate1_flags.2 pre hlen hpre s freq dataRate
  refine ⟨_, h1, ?_, ?_⟩
  · rw [(rate1_ret_count _ _ _ _ _).1, h2]
    rfl
  · rw [rate1_normal_form]
    simp [h2, casc1W, casc1V, casc1U, seedv, h3]

/-- C11. The warm-up counter is shared by all axes of a filter routine: in every run from
the initial statics the settled flag of a call depends only on the number of calls made
before it (0 for the first 41 calls, 1 afterwards), not on the axes addressed; in
particular after 41 calls made only for axis 0 the first call ever made for axis 1 returns
settled and delivers, cast to `int32_t`, the value the recurrence computes from the history
of axis 1 freshly seeded with its sample, not the raw input. -/
theorem warmup_counter_shared_by_axes (calls pre : List Call) (s : Int) (freq dataRate : Nat)
    (hlen : pre.length = 41) (hpre : ∀ c ∈ pre, c.axis = 0) :
    (SettledByCallCount _accelFilt_3rdOrderBWF_LowPass_Axis DirectState.init calls ∧
      SettledFirstCall _accelFilt_3rdOrderBWF_LowPass_Axis DirectState.init pre s freq dataRate
        (directY0 (tab3 a_q27 3 dataRate freq) (tab3 a_q27 2 dataRate freq)
          (tab3 a_q27 1 dataRate freq) (tab3 b_q27 0 dataRate freq) s s s s s s s)) ∧
    (SettledByCallCount _rateFilt_3rdOrderBWF_LowPass_Axis DirectState.init calls ∧
      SettledFirstCall _rateFilt_3rdOrderBWF_LowPass_Axis DirectState.init pre s freq dataRate
        (directY0 (tab3 a_q27 3 dataRate freq) (tab3 a_q27 2 dataRate freq)
          (tab3 a_q27 1 dataRate freq) (tab3 b_q27 0 dataRate freq) s s s s s s s)) ∧
    (SettledByCallCount _rateFilt_4thOrderBWF_LowPass_Axis_cascaded2nd Cascade2State.init
        calls ∧
      SettledFirstCall _rateFilt_4thOrderBWF_LowPass_Axis_cascaded2nd Cascade2State.init pre s
        freq dataRate
        (stage2 (tab2 bc1_q27 freq 0) (tab2 ac1_q27 freq 1) (tab2 ac1_q27 freq 2)
          (stage2 (tab2 bc1_q27 freq 0) (tab2 ac1_q27 freq 1) (tab2 ac1_q27 freq 2) s s s s s)
          s s s s)) ∧
    (SettledByCallCount _accel_4thOrderBWF_LowPass_Axis_cascaded2nd Cascade2State.init calls ∧
      SettledFirstCall _accel_4thOrderBWF_LowPass_Axis_cascaded2nd Cascade2State.init pre s
        freq dataRate
        (stage2 (tab2 bc1_q27 freq 0) (tab2 ac1_q27 freq 1) (tab2 ac1_q27 freq 2)
          (stage2 (tab2 bc1_q27 freq 0) (tab2 ac1_q27 freq 1) (tab2 ac1_q27 freq 2) s s s s s)
          s s s s)) ∧
    (SettledByCallCount _rateFilt_3rdOrderBWF_LowPass_Axis_cascaded1st Cascade1State.init
        calls ∧
      SettledFirstCall _rateFilt_3rdOrderBWF_LowPass_Axis_cascaded1st Cascade1State.init pre s
        freq dataRate
        (stage1 (tab2 bc2_q27 freq 0) (tab2 ac2_q27 freq 1)
          (stage1 (tab2 bc2_q27 freq 0) (tab2 ac2_q27 freq 1)
            (stage1 (tab2 bc2_q27 freq 0) (tab2 ac2_q27 freq 1) s s s) s s) s s)) ∧
    (SettledByCallCount _accelFilt_3rdOrderBWF_LowPass_Axis_cascaded1st Cascade1State.init
        calls ∧
      SettledFirstCall _accelFilt_3rdOrderBWF_LowPass_Axis_cascaded1st Cascade1State.init pre s
        freq dataRate
        (stage1 (tab2 bc2_q27 freq 0) (tab2 ac2_q27 freq 1)
          (stage1 (tab2 bc2_q27 freq 0) (tab2 ac2_q27 freq 1)
            (stage1 (tab2 bc2_q27 freq 0) (tab2 ac2_q27 freq 1) s s s) s s) s s)) := by
  rw [rate3_eq_accel3, accel4_eq_rate4, accel1_eq_rate1]
  have a3 := settledByCallCount_of_step _accelFilt_3rdOrderBWF_LowPass_Axis
    DirectState.calledCount DirectState.init rfl
    (fun s axis inp freq dataRate => (accel3_ret_count s axis inp freq dataRate).1)
    (fun s axis inp freq dataRate => (accel3_ret_count s axis inp freq dataRate).2) calls
  have r4 := settledByCallCount_of_step _rateFilt_4thOrderBWF_LowPass_Axis_cascaded2nd
    Cascade2State.calledCount Cascade2State.init rfl
    (fun s axis inp freq dataRate => (rate4_ret_count s axis inp freq dataRate).1)
    (fun s axis inp freq dataRate => (rate4_ret_count s axis inp freq dataRate).2) calls
  have r1 := settledByCallCount_of_step _rateFilt_3rdOrderBWF_LowPass_Axis_cascaded1st
    Cascade1State.calledCount Cascade1State.init rfl
    (fun s axis inp freq dataRate => (rate1_ret_count s axis inp freq dataRate).1)
    (fun s axis inp freq dataRate => (rate1_ret_count s axis inp freq dataRate).2) calls
  have b3 := accel3_settledFirstCall pre hlen hpre s freq dataRate
  have b4 := rate4_settledFirstCall pre hlen hpre s freq dataRate
  have b1 := rate1_settledFirstCall pre hlen hpre s freq dataRate
  exact ⟨⟨a3, b3⟩, ⟨a3, b3⟩, ⟨r4, b4⟩, ⟨r4, b4⟩, ⟨r1, b1⟩, ⟨r1, b1⟩⟩

/-- The shared counter after 41 calls for axis 0 with sample 7: the first call for axis 1,
with sample -300 on row 2, is settled. -/
theorem warmup_counter_shared_by_axes_witness :
    ((List.replicate 41 ({ axis := 0, inp := 7, freq := 2, dataRate := 0 } : Call)).length = 41 ∧
      ∀ c ∈ List.replicate 41 ({ axis := 0, inp := 7, freq := 2, dataRate := 0 } : Call),
        c.axis = 0) ∧
    SettledFirstCall _accelFilt_3rdOrderBWF_LowPass_Axis DirectState.init
      (List.replicate 41 { axis := 0, inp := 7, freq := 2, dataRate := 0 }) (-300) 2 0
      (directY0 (tab3 a_q27 3 0 2) (tab3 a_q27 2 0 2) (tab3 a_q27 1 0 2) (tab3 b_q27 0 0 2)
        (-300) (-300) (-300) (-300) (-300) (-300) (-300)) :=
  ⟨⟨by decide, by decide⟩,
   (warmup_counter_shared_by_axes []
      (List.replicate 41 { axis := 0, inp := 7, freq := 2, dataRate := 0 }) (-300) 2 0
      (by decide) (by decide)).1.2⟩

/-! ## Absence of 64-bit overflow in the direct form -/

theorem isInt64_of_below63 {z : Int} (h : below63 z) : isInt64 z := by
  unfold below63 at h
  unfold isInt64
  omega

/-- With `int16_t` inputs and `int32_t` fed-back outputs no intermediate of a direct-form
call reaches `2^63` in magnitude, on any row of the tables. -/
theorem direct_noWrap {freq dataRate : Nat} {inp x1 x2 x3 y1 y2 y3 : Int}
    (hfreq : freq < 7) (hrate : dataRate < 2) (hin : isInt16 inp)
    (hx1 : isInt16 x1) (hx2 : isInt16 x2) (hx3 : isInt16 x3)
    (hy1 : isInt32 y1) (hy2 : isInt32 y2) (hy3 : isInt32 y3) :
    DirectNoWrap (tab3 a_q27 3 dataRate freq) (tab3 a_q27 2 dataRate freq)
      (tab3 a_q27 1 dataRate freq) (tab3 b_q27 0 dataRate freq) inp x1 x2 x3 y1 y2 y3 := by
  have hb : below63 (tab3 a_q27 3 dataRate freq * y3) ∧
      below63 (tab3 a_q27 2 dataRate freq * y2) ∧
      below63 (tab3 a_q27 1 dataRate freq * y1) ∧
      below63 (tab3 a_q27 3 dataRate freq * y3 + tab3 a_q27 2 dataRate freq * y2) ∧
      below63 (tab3 a_q27 3 dataRate freq * y3 + tab3 a_q27 2 dataRate freq * y2 +
        tab3 a_q27 1 dataRate freq * y1) ∧
      below63 (inp + x3) ∧ below63 (x1 + x2) ∧ below63 (3 * (x1 + x2)) ∧
      below63 (inp + x3 + 3 * (x1 + x2)) ∧
      below63 (tab3 b_q27 0 dataRate freq * (inp + x3 + 3 * (x1 + x2))) ∧
      below63 (tab3 b_q27 0 dataRate freq * (inp + x3 + 3 * (x1 + x2)) -
        (tab3 a_q27 3 dataRate freq * y3 + tab3 a_q27 2 dataRate freq * y2 +
          tab3 a_q27 1 dataRate freq * y1)) ∧
      below63 (tab3 b_q27 0 dataRate freq * (inp + x3 + 3 * (x1 + x2)) -
        (tab3 a_q27 3 dataRate freq * y3 + tab3 a_q27 2 dataRate freq * y2 +
          tab3 a_q27 1 dataRate freq * y1) + 67108864) := by
    unfold isInt16 at hin hx1 hx2 hx3
    unfold isInt32 at hy1 hy2 hy3
    unfold below63
    interval_cases freq <;> interval_cases dataRate <;>
      simp only [tab3, a_q27, b_q27, List.getD_cons_zero, List.getD_cons_succ] <;>
      refine ⟨?_, ?_, ?_, ?_, ?_, ?_, ?_, ?_, ?_, ?_, ?_, ?_⟩ <;> omega
  obtain ⟨h1, h2, h3, h4, h5, h6, h7, h8, h9, h10, h11, h12⟩ := hb
  refine ⟨h1, h2, h3, h4, h5, h6, h7, h8, h9, h10, h11, h12, ?_, ?_, ?_⟩
  · unfold directTmpOut add64 mul64
    simp only [toInt64_add_left, toInt64_add_right, toInt64_mul_left, toInt64_mul_right]
    exact toInt64_of_isInt64 (isInt64_of_below63 h5)
  · unfold directTmpIn add64 mul64
    simp only [toInt64_add_left, toInt64_add_right, toInt64_mul_left, toInt64_mul_right]
    exact toInt64_of_isInt64 (isInt64_of_below63 h10)
  · unfold directY0 roundShift27 directTmpIn directTmpOut add64 sub64 mul64 ONE_HALF_Q27
    simp only [toInt64_add_left, toInt64_add_right, toInt64_sub_left, toInt64_sub_right,
      toInt64_mul_left, toInt64_mul_right]
    rw [shiftRight27, toInt64_of_isInt64 (isInt64_of_below63 h12)]

/-- C12. No 64-bit overflow in the direct-form filters: for both direct-form routines, in
every statics reachable from the initial statics by calls with axis below 3, `freq` below 7,
`dataRate` below 2 and `int16_t` inputs, every past-input slot holds an `int16_t` value and
every past-output slot an `int32_t` value, and consequently every product, every partial sum
and the final `tmp_in - tmp_out + 2^26` of the next call have magnitude below `2^63`, so
that the 64-bit arithmetic computes the exact values. -/
theorem direct_form_no_overflow (calls : List Call) (axis freq dataRate : Nat) (inp : Int)
    (hcalls : ∀ c ∈ calls, c.axis < 3 ∧ c.freq < 7 ∧ c.dataRate < 2 ∧ isInt16 c.inp)
    (haxis : axis < 3) (hfreq : freq < 7) (hrate : dataRate < 2) (hin : isInt16 inp) :
    DirectOverflowFree _accelFilt_3rdOrderBWF_LowPass_Axis calls axis inp freq dataRate ∧
    DirectOverflowFree _rateFilt_3rdOrderBWF_LowPass_Axis calls axis inp freq dataRate := by
  rw [rate3_eq_accel3]
  have hr := (accel3_ranged_reachable calls (fun c hc => (hcalls c hc).2.2.2)).1
  have h1 := hr axis 1 (Or.inl rfl)
  have h2 := hr axis 2 (Or.inr (Or.inl rfl))
  have h3 := hr axis 3 (Or.inr (Or.inr rfl))
  have main : DirectOverflowFree _accelFilt_3rdOrderBWF_LowPass_Axis calls axis inp freq
      dataRate :=
    ⟨hr, direct_noWrap hfreq hrate hin (seedv_isInt16 hin h1.1) (seedv_isInt16 hin h2.1)
      (seedv_isInt16 hin h3.1) (seedv_isInt32 hin h1.2) (seedv_isInt32 hin h2.2)
      (seedv_isInt32 hin h3.2)⟩
  exact ⟨main, main⟩

/-- Absence of overflow at the call that follows two calls with extreme samples on axis 0. -/
theorem direct_form_no_overflow_witness :
    ((∀ c ∈ [({ axis := 0, inp := -32768, freq := 6, dataRate := 0 } : Call),
        { axis := 0, inp := 32767, freq := 6, dataRate := 0 }],
        c.axis < 3 ∧ c.freq < 7 ∧ c.dataRate < 2 ∧ isInt16 c.inp) ∧
      0 < 3 ∧ 6 < 7 ∧ 0 < 2 ∧ isInt16 (-32768)) ∧
    DirectOverflowFree _accelFilt_3rdOrderBWF_LowPass_Axis
      [{ axis := 0, inp := -32768, freq := 6, dataRate := 0 },
       { axis := 0, inp := 32767, freq := 6, dataRate := 0 }] 0 (-32768) 6 0 :=
  ⟨by decide,
   (direct_form_no_overflow
      [{ axis := 0, inp := -32768, freq := 6, dataRate := 0 },
       { axis := 0, inp := 32767, freq := 6, dataRate := 0 }] 0 6 0 (-32768)
      (by decide) (by decide) (by decide) (by decide) (by decide)).1⟩

/-! ## Zero rows -/

theorem stage1_zero (p p1 q1 : Int) : stage1 0 0 p p1 q1 = 0 := by
  unfold stage1 roundShift27 stage1TmpIn stage1TmpOut add64 sub64 mul64
  simp only [zero_mul, sub_self]
  decide

theorem stage2_zero (p p1 p2 q1 q2 : Int) : stage2 0 0 0 p p1 p2 q1 q2 = 0 := by
  unfold stage2 roundShift27 stage2TmpIn stage2TmpOut add64 sub64 mul64
  simp only [zero_mul]
  decide

theorem rate1_zero_row (s : Cascade1State) (axis : Nat) (inp : Int) (dataRate : Nat) :
    Cascade1ZeroRow _rateFilt_3rdOrderBWF_LowPass_Axis_cascaded1st s axis inp dataRate := by
  have e0 : tab2 bc2_q27 0 0 = 0 := rfl
  have e1 : tab2 ac2_q27 0 1 = 0 := rfl
  have hu : casc1U s axis inp 0 = 0 := by
    unfold casc1U
    rw [e0, e1]
    exact stage1_zero _ _ _
  have hv : casc1V s axis inp 0 = 0 := by
    unfold casc1V
    rw [e0, e1]
    exact stage1_zero _ _ _
  have hw : casc1W s axis inp 0 = 0 := by
    unfold casc1W
    rw [e0, e1]
    exact stage1_zero _ _ _
  unfold Cascade1ZeroRow
  rw [rate1_normal_form]
  refine ⟨by simp [CURR, hu], by simp [CURR, hv], by simp [CURR, hw], fun hc => ?_⟩
  simp only [hc, if_true, hw]
  exact ⟨trivial, by decide⟩

theorem rate4_zero_row (s : Cascade2State) (axis : Nat) (inp : Int) (dataRate : Nat) :
    Cascade2ZeroRow _rateFilt_4thOrderBWF_LowPass_Axis_cascaded2nd s axis inp dataRate := by
  have e0 : tab2 bc1_q27 6 0 = 0 := rfl
  have e1 : tab2 ac1_q27 6 1 = 0 := rfl
  have e2 : tab2 ac1_q27 6 2 = 0 := rfl
  have hv : casc2V s axis inp 6 = 0 := by
    unfold casc2V
    rw [e0, e1, e2]
    exact stage2_zero _ _ _ _ _
  have hw : casc2W s axis inp 6 = 0 := by
    unfold casc2W
    rw [e0, e1, e2]
    exact stage2_zero _ _ _ _ _
  unfold Cascade2ZeroRow
  rw [rate4_normal_form]
  refine ⟨by simp [CURR, hv], by simp [CURR, hw], fun hc => ?_⟩
  simp only [hc, if_true, hw]
  exact ⟨trivial, by decide⟩

/-- C20. An all-zero coefficient row forces the output to zero: with `freq = 0` (the row
labelled "unfiltered") in either cascaded first-order routine and with `freq = 6` (the row
of the `[7][3]` tables without initialiser) in either cascaded second-order routine, every
stage value computed by a call is 0 for every `int16_t` input and every history, so every
settled call returns 0 and not the input. -/
theorem zero_row_forces_zero (s1 : Cascade1State) (s2 : Cascade2State) (axis dataRate : Nat)
    (inp : Int) (haxis : axis < 3) (hin : isInt16 inp) :
    Cascade1ZeroRow _rateFilt_3rdOrderBWF_LowPass_Axis_cascaded1st s1 axis inp dataRate ∧
    Cascade1ZeroRow _accelFilt_3rdOrderBWF_LowPass_Axis_cascaded1st s1 axis inp dataRate ∧
    Cascade2ZeroRow _rateFilt_4thOrderBWF_LowPass_Axis_cascaded2nd s2 axis inp dataRate ∧
    Cascade2ZeroRow _accel_4thOrderBWF_LowPass_Axis_cascaded2nd s2 axis inp dataRate := by
  rw [accel1_eq_rate1, accel4_eq_rate4]
  exact ⟨rate1_zero_row _ _ _ _, rate1_zero_row _ _ _ _, rate4_zero_row _ _ _ _,
    rate4_zero_row _ _ _ _⟩

/-- The zero rows at a settled call with input 12345 on a history of large values: the
call returns 0. -/
theorem zero_row_forces_zero_witness :
    (2 < 3 ∧ isInt16 12345) ∧
    Cascade1ZeroRow _accelFilt_3rdOrderBWF_LowPass_Axis_cascaded1st
      { initFilt := fun _ => 0, calledCount := 41, x_q27 := fun _ _ => 32767,
        u_q27 := fun _ _ => 2000000000000, v_q27 := fun _ _ => -5, w_q27 := fun _ _ => 9 }
      2 12345 1 ∧
    (_accelFilt_3rdOrderBWF_LowPass_Axis_cascaded1st
      { initFilt := fun _ => 0, calledCount := 41, x_q27 := fun _ _ => 32767,
        u_q27 := fun _ _ => 2000000000000, v_q27 := fun _ _ => -5, w_q27 := fun _ _ => 9 }
      2 12345 0 1).out = 0 :=
  ⟨by decide,
   (zero_row_forces_zero
      { initFilt := fun _ => 0, calledCount := 41, x_q27 := fun _ _ => 32767,
        u_q27 := fun _ _ => 2000000000000, v_q27 := fun _ _ => -5, w_q27 := fun _ _ => 9 }
      Cascade2State.init 2 1 12345 (by decide) (by decide)).2.1,
   by decide⟩

/-! ## The sample-rate selector -/

theorem rate4_ignores_dataRate :
    IgnoresDataRate _rateFilt_4thOrderBWF_LowPass_Axis_cascaded2nd := by
  intro s axis inp freq d1 d2
  rw [rate4_normal_form, rate4_normal_form]

theorem rate1_ignores_dataRate :
    IgnoresDataRate _rateFilt_3rdOrderBWF_LowPass_Axis_cascaded1st := by
  intro s axis inp freq d1 d2
  rw [rate1_normal_form, rate1_normal_form]

/-- C18. The cascaded topologies ignore the sample-rate selector: each of the four cascaded
routines gives, for every statics, axis, input and `freq`, the same `*out`, the same return
value and the same next statics for any two values of `dataRate`; the two direct-form
routines do select coefficients by `dataRate` (from a settled all-zero history the input
1000 on row 6 gives 32 with `dataRate = 0` and 5 with `dataRate = 1`). -/
theorem cascaded_ignore_data_rate :
    IgnoresDataRate _rateFilt_4thOrderBWF_LowPass_Axis_cascaded2nd ∧
    IgnoresDataRate _accel_4thOrderBWF_LowPass_Axis_cascaded2nd ∧
    IgnoresDataRate _rateFilt_3rdOrderBWF_LowPass_Axis_cascaded1st ∧
    IgnoresDataRate _accelFilt_3rdOrderBWF_LowPass_Axis_cascaded1st ∧
    ¬ IgnoresDataRate _accelFilt_3rdOrderBWF_LowPass_Axis ∧
    ¬ IgnoresDataRate _rateFilt_3rdOrderBWF_LowPass_Axis ∧
    (_accelFilt_3rdOrderBWF_LowPass_Axis DirectState.settledZero 0 1000 6 0).out = 32 ∧
    (_accelFilt_3rdOrderBWF_LowPass_Axis DirectState.settledZero 0 1000 6 1).out = 5 ∧
    (_rateFilt_3rdOrderBWF_LowPass_Axis DirectState.settledZero 0 1000 6 0).out = 32 ∧
    (_rateFilt_3rdOrderBWF_LowPass_Axis DirectState.settledZero 0 1000 6 1).out = 5 := by
  rw [accel4_eq_rate4, accel1_eq_rate1, rate3_eq_accel3]
  have h0 : (_accelFilt_3rdOrderBWF_LowPass_Axis DirectState.settledZero 0 1000 6 0).out = 32 := by
    decide
  have h1 : (_accelFilt_3rdOrderBWF_LowPass_Axis DirectState.settledZero 0 1000 6 1).out = 5 := by
    decide
  have hn : ¬ IgnoresDataRate _accelFilt_3rdOrderBWF_LowPass_Axis := by
    intro h
    have h2 := congrArg FilterResult.out (h DirectState.settledZero 0 1000 6 0 1)
    rw [h0, h1] at h2
    exact absurd h2 (by decide)
  exact ⟨rate4_ignores_dataRate, rate4_ignores_dataRate, rate1_ignores_dataRate,
    rate1_ignores_dataRate, hn, hn, h0, h1, h0, h1⟩

/-! ## The twin routines -/

theorem sameTransformer_of_eq {σ : Type} (f g : Routine σ) (init : σ) (h : f = g) :
    SameTransformer f g init := by
  subst h
  exact ⟨fun _ _ _ _ _ => ⟨rfl, rfl, rfl⟩, fun _ => rfl⟩

/-- C17. The accelerometer and rate-gyro variants of a topology are the same state
transformer: for each of the three pairs the two routines produce, from equal statics and
equal arguments, equal `*out`, equal return value and equal next statics, so their results
coincide call by call on every run from the initial statics; and a call of one routine of
a pair leaves the statics of the other routine of the pair unchanged. -/
theorem twin_routines_same_transformer :
    SameTransformer _accelFilt_3rdOrderBWF_LowPass_Axis _rateFilt_3rdOrderBWF_LowPass_Axis
      DirectState.init ∧
    SameTransformer _accel_4thOrderBWF_LowPass_Axis_cascaded2nd
      _rateFilt_4thOrderBWF_LowPass_Axis_cascaded2nd Cascade2State.init ∧
    SameTransformer _accelFilt_3rdOrderBWF_LowPass_Axis_cascaded1st
      _rateFilt_3rdOrderBWF_LowPass_Axis_cascaded1st Cascade1State.init ∧
    (∀ (g : Statics) (axis : Nat) (inp : Int) (freq dataRate : Nat),
      ((g.callAccel3 axis inp freq dataRate).rate3 = g.rate3 ∧
        (g.callRate3 axis inp freq dataRate).accel3 = g.accel3) ∧
      ((g.callAccel4 axis inp freq dataRate).rate4 = g.rate4 ∧
        (g.callRate4 axis inp freq dataRate).accel4 = g.accel4) ∧
      ((g.callAccel1 axis inp freq dataRate).rate1 = g.rate1 ∧
        (g.callRate1 axis inp freq dataRate).accel1 = g.accel1)) :=
  ⟨sameTransformer_of_eq _ _ _ rate3_eq_accel3.symm,
   sameTransformer_of_eq _ _ _ accel4_eq_rate4,
   sameTransformer_of_eq _ _ _ accel1_eq_rate1,
   fun _ _ _ _ _ => ⟨⟨rfl, rfl⟩, ⟨rfl, rfl⟩, ⟨rfl, rfl⟩⟩⟩

/-! ## The seeded state as a fixed point -/

theorem accel3_fixed_step {freq dataRate axis : Nat} {c : Int} (hfreq : freq < 7)
    (hrate : dataRate < 2) (hc : isInt16 c) (s : DirectState)
    (hs : DirectState.freshOrConst axis c s) :
    DirectState.freshOrConst axis c
      (_accelFilt_3rdOrderBWF_LowPass_Axis s axis c freq dataRate).state ∧
    ((_accelFilt_3rdOrderBWF_LowPass_Axis s axis c freq dataRate).state.y_q27 0 axis = c ∧
      (∀ k ∈ [1, 2, 3],
        (_accelFilt_3rdOrderBWF_LowPass_Axis s axis c freq dataRate).state.x_q27 k axis = c) ∧
      (∀ k, k < 4 →
        (_accelFilt_3rdOrderBWF_LowPass_Axis s axis c freq dataRate).state.y_q27 k axis = c) ∧
      (_accelFilt_3rdOrderBWF_LowPass_Axis s axis c freq dataRate).out = c) := by
  have hsd : ∀ k, k = 1 ∨ k = 2 ∨ k = 3 →
      seedv (s.initFilt axis) c (s.x_q27 k axis) = c ∧
      seedv (s.initFilt axis) c (s.y_q27 k axis) = c := by
    intro k hk
    rcases hs with hf | ⟨hx, hy⟩
    · simp [seedv, hf]
    · have hk4 : k < 4 := by omega
      simp [seedv, hx k hk, hy k hk4]
  have h1 := hsd 1 (Or.inl rfl)
  have h2 := hsd 2 (Or.inr (Or.inl rfl))
  have h3 := hsd 3 (Or.inr (Or.inr rfl))
  have hv : directValue s axis c freq dataRate = c := by
    unfold directValue
    rw [h1.1, h2.1, h3.1, h1.2, h2.2, h3.2]
    exact directY0_const hfreq hrate hc
  have h32 := toInt32_of_isInt16 hc
  have hx : ∀ k, k = 1 ∨ k = 2 ∨ k = 3 →
      (_accelFilt_3rdOrderBWF_LowPass_Axis s axis c freq dataRate).state.x_q27 k axis = c := by
    intro k hk
    rw [accel3_normal_form]
    rcases hk with rfl | rfl | rfl <;> simp [h1.1, h2.1]
  have hy : ∀ k, k < 4 →
      (_accelFilt_3rdOrderBWF_LowPass_Axis s axis c freq dataRate).state.y_q27 k axis = c := by
    intro k hk
    rw [accel3_normal_form]
    interval_cases k <;> simp [hv, h32, h1.2, h2.2]
  refine ⟨Or.inr ⟨hx, hy⟩, hy 0 (by decide), ?_, hy, ?_⟩
  · intro k hk
    apply hx
    simpa using hk
  · rw [accel3_normal_form]
    simp [hv, h32]

theorem rate4_fixed_step {freq dataRate axis : Nat} {c : Int} (hfreq : freq < 6)
    (hc : isInt16 c) (s : Cascade2State) (hs : Cascade2State.freshOrConst axis c s) :
    Cascade2State.freshOrConst axis c
      (_rateFilt_4thOrderBWF_LowPass_Axis_cascaded2nd s axis c freq dataRate).state ∧
    ((∀ k, k < 3 →
        (_rateFilt_4thOrderBWF_LowPass_Axis_cascaded2nd s axis c freq dataRate).state.x_q27 k
          axis = c ∧
        (_rateFilt_4thOrderBWF_LowPass_Axis_cascaded2nd s axis c freq dataRate).state.v_q27 k
          axis = c ∧
        (_rateFilt_4thOrderBWF_LowPass_Axis_cascaded2nd s axis c freq dataRate).state.w_q27 k
          axis = c) ∧
      (_rateFilt_4thOrderBWF_LowPass_Axis_cascaded2nd s axis c freq dataRate).out = c) := by
  have hsd : ∀ k, k < 3 →
      seedv (s.initFilt axis) c (s.x_q27 k axis) = c ∧
      seedv (s.initFilt axis) c (s.v_q27 k axis) = c ∧
      seedv (s.initFilt axis) c (s.w_q27 k axis) = c := by
    intro k hk
    rcases hs with hf | h
    · simp [seedv, hf]
    · simp [seedv, (h k hk).1, (h k hk).2.1, (h k hk).2.2]
  have h0 := hsd 0 (by decide)
  have h1 := hsd 1 (by decide)
  have h2 := hsd 2 (by decide)
  have hv : casc2V s axis c freq = c := by
    unfold casc2V
    rw [h1.1, h2.1, h1.2.1, h2.2.1]
    exact stage2_const hfreq hc
  have hw : casc2W s axis c freq = c := by
    unfold casc2W
    rw [hv, h1.2.1, h2.2.1, h1.2.2, h2.2.2]
    exact stage2_const hfreq hc
  have h32 := toInt32_of_isInt16 hc
  have hall : ∀ k, k < 3 →
      (_rateFilt_4thOrderBWF_LowPass_Axis_cascaded2nd s axis c freq dataRate).state.x_q27 k
        axis = c ∧
      (_rateFilt_4thOrderBWF_LowPass_Axis_cascaded2nd s axis c freq dataRate).state.v_q27 k
        axis = c ∧
      (_rateFilt_4thOrderBWF_LowPass_Axis_cascaded2nd s axis c freq dataRate).state.w_q27 k
        axis = c := by
    intro k hk
    rw [rate4_normal_form]
    interval_cases k <;> simp [hv, hw, h0.1, h1.1, h1.2.1, h1.2.2]
  refine ⟨Or.inr hall, hall, ?_⟩
  rw [rate4_normal_form]
  simp [hw, h32]

theorem rate1_fixed_step {freq dataRate axis : Nat} {c : Int} (hfreq0 : 1 ≤ freq)
    (hfreq : freq < 7) (hc : isInt16 c) (s : Cascade1State)
    (hs : Cascade1State.freshOrConst axis c s) :
    Cascade1State.freshOrConst axis c
      (_rateFilt_3rdOrderBWF_LowPass_Axis_cascaded1st s axis c freq dataRate).state ∧
    ((∀ k, k < 2 →
        (_rateFilt_3rdOrderBWF_LowPass_Axis_cascaded1st s axis c freq dataRate).state.x_q27 k
          axis = c ∧
        (_rateFilt_3rdOrderBWF_LowPass_Axis_cascaded1st s axis c freq dataRate).state.u_q27 k
          axis = c ∧
        (_rateFilt_3rdOrderBWF_LowPass_Axis_cascaded1st s axis c freq dataRate).state.v_q27 k
          axis = c ∧
        (_rateFilt_3rdOrderBWF_LowPass_Axis_cascaded1st s axis c freq dataRate).state.w_q27 k
          axis = c) ∧
      (_rateFilt_3rdOrderBWF_LowPass_Axis_cascaded1st s axis c freq dataRate).out = c) := by
  have hsd : ∀ k, k < 2 →
      seedv (s.initFilt axis) c (s.x_q27 k axis) = c ∧
      seedv (s.initFilt axis) c (s.u_q27 k axis) = c ∧
      seedv (s.initFilt axis) c (s.v_q27 k axis) = c ∧
      seedv (s.initFilt axis) c (s.w_q27 k axis) = c := by
    intro k hk
    rcases hs with hf | h
    · simp [seedv, hf]
    · simp [seedv, (h k hk).1, (h k hk).2.1, (h k hk).2.2.1, (h k hk).2.2.2]
  have h0 := hsd 0 (by decide)
  have h1 := hsd 1 (by decide)
  have hu : casc1U s axis c freq = c := by
    unfold casc1U
    rw [h1.1, h1.2.1]
    exact stage1_const hfreq0 hfreq hc
  have hv : casc1V s axis c freq = c := by
    unfold casc1V
    rw [hu, h1.2.1, h1.2.2.1]
    exact stage1_const hfreq0 hfreq hc
  have hw : casc1W s axis c freq = c := by
    unfold casc1W
    rw [hv, h1.2.2.1, h1.2.2.2]
    exact stage1_const hfreq0 hfreq hc
  have h32 := toInt32_of_isInt16 hc
  have hall : ∀ k, k < 2 →
      (_rateFilt_3rdOrderBWF_LowPass_Axis_cascaded1st s axis c freq dataRate).state.x_q27 k
        axis = c ∧
      (_rateFilt_3rdOrderBWF_LowPass_Axis_cascaded1st s axis c freq dataRate).state.u_q27 k
        axis = c ∧
      (_rateFilt_3rdOrderBWF_LowPass_Axis_cascaded1st s axis c freq dataRate).state.v_q27 k
        axis = c ∧
      (_rateFilt_3rdOrderBWF_LowPass_Axis_cascaded1st s axis c freq dataRate).state.w_q27 k
        axis = c := by
    intro k hk
    rw [rate1_normal_form]
    interval_cases k <;> simp [hu, hv, hw, h0.1]
  refine ⟨Or.inr hall, hall, ?_⟩
  rw [rate1_normal_form]
  simp [hw, h32]

theorem accel3_fixed_point {freq dataRate axis : Nat} {c : Int} (hfreq : freq < 7)
    (hrate : dataRate < 2) (hc : isInt16 c) :
    DirectFixedPoint _accelFilt_3rdOrderBWF_LowPass_Axis [1, 2, 3] axis c freq dataRate := by
  intro n i r hr
  exact runCalls_replicate_forall _accelFilt_3rdOrderBWF_LowPass_Axis
    (DirectState.freshOrConst axis c)
    (fun r => r.state.y_q27 0 axis = c ∧ (∀ k ∈ [1, 2, 3], r.state.x_q27 k axis = c) ∧
      (∀ k, k < 4 → r.state.y_q27 k axis = c) ∧ r.out = c)
    { axis := axis, inp := c, freq := freq, dataRate := dataRate }
    (fun s hs => accel3_fixed_step hfreq hrate hc s hs) n DirectState.init
    (Or.inl (by simp [DirectState.init])) i r hr

theorem rate4_fixed_point {freq dataRate axis : Nat} {c : Int} (hfreq : freq < 6)
    (hc : isInt16 c) :
    Cascade2FixedPoint _rateFilt_4thOrderBWF_LowPass_Axis_cascaded2nd axis c freq dataRate := by
  intro n i r hr
  exact runCalls_replicate_forall _rateFilt_4thOrderBWF_LowPass_Axis_cascaded2nd
    (Cascade2State.freshOrConst axis c)
    (fun r => (∀ k, k < 3 → r.state.x_q27 k axis = c ∧ r.state.v_q27 k axis = c ∧
      r.state.w_q27 k axis = c) ∧ r.out = c)
    { axis := axis, inp := c, freq := freq, dataRate := dataRate }
    (fun s hs => rate4_fixed_step hfreq hc s hs) n Cascade2State.init
    (Or.inl (by simp [Cascade2State.init])) i r hr

theorem rate1_fixed_point {freq dataRate axis : Nat} {c : Int} (hfreq0 : 1 ≤ freq)
    (hfreq : freq < 7) (hc : isInt16 c) :
    Cascade1FixedPoint _rateFilt_3rdOrderBWF_LowPass_Axis_cascaded1st axis c freq dataRate := by
  intro n i r hr
  exact runCalls_replicate_forall _rateFilt_3rdOrderBWF_LowPass_Axis_cascaded1st
    (Cascade1State.freshOrConst axis c)
    (fun r => (∀ k, k < 2 → r.state.x_q27 k axis = c ∧ r.state.u_q27 k axis = c ∧
      r.state.v_q27 k axis = c ∧ r.state.w_q27 k axis = c) ∧ r.out = c)
    { axis := axis, inp := c, freq := freq, dataRate := dataRate }
    (fun s hs => rate1_fixed_step hfreq0 hfreq hc s hs) n Cascade1State.init
    (Or.inl (by simp [Cascade1State.init])) i r hr

/-- C16, as the code has it. The seeded state is an exact fixed point on every non-zero
coefficient row: for the direct-form routines with every `freq` 0..6 and `dataRate` 0..1,
for the cascaded second-order routines with `freq` 0..5 and for the cascaded first-order
routines with `freq` 1..6, for every `int16_t` value `c` and every number of calls on a
fresh axis with constant input `c`, every stage value computed in every call equals `c`,
every history slot of that axis that the routine writes equals `c` after every call (all
slots of the cascaded histories and of the direct-form output history, slots 1..3 of the
direct-form input history), and every call delivers `c`. -/
theorem seeded_state_fixed_point (axis freq dataRate : Nat) (c : Int)
    (haxis : axis < 3) (hfreq : freq < 7) (hrate : dataRate < 2) (hc : isInt16 c) :
    DirectFixedPoint _accelFilt_3rdOrderBWF_LowPass_Axis [1, 2, 3] axis c freq dataRate ∧
    DirectFixedPoint _rateFilt_3rdOrderBWF_LowPass_Axis [1, 2, 3] axis c freq dataRate ∧
    (freq < 6 →
      Cascade2FixedPoint _rateFilt_4thOrderBWF_LowPass_Axis_cascaded2nd axis c freq dataRate ∧
      Cascade2FixedPoint _accel_4thOrderBWF_LowPass_Axis_cascaded2nd axis c freq dataRate) ∧
    (1 ≤ freq →
      Cascade1FixedPoint _rateFilt_3rdOrderBWF_LowPass_Axis_cascaded1st axis c freq dataRate ∧
      Cascade1FixedPoint _accelFilt_3rdOrderBWF_LowPass_Axis_cascaded1st axis c freq
        dataRate) := by
  rw [rate3_eq_accel3, accel4_eq_rate4, accel1_eq_rate1]
  exact ⟨accel3_fixed_point hfreq hrate hc, accel3_fixed_point hfreq hrate hc,
    fun h => ⟨rate4_fixed_point h hc, rate4_fixed_point h hc⟩,
    fun h => ⟨rate1_fixed_point h hfreq hc, rate1_fixed_point h hfreq hc⟩⟩

/-- The fixed point of the direct-form routine on row 3, `dataRate` 1, axis 1, input
32767. -/
theorem seeded_state_fixed_point_witness :
    (1 < 3 ∧ 3 < 7 ∧ 1 < 2 ∧ isInt16 32767) ∧
    DirectFixedPoint _rateFilt_3rdOrderBWF_LowPass_Axis [1, 2, 3] 1 32767 3 1 :=
  ⟨by decide,
   (seeded_state_fixed_point 1 3 1 32767 (by decide) (by decide) (by decide)
      (by decide)).2.1⟩

/-- C16, as the specification has it, fails on slot 0 of the direct-form input history:
`accel_x_q27[0]` and `rate_x_q27[0]` are never written, so after a call with input 100 the
slot still holds its initial 0. -/
theorem fixed_point_fails_on_unused_slot :
    ¬ DirectFixedPoint _accelFilt_3rdOrderBWF_LowPass_Axis [0, 1, 2, 3] 0 100 0 0 ∧
    ¬ DirectFixedPoint _rateFilt_3rdOrderBWF_LowPass_Axis [0, 1, 2, 3] 0 100 0 0 ∧
    (stateAfter _accelFilt_3rdOrderBWF_LowPass_Axis DirectState.init
      [{ axis := 0, inp := 100, freq := 0, dataRate := 0 }]).x_q27 0 0 = 0 := by
  refine ⟨?_, ?_, by decide⟩
  · intro h
    have h1 := (h 1 0 _ rfl).2.1 0 (by decide)
    revert h1
    decide
  · intro h
    have h1 := (h 1 0 _ rfl).2.1 0 (by decide)
    revert h1
    decide

/-! ## The cascaded first-order filter does not overshoot -/

/-- On the rows 1..6 of the first-order tables a stage fed values of an interval of
`int16_t` values produces a value of the interval, without wrap. -/
theorem stage1_in_box {freq : Nat} {lo hi p p1 q1 : Int} (hfreq0 : 1 ≤ freq)
    (hfreq : freq < 7) (hlo : isInt16 lo) (hhi : isInt16 hi)
    (hp : lo ≤ p ∧ p ≤ hi) (hp1 : lo ≤ p1 ∧ p1 ≤ hi) (hq1 : lo ≤ q1 ∧ q1 ≤ hi) :
    (lo ≤ stage1 (tab2 bc2_q27 freq 0) (tab2 ac2_q27 freq 1) p p1 q1 ∧
      stage1 (tab2 bc2_q27 freq 0) (tab2 ac2_q27 freq 1) p p1 q1 ≤ hi) ∧
    Stage1NoWrap (tab2 bc2_q27 freq 0) (tab2 ac2_q27 freq 1) p p1 q1 := by
  unfold isInt16 at hlo hhi
  have h34 : ∀ z : Int, lo ≤ z ∧ z ≤ hi → -17179869184 ≤ z ∧ z ≤ 17179869184 := by
    intro z hz
    omega
  have he := stage1_exact _ _ _ _ _ (casc1_acc_isInt64 hfreq (h34 p hp) (h34 p1 hp1) (h34 q1 hq1))
  have hb : (lo ≤ (tab2 bc2_q27 freq 0 * (p + p1) - tab2 ac2_q27 freq 1 * q1 + 67108864)
        / 134217728 ∧
      (tab2 bc2_q27 freq 0 * (p + p1) - tab2 ac2_q27 freq 1 * q1 + 67108864) / 134217728
        ≤ hi) ∧
      below63 (p + p1) ∧ below63 (tab2 bc2_q27 freq 0 * (p + p1)) ∧
      below63 (tab2 ac2_q27 freq 1 * q1) ∧
      below63 (tab2 bc2_q27 freq 0 * (p + p1) - tab2 ac2_q27 freq 1 * q1) ∧
      below63 (tab2 bc2_q27 freq 0 * (p + p1) - tab2 ac2_q27 freq 1 * q1 + 67108864) := by
    unfold below63
    interval_cases freq <;>
      simp only [tab2, ac2_q27, bc2_q27, List.getD_cons_zero, List.getD_cons_succ] <;>
      refine ⟨⟨?_, ?_⟩, ?_, ?_, ?_, ?_, ?_⟩ <;> omega
  rw [he]
  exact ⟨hb.1, hb.2.1, hb.2.2.1, hb.2.2.2.1, hb.2.2.2.2.1, hb.2.2.2.2.2, he⟩

/-- A call for axis `A` with an input of the interval, on a row 1..6, stays in the interval
and keeps the history in it. -/
theorem rate1_box_step {A freq dataRate : Nat} {lo hi inp : Int} (hfreq0 : 1 ≤ freq)
    (hfreq : freq < 7) (hlo : isInt16 lo) (hhi : isInt16 hi) (hin : lo ≤ inp ∧ inp ≤ hi)
    (s : Cascade1State) (hs : s.inBox A lo hi) :
    (_rateFilt_3rdOrderBWF_LowPass_Axis_cascaded1st s A inp freq dataRate).state.inBox A lo hi ∧
    Cascade1CallInBox _rateFilt_3rdOrderBWF_LowPass_Axis_cascaded1st s A inp freq dataRate
      lo hi := by
  have hsd : (lo ≤ seedv (s.initFilt A) inp (s.x_q27 1 A) ∧
        seedv (s.initFilt A) inp (s.x_q27 1 A) ≤ hi) ∧
      (lo ≤ seedv (s.initFilt A) inp (s.u_q27 1 A) ∧
        seedv (s.initFilt A) inp (s.u_q27 1 A) ≤ hi) ∧
      (lo ≤ seedv (s.initFilt A) inp (s.v_q27 1 A) ∧
        seedv (s.initFilt A) inp (s.v_q27 1 A) ≤ hi) ∧
      (lo ≤ seedv (s.initFilt A) inp (s.w_q27 1 A) ∧
        seedv (s.initFilt A) inp (s.w_q27 1 A) ≤ hi) := by
    rcases hs with hf | h
    · simp only [seedv, hf, ne_eq, not_false_eq_true, if_true]
      exact ⟨hin, hin, hin, hin⟩
    · unfold seedv
      split_ifs
      · exact ⟨hin, hin, hin, hin⟩
      · exact h
  obtain ⟨hX, hU, hV, hW⟩ := hsd
  have hu := stage1_in_box hfreq0 hfreq hlo hhi hin hX hU
  have hu' : lo ≤ casc1U s A inp freq ∧ casc1U s A inp freq ≤ hi := hu.1
  have hv := stage1_in_box hfreq0 hfreq hlo hhi hu' hU hV
  have hv' : lo ≤ casc1V s A inp freq ∧ casc1V s A inp freq ≤ hi := hv.1
  have hw := stage1_in_box hfreq0 hfreq hlo hhi hv' hV hW
  have hw' : lo ≤ casc1W s A inp freq ∧ casc1W s A inp freq ≤ hi := hw.1
  have hw32 : toInt32 (casc1W s A inp freq) = casc1W s A inp freq := by
    apply toInt32_of_isInt32
    unfold isInt16 at hlo hhi
    unfold isInt32
    omega
  have e0 : (_rateFilt_3rdOrderBWF_LowPass_Axis_cascaded1st s A inp freq dataRate).state.u_q27
      CURR A = casc1U s A inp freq := by
    rw [rate1_normal_form]; simp [CURR]
  have e1 : (_rateFilt_3rdOrderBWF_LowPass_Axis_cascaded1st s A inp freq dataRate).state.v_q27
      CURR A = casc1V s A inp freq := by
    rw [rate1_normal_form]; simp [CURR]
  have e2 : (_rateFilt_3rdOrderBWF_LowPass_Axis_cascaded1st s A inp freq dataRate).state.w_q27
      CURR A = casc1W s A inp freq := by
    rw [rate1_normal_form]; simp [CURR]
  constructor
  · right
    rw [rate1_normal_form]
    simp only [if_true, if_false, one_ne_zero]
    exact ⟨hin, hu', hv', hw'⟩
  · unfold Cascade1CallInBox
    rw [e0, e1, e2]
    exact ⟨hu', hv', hw', hw32, hu.2, hv.2, hw.2⟩

/-- A call for another axis leaves the history of axis `A` as it was. -/
theorem rate1_box_frame {A axis freq dataRate : Nat} {lo hi inp : Int} (hA : axis ≠ A)
    (s : Cascade1State) (hs : s.inBox A lo hi) :
    (_rateFilt_3rdOrderBWF_LowPass_Axis_cascaded1st s axis inp freq dataRate).state.inBox
      A lo hi := by
  have hA2 : ¬ A = axis := fun h => hA h.symm
  unfold Cascade1State.inBox at hs ⊢
  rw [rate1_normal_form]
  simpa [hA2] using hs

theorem rate1_box_reachable {A : Nat} {lo hi : Int} (hlo : isInt16 lo) (hhi : isInt16 hi) :
    ∀ (calls : List Call) (s : Cascade1State), s.inBox A lo hi →
      (∀ c ∈ calls, c.axis = A → (lo ≤ c.inp ∧ c.inp ≤ hi) ∧ 1 ≤ c.freq ∧ c.freq < 7) →
      (stateAfter _rateFilt_3rdOrderBWF_LowPass_Axis_cascaded1st s calls).inBox A lo hi := by
  intro calls
  induction calls with
  | nil => intro s hs _; exact hs
  | cons c cs ih =>
    intro s hs hc
    apply ih
    · by_cases hA : c.axis = A
      · obtain ⟨hin, hf0, hf⟩ := hc c (List.mem_cons_self _ _) hA
        rw [hA]
        exact (rate1_box_step hf0 hf hlo hhi hin s hs).1
      · exact rate1_box_frame hA s hs
    · intro c1 h1
      exact hc c1 (List.mem_cons_of_mem _ h1)

/-- C19. The cascaded first-order filter never overshoots: for both cascaded first-order
routines, in every run from the initial statics in which every call made for an axis has
`freq` in 1..6 and an input in an interval `[lo, hi]` of `int16_t` values (the calls for
other axes being arbitrary), every stage value `u0`, `v0`, `w0` computed for that axis in
every call lies in `[lo, hi]`; consequently no 64-bit intermediate of these calls wraps and
the cast of `w0` to `int32_t` loses nothing. -/
theorem cascaded_first_order_no_overshoot (A : Nat) (lo hi : Int) (calls : List Call)
    (hA : A < 3) (hlo : isInt16 lo) (hhi : isInt16 hi)
    (hcalls : ∀ c ∈ calls, c.axis = A → (lo ≤ c.inp ∧ c.inp ≤ hi) ∧ 1 ≤ c.freq ∧ c.freq < 7) :
    Cascade1NoOvershoot _rateFilt_3rdOrderBWF_LowPass_Axis_cascaded1st A lo hi calls ∧
    Cascade1NoOvershoot _accelFilt_3rdOrderBWF_LowPass_Axis_cascaded1st A lo hi calls := by
  rw [accel1_eq_rate1]
  have main : Cascade1NoOvershoot _rateFilt_3rdOrderBWF_LowPass_Axis_cascaded1st A lo hi
      calls := by
    intro i c hi1 hcA
    have hmem : c ∈ calls := List.getElem?_mem hi1
    obtain ⟨hin, hf0, hf⟩ := hcalls c hmem hcA
    have hbox := rate1_box_reachable hlo hhi (calls.take i) Cascade1State.init
      (Or.inl (by simp [Cascade1State.init]))
      (fun c1 h1 => hcalls c1 (List.mem_of_mem_take h1))
    exact (rate1_box_step hf0 hf hlo hhi hin _ hbox).2
  exact ⟨main, main⟩

/-- No overshoot on axis 2 for inputs in `[-50, 900]`, in a run that also calls axis 0
with another input on the row of zeros. -/
theorem cascaded_first_order_no_overshoot_witness :
    (2 < 3 ∧ isInt16 (-50) ∧ isInt16 900 ∧
      ∀ c ∈ [({ axis := 2, inp := 900, freq := 1, dataRate := 0 } : Call),
        { axis := 0, inp := 30000, freq := 0, dataRate := 0 },
        { axis := 2, inp := -50, freq := 6, dataRate := 0 }],
        c.axis = 2 → (-50 ≤ c.inp ∧ c.inp ≤ 900) ∧ 1 ≤ c.freq ∧ c.freq < 7) ∧
    Cascade1NoOvershoot _rateFilt_3rdOrderBWF_LowPass_Axis_cascaded1st 2 (-50) 900
      [{ axis := 2, inp := 900, freq := 1, dataRate := 0 },
       { axis := 0, inp := 30000, freq := 0, dataRate := 0 },
       { axis := 2, inp := -50, freq := 6, dataRate := 0 }] :=
  ⟨by decide,
   (cascaded_first_order_no_overshoot 2 (-50) 900
      [{ axis := 2, inp := 900, freq := 1, dataRate := 0 },
       { axis := 0, inp := 30000, freq := 0, dataRate := 0 },
       { axis := 2, inp := -50, freq := 6, dataRate := 0 }]
      (by decide) (by decide) (by decide) (by decide)).1⟩

/-! ## Self-test data record -/

theorem collectAll_spec (idx : Nat) :
    ∀ (readings : List (Nat → Int)) (b : BuiltInTestStruct) (m : Nat),
      b.SelfTestDataIndex = idx → b.SelfTestDataCount = m → m + readings.length ≤ 255 →
      (∀ ch, ch < 11 → -(32768 * (m : Int)) ≤ b.SelfTestSummation idx ch ∧
        b.SelfTestSummation idx ch ≤ 32768 * (m : Int)) →
      (∀ rd ∈ readings, ∀ ch, ch < 11 → isInt16 (rd ch)) →
      (collectAll b readings).SelfTestDataCount = m + readings.length ∧
      (∀ ch, ch < 11 → (collectAll b readings).SelfTestSummation idx ch =
        b.SelfTestSummation idx ch + (readings.map (fun rd => rd ch)).sum) ∧
      (∀ i ch, i ≠ idx → (collectAll b readings).SelfTestSummation i ch =
        b.SelfTestSummation i ch) := by
  intro readings
  induction readings with
  | nil =>
    intro b m _ hm _ _ _
    simp [collectAll, hm]
  | cons rd rest ih =>
    intro b m hidx hm hlen hsum hrd
    simp only [List.length_cons] at hlen
    have hstep : ∀ ch, ch < 11 →
        (BITCollectData b rd).SelfTestSummation idx ch = b.SelfTestSummation idx ch + rd ch := by
      intro ch hch
      have h1 := hsum ch hch
      have h2 := hrd rd (List.mem_cons_self _ _) ch hch
      unfold isInt16 at h2
      simp only [BITCollectData, hidx, hch, and_self, if_true]
      apply toInt32_of_isInt32
      unfold isInt32
      omega
    have hcount : (BITCollectData b rd).SelfTestDataCount = m + 1 := by
      simp only [BITCollectData, hm, toUInt8]
      omega
    have hsum1 : ∀ ch, ch < 11 →
        -(32768 * ((m + 1 : Nat) : Int)) ≤ (BITCollectData b rd).SelfTestSummation idx ch ∧
        (BITCollectData b rd).SelfTestSummation idx ch ≤ 32768 * ((m + 1 : Nat) : Int) := by
      intro ch hch
      rw [hstep ch hch]
      have h1 := hsum ch hch
      have h2 := hrd rd (List.mem_cons_self _ _) ch hch
      unfold isInt16 at h2
      push_cast
      omega
    obtain ⟨ih1, ih2, ih3⟩ := ih (BITCollectData b rd) (m + 1) (by simp [BITCollectData, hidx])
      hcount (by omega) hsum1 (fun r hr => hrd r (List.mem_cons_of_mem _ hr))
    have e : collectAll b (rd :: rest) = collectAll (BITCollectData b rd) rest := rfl
    rw [e]
    refine ⟨by rw [ih1]; simp only [List.length_cons]; omega, ?_, ?_⟩
    · intro ch hch
      rw [ih2 ch hch, hstep ch hch]
      simp only [List.map_cons, List.sum_cons]
      ring
    · intro i ch hi
      rw [ih3 i ch hi]
      simp [BITCollectData, hidx, hi]

/-- C14. Self-test accumulation: after `BITInit` with a given `SelfTest_AverageShift`, for
either value of `SelfTestDataIndex` (0 or 1) and every sequence of exactly
`SelfTest_PointsToCollect` vectors of `int16_t` readings passed to `BITCollectData`,
`SelfTestDataCount` equals `SelfTest_PointsToCollect` and
`SelfTestSummation[SelfTestDataIndex][ch]` equals the sum of the readings of channel `ch`
for each of the 11 channels, while the row of the other index is as `BITInit` left it. -/
theorem self_test_accumulation (b : BuiltInTestStruct) (readings : List (Nat → Int))
    (hidx : b.SelfTestDataIndex = 0 ∨ b.SelfTestDataIndex = 1)
    (hlen : readings.length = (BITInit b).SelfTest_PointsToCollect)
    (hrd : ∀ rd ∈ readings, ∀ ch, ch < 11 → isInt16 (rd ch)) :
    (collectAll (BITInit b) readings).SelfTestDataCount =
      (BITInit b).SelfTest_PointsToCollect ∧
    (∀ ch, ch < 11 →
      (collectAll (BITInit b) readings).SelfTestSummation b.SelfTestDataIndex ch =
        (readings.map (fun rd => rd ch)).sum) ∧
    (∀ i ch, i ≠ b.SelfTestDataIndex →
      (collectAll (BITInit b) readings).SelfTestSummation i ch =
        (BITInit b).SelfTestSummation i ch) := by
  have hp : (BITInit b).SelfTest_PointsToCollect < 256 := by
    simp only [BITInit, toUInt8]
    omega
  obtain ⟨h1, h2, h3⟩ := collectAll_spec b.SelfTestDataIndex readings (BITInit b) 0 rfl rfl
    (by omega) (fun ch _ => by simp [BITInit]) hrd
  refine ⟨by rw [h1, hlen]; omega, ?_, h3⟩
  intro ch hch
  rw [h2 ch hch]
  simp [BITInit]

/-- The example of the specification: `SelfTest_AverageShift = 3` gives
`SelfTest_PointsToCollect = 16`, and sixteen readings of 100 on channel 0 with
`SelfTestDataIndex = 0` give `SelfTestSummation[0][0] = 1600`. -/
theorem self_test_accumulation_witness :
    (BITInit { InitStructureVariables_BIT with SelfTest_AverageShift := 3 }
      ).SelfTest_PointsToCollect = 16 ∧
    (collectAll (BITInit { InitStructureVariables_BIT with SelfTest_AverageShift := 3 })
      (List.replicate 16 (fun ch => if ch = 0 then 100 else 0))).SelfTestSummation 0 0 = 1600 ∧
    (collectAll (BITInit { InitStructureVariables_BIT with SelfTest_AverageShift := 3 })
      (List.replicate 16 (fun ch => if ch = 0 then 100 else 0))).SelfTestDataCount = 16 :=
  ⟨by decide, by decide,
   (self_test_accumulation { InitStructureVariables_BIT with SelfTest_AverageShift := 3 }
      (List.replicate 16 (fun ch => if ch = 0 then 100 else 0)) (Or.inl rfl)
      (by decide) (by
        intro rd hrd ch _
        rw [List.eq_of_mem_replicate hrd]
        by_cases h : ch = 0 <;> simp [h, isInt16])).1⟩

/-- C15, amended. `SelfTest_PointsToCollect` is a power of two while it fits its
field: for every `SelfTest_AverageShift` from 0 to 6 the value `2 << SelfTest_AverageShift`
stored in the `uint8_t` field `SelfTest_PointsToCollect` is the power of two
`2^(SelfTest_AverageShift + 1)`. -/
theorem points_to_collect_power_of_two (b : BuiltInTestStruct)
    (hshift : b.SelfTest_AverageShift ≤ 6) :
    (BITInit b).SelfTest_PointsToCollect = 2 ^ (b.SelfTest_AverageShift + 1) ∧
    (∃ k, (BITInit b).SelfTest_PointsToCollect = 2 ^ k) ∧
    PointsToCollectIsPower b.SelfTest_AverageShift := by
  have h : toUInt8 (2 <<< b.SelfTest_AverageShift) = 2 ^ (b.SelfTest_AverageShift + 1) := by
    generalize b.SelfTest_AverageShift = n at hshift
    interval_cases n <;> decide
  exact ⟨h, ⟨_, h⟩, h⟩

/-- The power of two for `SelfTest_AverageShift = 6`, the largest that fits: 128. -/
theorem points_to_collect_power_of_two_witness :
    (6 : Nat) ≤ 6 ∧
    (BITInit { InitStructureVariables_BIT with SelfTest_AverageShift := 6 }
      ).SelfTest_PointsToCollect = 128 :=
  ⟨le_refl 6,
   (points_to_collect_power_of_two
      { InitStructureVariables_BIT with SelfTest_AverageShift := 6 } (le_refl 6)).1⟩

/-- C15, as the specification has it, fails from `SelfTest_AverageShift = 7` on:
`2 << 7 = 256` does not fit the `uint8_t` field, which receives 0, not a power of two. -/
theorem points_to_collect_overflows_field :
    ¬ PointsToCollectIsPower 7 ∧
    (BITInit { InitStructureVariables_BIT with SelfTest_AverageShift := 7 }
      ).SelfTest_PointsToCollect = 0 ∧
    ¬ ∃ k : Nat, (0 : Nat) = 2 ^ k := by
  refine ⟨by unfold PointsToCollectIsPower; decide, by decide, ?_⟩
  rintro ⟨k, hk⟩
  exact absurd hk.symm (by positivity)

/-! ## Index safety -/

theorem andThen_some {α β : Type} (a : α) (f : α → Option β) : andThen (some a) f = f a := rfl

theorem at1_inBounds {n : Nat} (a : Nat → Nat) {i : Nat} (h : i < n) :
    at1 n a i = some (a i) := by
  simp [at1, h]

theorem put1_inBounds {n : Nat} (a : Nat → Nat) {i : Nat} (v : Nat) (h : i < n) :
    put1 n a i v = some (set1 a i v) := by
  simp [put1, h]

theorem at2_inBounds {n m : Nat} (a : Nat → Nat → Int) {i j : Nat} (hi : i < n) (hj : j < m) :
    at2 n m a i j = some (a i j) := by
  simp [at2, hi, hj]

theorem put2_inBounds {n m : Nat} (a : Nat → Nat → Int) {i j : Nat} (v : Int) (hi : i < n)
    (hj : j < m) : put2 n m a i j v = some (set2 a i j v) := by
  simp [put2, hi, hj]

theorem a_q27_inBounds {i dataRate freq : Nat} (hi : i < 4) (hd : dataRate < 2)
    (hf : freq < 7) : tab3Checked a_q27 i dataRate freq = some (tab3 a_q27 i dataRate freq) := by
  interval_cases i <;> interval_cases dataRate <;> interval_cases freq <;> rfl

theorem b_q27_inBounds {i dataRate freq : Nat} (hi : i < 4) (hd : dataRate < 2)
    (hf : freq < 7) : tab3Checked b_q27 i dataRate freq = some (tab3 b_q27 i dataRate freq) := by
  interval_cases i <;> interval_cases dataRate <;> interval_cases freq <;> rfl

theorem ac1_q27_inBounds {freq j : Nat} (hf : freq < 7) (hj : j < 3) :
    tab2Checked ac1_q27 freq j = some (tab2 ac1_q27 freq j) := by
  interval_cases freq <;> interval_cases j <;> rfl

theorem bc1_q27_inBounds {freq j : Nat} (hf : freq < 7) (hj : j < 3) :
    tab2Checked bc1_q27 freq j = some (tab2 bc1_q27 freq j) := by
  interval_cases freq <;> interval_cases j <;> rfl

theorem ac2_q27_inBounds {freq j : Nat} (hf : freq < 7) (hj : j < 2) :
    tab2Checked ac2_q27 freq j = some (tab2 ac2_q27 freq j) := by
  interval_cases freq <;> interval_cases j <;> rfl

theorem bc2_q27_inBounds {freq j : Nat} (hf : freq < 7) (hj : j < 2) :
    tab2Checked bc2_q27 freq j = some (tab2 bc2_q27 freq j) := by
  interval_cases freq <;> interval_cases j <;> rfl

theorem accel3_checked_eq (NUM_AXIS : Nat) (s : DirectState) (axis : Nat) (inp : Int)
    (freq dataRate : Nat) (hN : axis < NUM_AXIS) (haxis : axis < 3) (hfreq : freq < 7)
    (hrate : dataRate < 2) :
    _accelFilt_3rdOrderBWF_LowPass_Axis_checked NUM_AXIS s axis inp freq dataRate =
      some (_accelFilt_3rdOrderBWF_LowPass_Axis s axis inp freq dataRate) := by
  have h04 : (0 : Nat) < 4 := by decide
  have h14 : (1 : Nat) < 4 := by decide
  have h24 : (2 : Nat) < 4 := by decide
  have h34 : (3 : Nat) < 4 := by decide
  unfold _accelFilt_3rdOrderBWF_LowPass_Axis_checked _accelFilt_3rdOrderBWF_LowPass_Axis
  by_cases hf : s.initFilt axis = 0 <;> by_cases hc : s.calledCount > WAIT_TIL_VALID <;>
    simp only [at1_inBounds _ haxis, put1_inBounds _ _ haxis, andThen_some,
      at2_inBounds _ h04 hN, at2_inBounds _ h14 hN, at2_inBounds _ h24 hN,
      at2_inBounds _ h34 hN, put2_inBounds _ _ h04 hN, put2_inBounds _ _ h14 hN,
      put2_inBounds _ _ h24 hN, put2_inBounds _ _ h34 hN,
      a_q27_inBounds h14 hrate hfreq, a_q27_inBounds h24 hrate hfreq,
      a_q27_inBounds h34 hrate hfreq, b_q27_inBounds h04 hrate hfreq,
      hf, hc, ne_eq, not_true_eq_false, not_false_eq_true, if_true, if_false]

theorem rate3_checked_eq (NUM_AXIS : Nat) (s : DirectState) (axis : Nat) (inp : Int)
    (freq dataRate : Nat) (hN : axis < NUM_AXIS) (haxis : axis < 3) (hfreq : freq < 7)
    (hrate : dataRate < 2) :
    _rateFilt_3rdOrderBWF_LowPass_Axis_checked NUM_AXIS s axis inp freq dataRate =
      some (_rateFilt_3rdOrderBWF_LowPass_Axis s axis inp freq dataRate) := by
  have h04 : (0 : Nat) < 4 := by decide
  have h14 : (1 : Nat) < 4 := by decide
  have h24 : (2 : Nat) < 4 := by decide
  have h34 : (3 : Nat) < 4 := by decide
  unfold _rateFilt_3rdOrderBWF_LowPass_Axis_checked _rateFilt_3rdOrderBWF_LowPass_Axis
  by_cases hf : s.initFilt axis = 0 <;> by_cases hc : s.calledCount > WAIT_TIL_VALID <;>
    simp only [at1_inBounds _ haxis, put1_inBounds _ _ haxis, andThen_some,
      at2_inBounds _ h04 hN, at2_inBounds _ h14 hN, at2_inBounds _ h24 hN,
      at2_inBounds _ h34 hN, put2_inBounds _ _ h04 hN, put2_inBounds _ _ h14 hN,
      put2_inBounds _ _ h24 hN, put2_inBounds _ _ h34 hN,
      a_q27_inBounds h14 hrate hfreq, a_q27_inBounds h24 hrate hfreq,
      a_q27_inBounds h34 hrate hfreq, b_q27_inBounds h04 hrate hfreq,
      hf, hc, ne_eq, not_true_eq_false, not_false_eq_true, if_true, if_false]

theorem rate4_checked_eq (NUM_AXIS : Nat) (s : Cascade2State) (axis : Nat) (inp : Int)
    (freq dataRate : Nat) (hN : axis < NUM_AXIS) (haxis : axis < 3) (hfreq : freq < 7) :
    _rateFilt_4thOrderBWF_LowPass_Axis_cascaded2nd_checked NUM_AXIS s axis inp freq dataRate =
      some (_rateFilt_4thOrderBWF_LowPass_Axis_cascaded2nd s axis inp freq dataRate) := by
  have h0 : (0 : Nat) < 3 := by decide
  have h1 : (1 : Nat) < 3 := by decide
  have h2 : (2 : Nat) < 3 := by decide
  have t0 : (0 : Nat) < 3 := by decide
  have t1 : (1 : Nat) < 3 := by decide
  unfold _rateFilt_4thOrderBWF_LowPass_Axis_cascaded2nd_checked _rateFilt_4thOrderBWF_LowPass_Axis_cascaded2nd
  by_cases hf : s.initFilt axis = 0 <;> by_cases hc : s.calledCount > WAIT_TIL_VALID <;>
    simp only [CURR, PASTx1, PASTx2, at1_inBounds _ haxis, put1_inBounds _ _ haxis,
      andThen_some, at2_inBounds _ h0 hN, at2_inBounds _ h1 hN, at2_inBounds _ h2 hN,
      put2_inBounds _ _ h0 hN, put2_inBounds _ _ h1 hN, put2_inBounds _ _ h2 hN,
      ac1_q27_inBounds hfreq t0, ac1_q27_inBounds hfreq t1, ac1_q27_inBounds hfreq h2,
      bc1_q27_inBounds hfreq t0, bc1_q27_inBounds hfreq t1, bc1_q27_inBounds hfreq h2,
      hf, hc, ne_eq, not_true_eq_false, not_false_eq_true, if_true, if_false]

theorem accel4_checked_eq (NUM_AXIS : Nat) (s : Cascade2State) (axis : Nat) (inp : Int)
    (freq dataRate : Nat) (hN : axis < NUM_AXIS) (haxis : axis < 3) (hfreq : freq < 7) :
    _accel_4thOrderBWF_LowPass_Axis_cascaded2nd_checked NUM_AXIS s axis inp freq dataRate =
      some (_accel_4thOrderBWF_LowPass_Axis_cascaded2nd s axis inp freq dataRate) := by
  have h0 : (0 : Nat) < 3 := by decide
  have h1 : (1 : Nat) < 3 := by decide
  have h2 : (2 : Nat) < 3 := by decide
  have t0 : (0 : Nat) < 3 := by decide
  have t1 : (1 : Nat) < 3 := by decide
  unfold _accel_4thOrderBWF_LowPass_Axis_cascaded2nd_checked _accel_4thOrderBWF_LowPass_Axis_cascaded2nd
  by_cases hf : s.initFilt axis = 0 <;> by_cases hc : s.calledCount > WAIT_TIL_VALID <;>
    simp only [CURR, PASTx1, PASTx2, at1_inBounds _ haxis, put1_inBounds _ _ haxis,
      andThen_some, at2_inBounds _ h0 hN, at2_inBounds _ h1 hN, at2_inBounds _ h2 hN,
      put2_inBounds _ _ h0 hN, put2_inBounds _ _ h1 hN, put2_inBounds _ _ h2 hN,
      ac1_q27_inBounds hfreq t0, ac1_q27_inBounds hfreq t1, ac1_q27_inBounds hfreq h2,
      bc1_q27_inBounds hfreq t0, bc1_q27_inBounds hfreq t1, bc1_q27_inBounds hfreq h2,
      hf, hc, ne_eq, not_true_eq_false, not_false_eq_true, if_true, if_false]

theorem rate1_checked_eq (NUM_AXIS : Nat) (s : Cascade1State) (axis : Nat) (inp : Int)
    (freq dataRate : Nat) (hN : axis < NUM_AXIS) (haxis : axis < 3) (hfreq : freq < 7) :
    _rateFilt_3rdOrderBWF_LowPass_Axis_cascaded1st_checked NUM_AXIS s axis inp freq dataRate =
      some (_rateFilt_3rdOrderBWF_LowPass_Axis_cascaded1st s axis inp freq dataRate) := by
  have h0 : (0 : Nat) < 2 := by decide
  have h1 : (1 : Nat) < 2 := by decide
  have t0 : (0 : Nat) < 2 := by decide
  have t1 : (1 : Nat) < 2 := by decide
  unfold _rateFilt_3rdOrderBWF_LowPass_Axis_cascaded1st_checked _rateFilt_3rdOrderBWF_LowPass_Axis_cascaded1st
  by_cases hf : s.initFilt axis = 0 <;> by_cases hc : s.calledCount > WAIT_TIL_VALID <;>
    simp only [CURR, PASTx1, PASTx2, at1_inBounds _ haxis, put1_inBounds _ _ haxis,
      andThen_some, at2_inBounds _ h0 hN, at2_inBounds _ h1 hN,
      put2_inBounds _ _ h0 hN, put2_inBounds _ _ h1 hN,
      ac2_q27_inBounds hfreq t0, ac2_q27_inBounds hfreq t1,
      bc2_q27_inBounds hfreq t0, bc2_q27_inBounds hfreq t1,
      hf, hc, ne_eq, not_true_eq_false, not_false_eq_true, if_true, if_false]

theorem accel1_checked_eq (NUM_AXIS : Nat) (s : Cascade1State) (axis : Nat) (inp : Int)
    (freq dataRate : Nat) (hN : axis < NUM_AXIS) (haxis : axis < 3) (hfreq : freq < 7) :
    _accelFilt_3rdOrderBWF_LowPass_Axis_cascaded1st_checked NUM_AXIS s axis inp freq dataRate =
      some (_accelFilt_3rdOrderBWF_LowPass_Axis_cascaded1st s axis inp freq dataRate) := by
  have h0 : (0 : Nat) < 2 := by decide
  have h1 : (1 : Nat) < 2 := by decide
  have t0 : (0 : Nat) < 2 := by decide
  have t1 : (1 : Nat) < 2 := by decide
  unfold _accelFilt_3rdOrderBWF_LowPass_Axis_cascaded1st_checked _accelFilt_3rdOrderBWF_LowPass_Axis_cascaded1st
  by_cases hf : s.initFilt axis = 0 <;> by_cases hc : s.calledCount > WAIT_TIL_VALID <;>
    simp only [CURR, PASTx1, PASTx2, at1_inBounds _ haxis, put1_inBounds _ _ haxis,
      andThen_some, at2_inBounds _ h0 hN, at2_inBounds _ h1 hN,
      put2_inBounds _ _ h0 hN, put2_inBounds _ _ h1 hN,
      ac2_q27_inBounds hfreq t0, ac2_q27_inBounds hfreq t1,
      bc2_q27_inBounds hfreq t0, bc2_q27_inBounds hfreq t1,
      hf, hc, ne_eq, not_true_eq_false, not_false_eq_true, if_true, if_false]

/-- C13. Index safety under the enumerated selectors: for each of the six filter routines, if
`axis < 3`, `freq < 7` and `dataRate < 2` (with `NUM_AXIS >= 3`), every coefficient-table
lookup and every access to the flag and history arrays is within the declared bounds: the
routine with Option-valued indexing never takes the out-of-range branch, and returns what
the routine returns. -/
theorem index_safety (NUM_AXIS : Nat) (sd : DirectState) (s2 : Cascade2State)
    (s1 : Cascade1State) (axis : Nat) (inp : Int) (freq dataRate : Nat)
    (hN : 3 ≤ NUM_AXIS) (haxis : axis < 3) (hfreq : freq < 7) (hrate : dataRate < 2) :
    AllAccessesInBounds NUM_AXIS sd s2 s1 axis inp freq dataRate :=
  have h : axis < NUM_AXIS := Nat.lt_of_lt_of_le haxis hN
  ⟨accel3_checked_eq NUM_AXIS sd axis inp freq dataRate h haxis hfreq hrate,
   rate3_checked_eq NUM_AXIS sd axis inp freq dataRate h haxis hfreq hrate,
   rate4_checked_eq NUM_AXIS s2 axis inp freq dataRate h haxis hfreq,
   accel4_checked_eq NUM_AXIS s2 axis inp freq dataRate h haxis hfreq,
   rate1_checked_eq NUM_AXIS s1 axis inp freq dataRate h haxis hfreq,
   accel1_checked_eq NUM_AXIS s1 axis inp freq dataRate h haxis hfreq⟩

/-- The largest selectors, `axis = 2`, `freq = 6` and `dataRate = 1` with `NUM_AXIS = 3`, on
the initial statics; and the checks do reject: `axis = 3`, `freq = 7` and `dataRate = 2`
each take the out-of-range branch. -/
theorem index_safety_witness :
    AllAccessesInBounds 3 DirectState.init Cascade2State.init Cascade1State.init 2 100 6 1 ∧
    (_accelFilt_3rdOrderBWF_LowPass_Axis_checked 3 DirectState.init 3 100 6 1).isNone = true ∧
    (_accelFilt_3rdOrderBWF_LowPass_Axis_checked 3 DirectState.init 2 100 7 1).isNone = true ∧
    (_accelFilt_3rdOrderBWF_LowPass_Axis_checked 3 DirectState.init 2 100 6 2).isNone = true ∧
    (_rateFilt_4thOrderBWF_LowPass_Axis_cascaded2nd_checked 3 Cascade2State.init 2 100 7
      1).isNone = true ∧
    (_rateFilt_3rdOrderBWF_LowPass_Axis_cascaded1st_checked 3 Cascade1State.init 2 100 7
      1).isNone = true ∧
    (_rateFilt_3rdOrderBWF_LowPass_Axis_cascaded1st_checked 2 Cascade1State.init 2 100 6
      1).isNone = true :=
  ⟨index_safety 3 DirectState.init Cascade2State.init Cascade1State.init 2 100 6 1
     (by decide) (by decide) (by decide) (by decide),
   by decide, by decide, by decide, by decide, by decide, by decide⟩

/-! ## Saturation of the called-counter -/

theorem counterSaturates_of_step {σ : Type} (f : Routine σ) (count : σ → Nat) (init : σ)
    (h0 : count init = 0)
    (hcount : ∀ (s : σ) (axis : Nat) (inp : Int) (freq dataRate : Nat),
      count (f s axis inp freq dataRate).state =
        if 40 < count s then count s else toUInt8 (count s + 1)) :
    CounterSaturates f count init := by
  intro calls c
  have h := count_stateAfter f count hcount calls init (by omega)
  have h1 := hcount (stateAfter f init calls) c.axis c.inp c.freq c.dataRate
  have hle : count (stateAfter f init calls) ≤ 41 := by
    rw [h]
    exact Nat.min_le_right _ _
  unfold toUInt8 at h1
  by_cases hc : 40 < count (stateAfter f init calls)
  · rw [if_pos hc] at h1
    refine ⟨hle, ?_, ?_, ?_, ?_⟩ <;> omega
  · rw [if_neg hc] at h1
    refine ⟨hle, ?_, ?_, ?_, ?_⟩ <;> omega

theorem settlingPermanent_of_settledByCallCount {σ : Type} (f : Routine σ) (init : σ)
    (h : ∀ calls, SettledByCallCount f init calls) : SettlingPermanent f init := by
  intro calls i j r r2 hij hr hr2 h1
  have hi := h calls i r hr
  have hj := h calls j r2 hr2
  by_cases h41 : 41 ≤ i
  · rw [hj, if_pos (le_trans h41 hij)]
  · rw [hi, if_neg h41] at h1
    exact absurd h1 (by decide)

theorem longRunSettles_of_step {σ : Type} (f : Routine σ) (count : σ → Nat) (init : σ)
    (h0 : count init = 0)
    (hret : ∀ (s : σ) (axis : Nat) (inp : Int) (freq dataRate : Nat),
      (f s axis inp freq dataRate).ret = if 40 < count s then 1 else 0)
    (hcount : ∀ (s : σ) (axis : Nat) (inp : Int) (freq dataRate : Nat),
      count (f s axis inp freq dataRate).state =
        if 40 < count s then count s else toUInt8 (count s + 1))
    (freq : Nat) : LongRunSettles f count init freq := by
  constructor
  · rw [count_stateAfter f count hcount (longRun freq) init (by omega), h0, longRun,
      List.length_replicate]
    decide
  · intro i r hr
    rw [settledByCallCount_of_step f count init h0 hret hcount (longRun freq) i r hr]
    by_cases h41 : 41 ≤ i <;> simp [h41]

theorem accel3_saturates :
    CounterSaturates _accelFilt_3rdOrderBWF_LowPass_Axis DirectState.calledCount
      DirectState.init ∧
    SettlingPermanent _accelFilt_3rdOrderBWF_LowPass_Axis DirectState.init ∧
    ∀ freq, LongRunSettles _accelFilt_3rdOrderBWF_LowPass_Axis DirectState.calledCount
      DirectState.init freq :=
  ⟨counterSaturates_of_step _ DirectState.calledCount DirectState.init rfl (fun s a x fr d => (accel3_ret_count s a x fr d).2),
   settlingPermanent_of_settledByCallCount _ _ (fun calls =>
     settledByCallCount_of_step _ DirectState.calledCount DirectState.init rfl
       (fun s a x fr d => (accel3_ret_count s a x fr d).1)
       (fun s a x fr d => (accel3_ret_count s a x fr d).2) calls),
   fun freq => longRunSettles_of_step _ DirectState.calledCount DirectState.init rfl
     (fun s a x fr d => (accel3_ret_count s a x fr d).1)
     (fun s a x fr d => (accel3_ret_count s a x fr d).2) freq⟩

theorem rate4_saturates :
    CounterSaturates _rateFilt_4thOrderBWF_LowPass_Axis_cascaded2nd Cascade2State.calledCount
      Cascade2State.init ∧
    SettlingPermanent _rateFilt_4thOrderBWF_LowPass_Axis_cascaded2nd Cascade2State.init ∧
    ∀ freq, LongRunSettles _rateFilt_4thOrderBWF_LowPass_Axis_cascaded2nd
      Cascade2State.calledCount Cascade2State.init freq :=
  ⟨counterSaturates_of_step _ Cascade2State.calledCount Cascade2State.init rfl (fun s a x fr d => (rate4_ret_count s a x fr d).2),
   settlingPermanent_of_settledByCallCount _ _ (fun calls =>
     settledByCallCount_of_step _ Cascade2State.calledCount Cascade2State.init rfl
       (fun s a x fr d => (rate4_ret_count s a x fr d).1)
       (fun s a x fr d => (rate4_ret_count s a x fr d).2) calls),
   fun freq => longRunSettles_of_step _ Cascade2State.calledCount Cascade2State.init rfl
     (fun s a x fr d => (rate4_ret_count s a x fr d).1)
     (fun s a x fr d => (rate4_ret_count s a x fr d).2) freq⟩

theorem rate1_saturates :
    CounterSaturates _rateFilt_3rdOrderBWF_LowPass_Axis_cascaded1st Cascade1State.calledCount
      Cascade1State.init ∧
    SettlingPermanent _rateFilt_3rdOrderBWF_LowPass_Axis_cascaded1st Cascade1State.init ∧
    ∀ freq, LongRunSettles _rateFilt_3rdOrderBWF_LowPass_Axis_cascaded1st
      Cascade1State.calledCount Cascade1State.init freq :=
  ⟨counterSaturates_of_step _ Cascade1State.calledCount Cascade1State.init rfl (fun s a x fr d => (rate1_ret_count s a x fr d).2),
   settlingPermanent_of_settledByCallCount _ _ (fun calls =>
     settledByCallCount_of_step _ Cascade1State.calledCount Cascade1State.init rfl
       (fun s a x fr d => (rate1_ret_count s a x fr d).1)
       (fun s a x fr d => (rate1_ret_count s a x fr d).2) calls),
   fun freq => longRunSettles_of_step _ Cascade1State.calledCount Cascade1State.init rfl
     (fun s a x fr d => (rate1_ret_count s a x fr d).1)
     (fun s a x fr d => (rate1_ret_count s a x fr d).2) freq⟩

/-- C21. The warm-up counter saturates and settling is permanent: for each of the six filter
routines, in every statics reachable from the initial statics the 8-bit called-counter is at
most 41; a call never decreases it, never increments it once it exceeds 40, and below that
stores the counter plus one itself, so the counter never wraps modulo 256; hence once a call
has returned settled = 1 every later call to the routine returns settled = 1. On a run of
300 calls the counter ends at 41 and exactly the calls from the 42nd on return 1. -/
theorem warmup_counter_saturates :
    (CounterSaturates _accelFilt_3rdOrderBWF_LowPass_Axis DirectState.calledCount
        DirectState.init ∧
      SettlingPermanent _accelFilt_3rdOrderBWF_LowPass_Axis DirectState.init ∧
      ∀ freq, LongRunSettles _accelFilt_3rdOrderBWF_LowPass_Axis DirectState.calledCount
        DirectState.init freq) ∧
    (CounterSaturates _rateFilt_3rdOrderBWF_LowPass_Axis DirectState.calledCount
        DirectState.init ∧
      SettlingPermanent _rateFilt_3rdOrderBWF_LowPass_Axis DirectState.init ∧
      ∀ freq, LongRunSettles _rateFilt_3rdOrderBWF_LowPass_Axis DirectState.calledCount
        DirectState.init freq) ∧
    (CounterSaturates _rateFilt_4thOrderBWF_LowPass_Axis_cascaded2nd
        Cascade2State.calledCount Cascade2State.init ∧
      SettlingPermanent _rateFilt_4thOrderBWF_LowPass_Axis_cascaded2nd Cascade2State.init ∧
      ∀ freq, LongRunSettles _rateFilt_4thOrderBWF_LowPass_Axis_cascaded2nd
        Cascade2State.calledCount Cascade2State.init freq) ∧
    (CounterSaturates _accel_4thOrderBWF_LowPass_Axis_cascaded2nd
        Cascade2State.calledCount Cascade2State.init ∧
      SettlingPermanent _accel_4thOrderBWF_LowPass_Axis_cascaded2nd Cascade2State.init ∧
      ∀ freq, LongRunSettles _accel_4thOrderBWF_LowPass_Axis_cascaded2nd
        Cascade2State.calledCount Cascade2State.init freq) ∧
    (CounterSaturates _rateFilt_3rdOrderBWF_LowPass_Axis_cascaded1st
        Cascade1State.calledCount Cascade1State.init ∧
      SettlingPermanent _rateFilt_3rdOrderBWF_LowPass_Axis_cascaded1st Cascade1State.init ∧
      ∀ freq, LongRunSettles _rateFilt_3rdOrderBWF_LowPass_Axis_cascaded1st
        Cascade1State.calledCount Cascade1State.init freq) ∧
    (CounterSaturates _accelFilt_3rdOrderBWF_LowPass_Axis_cascaded1st
        Cascade1State.calledCount Cascade1State.init ∧
      SettlingPermanent _accelFilt_3rdOrderBWF_LowPass_Axis_cascaded1st Cascade1State.init ∧
      ∀ freq, LongRunSettles _accelFilt_3rdOrderBWF_LowPass_Axis_cascaded1st
        Cascade1State.calledCount Cascade1State.init freq) := by
  rw [rate3_eq_accel3, accel4_eq_rate4, accel1_eq_rate1]
  exact ⟨accel3_saturates, accel3_saturates, rate4_saturates, rate4_saturates,
    rate1_saturates, rate1_saturates⟩

end LowpassFilter
